import Mathlib

/-!
# KittyEngine: GPU resource lifecycle and frame orchestration

A shallow embedding of the scene manager (`KScene.cpp`, `IObject.cpp`), of the
swap chain negotiation (`Vulkan/KVulkanSwapChain.cpp`), of buffers, images and
the descriptor pool (`Vulkan/KVulkanBuffer.cpp`, `Vulkan/KVulkanImage.cpp`,
`Vulkan/KVulkanDescriptorPool.cpp`) and of frame submission and swap chain
recreation (`Vulkan/KVulkan.cpp`, `KEngine.cpp`), of the model loader
(`KModelLoaderTinyObj.cpp`), of queue family selection
(`Vulkan/KVulkanDevice.cpp`) and of pipeline creation
(`Vulkan/KVulkanGraphicsPipeline.cpp`), followed by the properties established
about them.

Conventions of the embedding

* Pointers to scene objects are positions in the scene's object list: the scene
  only ever appends to that list or clears it.
* Every object owns its mesh: `KModelLoaderTinyObj::LoadModel` allocates a fresh
  `KMesh` for each object it returns (cached data is copied into it).
* `size_t` and `VkDeviceSize` are 64 bit wide and are reduced modulo `2 ^ 64`.
  The `uint32_t` counters that run over in-memory containers (vertex offsets,
  list cursors, descriptor counts) are natural numbers: the containers are
  taken to hold far fewer than `2 ^ 32` elements, so those counters never wrap.
  The image count of the swap chain starts from a number the driver reports,
  and its increment is reduced modulo `2 ^ 32`.
* Vertex and instance payloads are type parameters; the code only copies them.
* In the scene manager and the swap chain negotiation, calls into the Vulkan
  driver are taken to succeed; what the driver reports (limits, surface
  capabilities) is an input of the functions that read it. The constructors of
  buffers and images and `DrawFrame` take the result code of every driver call
  they examine as an input.
* Enumerators and flags of the Vulkan headers carry their numeric values.
* Where the source has undefined behaviour (a read or write outside a
  container, a remainder by zero) the function yields `none`; a loop that may
  not terminate takes fuel and yields `none` when it runs out.
* `float` values are elements of a type parameter with the operations the code
  applies to them.
-/

namespace Kitty

/-! ## Machine integers -/

/-- Reduction of a natural number to the range of `size_t`. -/
def toSizeT (x : Nat) : Nat := x % 2 ^ 64

/-- Bitwise complement on `size_t`, the operator written `~` in the source. -/
def sizeNot (x : Nat) : Nat := 2 ^ 64 - 1 - toSizeT x

/-- Largest `uint32_t`, `std::numeric_limits<uint32_t>::max()`. -/
def UINT32_MAX : Nat := 2 ^ 32 - 1

/-- Conversion `static_cast<uint32_t>` of a signed `int`. -/
def castU32 (x : Int) : Nat := (x % 2 ^ 32).toNat

/-! ## Error codes (`include/KError.h`) -/

/-- Engine error codes, `Kitty::Error::KError`. -/
inductive KError where
  | KE_UNKNOWN_ERR
  | KE_STOP
  | KE_OK
  | KE_WINDOW_CREATE_FAIL
  | KE_INIT_FAIL
  | KE_MAX_ENTITIES
  | KE_UNKNOWN_VULKAN
  | KE_VULKAN_INIT_FAIL
  | KE_VULKAN_NO_DEVICE
  | KE_VULKAN_DEVICE_FAIL
  | KE_VULKAN_SURFACE_FAIL
  | KE_VULKAN_SWAPCHAIN_FAIL
  | KE_VULKAN_IMAGEVIEW_FAIL
  | KE_VULKAN_GPIPELINE_FAIL
  | KE_VULKAN_RENDERPASS_FAIL
  | KE_VULKAN_FRAMEBUFFER_FAIL
  | KE_VULKAN_EXT_NOT_AVAILABLE
  | KE_VULKAN_VLAYER_NOT_AVAILABLE
  | KE_VULKAN_TEXTURE_SAMPLER_FAIL
  | KE_VULKAN_DEBUG_INIT_FAIL
  | KE_VULKAN_SC_PRESENT_FAIL
  | KE_VULKAN_CMDPOOL_FAIL
  | KE_VULKAN_CMDBUFFERS_FAIL
  | KE_VULKAN_SEMAPHORE_FAIL
  | KE_VULKAN_SHADER_FAIL
  | KE_VULKAN_DRAW_FAIL
  | KE_VULKAN_MEMORY_FAIL
  | KE_VULKAN_SC_OUT_OF_DATE
  | KE_VULKAN_BUFFER_TOO_SMALL
  | KE_VULKAN_BUFFER_CREATE_FAIL
  | KE_VULKAN_DESC_SET_LAYOUT_FAIL
  | KE_VULKAN_DESC_POOL_FAIL
  | KE_VULKAN_DESC_SET_FAIL
  | KE_TEXTURE_LOAD_FAIL
  | KE_TEXTURE_ALLOC_FAIL
  | KE_UNSUPPORTED_LAYOUT
  | KE_MODEL_LOAD_FAIL
  | KE_UNKNOWN_BUFFER_TYPE
deriving DecidableEq, Repr

/-! ## GPU buffers (`Vulkan/KVulkanBuffer.cpp`, `include/Vulkan/KVulkanBuffer.h`) -/

/-- A `Vulkan::KVulkanBuffer` object. The field `id` stands for the address of the
object (two buffers are the same buffer when their ids agree) and `size` is its
member `size`, the capacity in bytes it was created with. -/
structure KVulkanBuffer where
  id : Nat
  size : Nat
deriving DecidableEq, Repr

/-- The part of the Vulkan context (`Vulkan::KVulkan`) that the scene manager
relies on: the buffers that have been constructed and not yet destroyed, the
address the next constructed buffer receives, the device limit
`minUniformBufferOffsetAlignment` and the flag `doCreateInstancingPipeline` of
the graphics settings. -/
structure KVulkan where
  buffers : List KVulkanBuffer
  nextBuffer : Nat
  minUniformBufferOffsetAlignment : Nat
  doCreateInstancingPipeline : Bool
deriving DecidableEq, Repr

/-- Expression `new Vulkan::KVulkanBuffer(vulkan, size, usage, properties)`: the
constructor records `size` and the new buffer joins the live buffers. -/
def KVulkan.newBuffer (vk : KVulkan) (size : Nat) : KVulkanBuffer × KVulkan :=
  let b : KVulkanBuffer := { id := vk.nextBuffer, size := toSizeT size }
  (b, { vk with buffers := vk.buffers ++ [b], nextBuffer := vk.nextBuffer + 1 })

/-- Expression `delete (buffer)`: the destructor releases the buffer. -/
def KVulkan.deleteBuffer (vk : KVulkan) (b : KVulkanBuffer) : KVulkan :=
  { vk with buffers := vk.buffers.filter (fun x => x.id != b.id) }

/-- Method `KVulkanBuffer::Fill` applied to a vector of `dataCount` elements: the
error it throws, or the number of bytes it hands to `memcpy`. -/
def KVulkanBuffer.Fill (b : KVulkanBuffer) (dataCount : Nat) : Except KError Nat :=
  if b.size < dataCount then .error .KE_VULKAN_BUFFER_TOO_SMALL
  else .ok b.size

/-- Copy region `VkBufferCopy`; the default-constructed region is all zero. -/
structure VkBufferCopy where
  srcOffset : Nat
  dstOffset : Nat
  size : Nat
deriving DecidableEq, Repr

/-- Method `KVulkanBuffer::Copy`: the error it throws, or the region it records
with `vkCmdCopyBuffer`. -/
def KVulkanBuffer.Copy (b srcBuffer : KVulkanBuffer) (copyRegion : VkBufferCopy) :
    Except KError VkBufferCopy :=
  let copyRegion :=
    if copyRegion.size = 0 then { copyRegion with size := srcBuffer.size } else copyRegion
  if copyRegion.size > b.size then .error .KE_VULKAN_BUFFER_TOO_SMALL
  else .ok copyRegion

/-! ## Scene data (`include/KMesh.h`, `include/IObject.h`, `include/KInstancedObject.h`,
`include/KScene.h`) -/

/-- Mesh data `KMesh`: vertices, object-local indices and the offset of the mesh
in the combined vertex buffer. -/
structure KMesh (V : Type) where
  vertices : List V
  indices : List Nat
  bufferOffset : Nat
deriving DecidableEq, Repr

/-- Method `KMesh::SetBufferOffset`. -/
def KMesh.SetBufferOffset {V : Type} (m : KMesh V) (offset : Nat) : KMesh V :=
  { m with bufferOffset := offset }

/-- Method `KMesh::GetBufferOffset`. -/
def KMesh.GetBufferOffset {V : Type} (m : KMesh V) : Nat := m.bufferOffset

/-- Scene node `IObject` / `KObject`: its mesh, the number of instances created
from it and its index in the scene object tracker. -/
structure KObject (V : Type) where
  mesh : KMesh V
  instanceCount : Nat
  index : Nat
deriving DecidableEq, Repr

/-- Method `IObject::SetIndex`. -/
def KObject.SetIndex {V : Type} (o : KObject V) (objectIndex : Nat) : KObject V :=
  { o with index := objectIndex }

/-- Constructor `KObject::KObject(contextScene, model)`: no instances, index 0. -/
def KObject.new {V : Type} (model : KMesh V) : KObject V :=
  { mesh := model, instanceCount := 0, index := 0 }

/-- Instance `KInstancedObject`: `instanceParent` is the position of the parent
in the scene's object list, `instanceData` the per-instance block. -/
structure KInstancedObject (D : Type) where
  instanceParent : Nat
  instanceData : D
deriving DecidableEq, Repr

/-- Buffer kinds, `KScene::KE_BUFFER_TYPE`. -/
inductive KE_BUFFER_TYPE where
  | KT_BUFFER_VERTEX
  | KT_BUFFER_INDEX
  | KT_BUFFER_INSTANCE
deriving DecidableEq, Repr

/-- Sizes in bytes that `sizeof` reports for the payload structures of
`KVulkanHelpers.h`; they depend on the layout of the `glm` vector types. -/
structure PayloadSizes where
  sizeofVertex : Nat
  sizeofInstanceData : Nat
  sizeofVxDynamicUBO : Nat
  sizeofUniformBufferObject : Nat
  sizeofLightUniformBufferObject : Nat
deriving DecidableEq, Repr

/-- Size in bytes of an index, `sizeof(uint32_t)`. -/
def sizeofIndex : Nat := 4

/-- Members of `KScene` that hold the scene content and its GPU buffers. A
buffer pointer that is `nullptr` is `none`. -/
structure KScene (V D : Type) where
  vulkan : KVulkan
  instanceBuffer : Option KVulkanBuffer
  vertexBuffer : Option KVulkanBuffer
  indexBuffer : Option KVulkanBuffer
  dummyInstanceBuffer : KVulkanBuffer
  dummyIndexBuffer : KVulkanBuffer
  dummyVertexBuffer : KVulkanBuffer
  lightsBuffer : KVulkanBuffer
  uniformBuffer : KVulkanBuffer
  vxDynamicBuffer : Option KVulkanBuffer
  dynamicAlignment : Nat
  instancedObjects : List (KInstancedObject D)
  objects : List (KObject V)

/-! ## Scene construction and instancing (`KScene.cpp`, `IObject.cpp`) -/

/-- Round-up used twice by `KScene::CreateUniformBuffers`:
`if (size % a) size = (size + a - 1) & ~(a - 1);`. -/
def CreateUniformBuffers.align (size minUBOAlignment : Nat) : Nat :=
  if size % minUBOAlignment ≠ 0 then
    toSizeT (size + minUBOAlignment - 1) &&& sizeNot (minUBOAlignment - 1)
  else size

/-- Constructor `KScene::KScene`, as far as buffers and scene lists go:
`CreateUniformBuffers` allocates the camera and the lights buffer, then the
three dummy buffers of one byte are allocated (instance, vertex, index, in this
order). The remainder by a zero alignment in `CreateUniformBuffers` is
undefined, hence `none`. -/
def KScene.new (V D : Type) (sz : PayloadSizes) (vulkanContext : KVulkan) :
    Option (KScene V D) :=
  let minUBOAlignment := toSizeT vulkanContext.minUniformBufferOffsetAlignment
  if minUBOAlignment = 0 then none
  else
    let uniformSize := CreateUniformBuffers.align (toSizeT sz.sizeofUniformBufferObject)
      minUBOAlignment
    let lightsSize := CreateUniformBuffers.align (toSizeT sz.sizeofLightUniformBufferObject)
      minUBOAlignment
    let (uniformBuffer, vk) := vulkanContext.newBuffer uniformSize
    let (lightsBuffer, vk) := vk.newBuffer lightsSize
    let (dummyInstanceBuffer, vk) := vk.newBuffer 1
    let (dummyVertexBuffer, vk) := vk.newBuffer 1
    let (dummyIndexBuffer, vk) := vk.newBuffer 1
    some
      { vulkan := vk
        instanceBuffer := none
        vertexBuffer := none
        indexBuffer := none
        dummyInstanceBuffer := dummyInstanceBuffer
        dummyIndexBuffer := dummyIndexBuffer
        dummyVertexBuffer := dummyVertexBuffer
        lightsBuffer := lightsBuffer
        uniformBuffer := uniformBuffer
        vxDynamicBuffer := none
        dynamicAlignment := 0
        instancedObjects := []
        objects := [] }

/-- Method `KScene::LoadModel`, given the mesh the model loader produced: the new
object is appended to the object list. -/
def KScene.LoadModel {V D : Type} (s : KScene V D) (model : KMesh V) : KScene V D :=
  { s with objects := s.objects ++ [KObject.new model] }

/-- Method `KScene::AddObjectInstance`: a new `KInstancedObject` with the given
parent is appended to the instance list. `d` is the instance block the
constructor of `KInstancedObject` writes. -/
def KScene.AddObjectInstance {V D : Type} (s : KScene V D) (parent : Nat) (d : D) :
    KScene V D :=
  { s with instancedObjects := s.instancedObjects ++ [{ instanceParent := parent, instanceData := d }] }

/-- Method `IObject::CreateInstance` called on the object at position `obj`:
`instanceCount++; return context->AddObjectInstance(this);`. -/
def KScene.CreateInstance {V D : Type} (s : KScene V D) (obj : Nat) (d : D) : KScene V D :=
  let s := { s with
    objects := s.objects.modify (fun o => { o with instanceCount := o.instanceCount + 1 }) obj }
  s.AddObjectInstance obj d

/-- A sequence of `IObject::CreateInstance` calls, one on each listed object, in
list order. -/
def KScene.CreateInstances {V D : Type} (s : KScene V D) (calls : List Nat) (d : D) :
    KScene V D :=
  calls.foldl (fun s obj => s.CreateInstance obj d) s

/-! ## Actualize (`KScene::Actualize` and its helpers) -/

/-- Result of the first loop of `KScene::Actualize`: the objects with their
recorded offsets and indices, and the local vectors `vx` and `ix`. -/
structure ObjectData (V : Type) where
  objects : List (KObject V)
  vx : List V
  ix : List Nat
deriving DecidableEq, Repr

/-- First loop of `KScene::Actualize` (`for (uint32_t i = 0; i < objects.size(); ++i)`),
started at list position `i` with the running `offset` and the vectors `vx`,
`ix` built so far. The inner loops push the elements one by one. -/
def Actualize.loadObjects {V : Type} :
    List (KObject V) → Nat → Nat → List V → List Nat → ObjectData V
  | [], _, _, vx, ix => { objects := [], vx := vx, ix := ix }
  | obj :: rest, i, offset, vx, ix =>
    let obj := { obj with mesh := obj.mesh.SetBufferOffset offset }
    let obj := obj.SetIndex i
    let vx := obj.mesh.vertices.foldl (fun acc vert => acc ++ [vert]) vx
    let ix := obj.mesh.indices.foldl (fun acc index => acc ++ [index]) ix
    let offset := offset + obj.mesh.vertices.length
    let r := Actualize.loadObjects rest (i + 1) offset vx ix
    { r with objects := obj :: r.objects }

/-- Second loop of `KScene::Actualize`: the instance blocks of all instanced
objects, pushed one by one onto `inst`. -/
def Actualize.loadInstances {D : Type} (instancedObjects : List (KInstancedObject D)) : List D :=
  instancedObjects.foldl (fun inst object => inst ++ [object.instanceData]) []

/-- Statement `if (buffer != nullptr && buffer != dummy) delete (buffer);` of
`KScene::Actualize`. -/
def Actualize.release (vk : KVulkan) (buffer : Option KVulkanBuffer) (dummy : KVulkanBuffer) :
    KVulkan :=
  match buffer with
  | none => vk
  | some b => if b.id ≠ dummy.id then vk.deleteBuffer b else vk

/-- Method `KScene::CreateObjectBuffer` for a vector `data` whose elements take
`sizeofT` bytes: the buffer it returns and the Vulkan context afterwards, or
the error thrown by `Fill` or `Copy`. -/
def KScene.CreateObjectBuffer {V D T : Type} (s : KScene V D) (vk : KVulkan) (sizeofT : Nat)
    (data : List T) (type : KE_BUFFER_TYPE) : Except KError (KVulkanBuffer × KVulkan) :=
  let bufferSize := toSizeT (sizeofT * data.length)
  if bufferSize = 0 then
    match type with
    | .KT_BUFFER_VERTEX => .ok (s.dummyVertexBuffer, vk)
    | .KT_BUFFER_INDEX => .ok (s.dummyIndexBuffer, vk)
    | .KT_BUFFER_INSTANCE => .ok (s.dummyInstanceBuffer, vk)
  else
    let (stagingBuffer, vk) := vk.newBuffer bufferSize
    match stagingBuffer.Fill data.length with
    | .error e => .error e
    | .ok _ =>
      let (buffer, vk) := vk.newBuffer bufferSize
      match buffer.Copy stagingBuffer { srcOffset := 0, dstOffset := 0, size := 0 } with
      | .error e => .error e
      | .ok _ => .ok (buffer, vk.deleteBuffer stagingBuffer)

/-- Method `KScene::CreateDynamicUniformBuffers`: recomputes `dynamicAlignment`
from `sizeof(Vulkan::vxDynamicUBO)` and the device limit, and allocates a new
`vxDynamicBuffer` of `vxUBOSize` bytes. The host block `vxUBO` obtained from
`AlignedAlloc` is not part of the model. -/
def KScene.CreateDynamicUniformBuffers {V D : Type} (sz : PayloadSizes) (s : KScene V D) :
    KScene V D :=
  let minUBOAlignment := toSizeT s.vulkan.minUniformBufferOffsetAlignment
  let dynamicAlignment := toSizeT sz.sizeofVxDynamicUBO
  let dynamicAlignment :=
    if minUBOAlignment > 0 then
      toSizeT (dynamicAlignment + minUBOAlignment - 1) &&& sizeNot (minUBOAlignment - 1)
    else dynamicAlignment
  let vxUBOSize := toSizeT (dynamicAlignment * s.objects.length)
  let vxUBOSize := if vxUBOSize = 0 then toSizeT (1 * dynamicAlignment) else vxUBOSize
  let (vxDynamicBuffer, vk) := s.vulkan.newBuffer vxUBOSize
  { s with
    dynamicAlignment := dynamicAlignment
    vxDynamicBuffer := some vxDynamicBuffer
    vulkan := vk }

/-- Tail of `KScene::Actualize`, entered once the vertex, index and instance
buffers exist: the buffer members are assigned, `CreateDynamicUniformBuffers`
runs, and the instancing pipeline is requested when there are instanced
objects. The rebuilding of the descriptor sets, of the swap chain and of the
command pools that follows leaves the members modelled here untouched. -/
def Actualize.finish {V D : Type} (sz : PayloadSizes) (s : KScene V D)
    (vertexBuffer indexBuffer instanceBuffer : KVulkanBuffer) (vk : KVulkan) : KScene V D :=
  let s := { s with
    vertexBuffer := some vertexBuffer
    indexBuffer := some indexBuffer
    instanceBuffer := some instanceBuffer
    vulkan := vk }
  let s := s.CreateDynamicUniformBuffers sz
  if s.instancedObjects.isEmpty then s
  else { s with vulkan := { s.vulkan with doCreateInstancingPipeline := true } }

/-- Method `KScene::Actualize`: the scene afterwards, or the error thrown while
the object buffers are filled. -/
def KScene.Actualize {V D : Type} (sz : PayloadSizes) (s : KScene V D) :
    Except KError (KScene V D) :=
  let r := Actualize.loadObjects s.objects 0 0 [] []
  let s := { s with objects := r.objects }
  let vk := Actualize.release s.vulkan s.vertexBuffer s.dummyVertexBuffer
  let vk := Actualize.release vk s.indexBuffer s.dummyIndexBuffer
  match s.CreateObjectBuffer vk sz.sizeofVertex r.vx .KT_BUFFER_VERTEX with
  | .error e => .error e
  | .ok (vertexBuffer, vk) =>
    match s.CreateObjectBuffer vk sizeofIndex r.ix .KT_BUFFER_INDEX with
    | .error e => .error e
    | .ok (indexBuffer, vk) =>
      let inst := Actualize.loadInstances s.instancedObjects
      let vk := Actualize.release vk s.instanceBuffer s.dummyInstanceBuffer
      match s.CreateObjectBuffer vk sz.sizeofInstanceData inst .KT_BUFFER_INSTANCE with
      | .error e => .error e
      | .ok (instanceBuffer, vk) =>
        .ok (Actualize.finish sz s vertexBuffer indexBuffer instanceBuffer vk)

/-- Method `KScene::DeleteEverything`, on the members modelled here: the object
list and the instance list are cleared. -/
def KScene.DeleteEverything {V D : Type} (s : KScene V D) : KScene V D :=
  { s with objects := [], instancedObjects := [] }

/-- Method `KScene::Clear`: `DeleteEverything(); Actualize();`. -/
def KScene.Clear {V D : Type} (sz : PayloadSizes) (s : KScene V D) :
    Except KError (KScene V D) :=
  s.DeleteEverything.Actualize sz

/-- Method `KScene::UpdateObject`, which rebuilds everything with `Actualize`. -/
def KScene.UpdateObject {V D : Type} (sz : PayloadSizes) (s : KScene V D) :
    Except KError (KScene V D) :=
  s.Actualize sz

/-- Scene states the public scene interface can produce from a fresh scene:
construction, `LoadModel`, `IObject::CreateInstance` on an object of the scene,
`AddObjectInstance`, and the completed runs of `Actualize` and `Clear`. -/
inductive KScene.Reachable {V D : Type} (sz : PayloadSizes) : KScene V D → Prop where
  | new (vk : KVulkan) (s : KScene V D) : KScene.new V D sz vk = some s → Reachable sz s
  | loadModel (s : KScene V D) (model : KMesh V) : Reachable sz s → Reachable sz (s.LoadModel model)
  | createInstance (s : KScene V D) (obj : Nat) (d : D) :
      Reachable sz s → obj < s.objects.length → Reachable sz (s.CreateInstance obj d)
  | addObjectInstance (s : KScene V D) (parent : Nat) (d : D) :
      Reachable sz s → Reachable sz (s.AddObjectInstance parent d)
  | actualize (s t : KScene V D) : Reachable sz s → s.Actualize sz = .ok t → Reachable sz t
  | clear (s t : KScene V D) : Reachable sz s → s.Clear sz = .ok t → Reachable sz t

/-! ## Instanced drawing (`KScene::DrawInstancedObjects`) -/

/-- Arguments of one `vkCmdDrawIndexed` call. -/
structure DrawIndexed where
  indexCount : Nat
  instanceCount : Nat
  firstIndex : Nat
  vertexOffset : Nat
  firstInstance : Nat
deriving DecidableEq, Repr

/-- Loop of `KScene::DrawInstancedObjects`
(`for (uint32_t i = 0; i < instancedObjects.size();) ... i += instances;`),
entered with cursor `i`: the draws it records. Each unit of fuel pays for one
evaluation of the loop condition; the result is `none` when the fuel runs out
or when an instance names a parent that is not in the object list. -/
def DrawInstancedObjects.loop {V D : Type} (objects : List (KObject V))
    (instancedObjects : List (KInstancedObject D)) : Nat → Nat → Option (List DrawIndexed)
  | 0, _ => none
  | fuel + 1, i =>
    if h : i < instancedObjects.length then
      match objects[(instancedObjects[i]).instanceParent]? with
      | none => none
      | some parent =>
        let offset := parent.mesh.GetBufferOffset
        let instances := parent.instanceCount
        let draw : DrawIndexed :=
          { indexCount := parent.mesh.indices.length
            instanceCount := instances
            firstIndex := 0
            vertexOffset := offset
            firstInstance := i }
        match DrawInstancedObjects.loop objects instancedObjects fuel (i + instances) with
        | none => none
        | some draws => some (draw :: draws)
    else some []

/-- Method `KScene::DrawInstancedObjects`: the indexed draws it records, in order. -/
def KScene.DrawInstancedObjects {V D : Type} (s : KScene V D) (fuel : Nat) :
    Option (List DrawIndexed) :=
  DrawInstancedObjects.loop s.objects s.instancedObjects fuel 0

/-- Method `IObject::GetInstanceCount` called through a parent pointer: the
instance count of the object at position `parent` (0 when there is none). -/
def KScene.GetInstanceCount {V D : Type} (s : KScene V D) (parent : Nat) : Nat :=
  match s.objects[parent]? with
  | some o => o.instanceCount
  | none => 0

/-- Parents of the instanced objects, in the order of the instance list, which is
the order of the instance buffer. -/
def KScene.instanceParents {V D : Type} (s : KScene V D) : List Nat :=
  s.instancedObjects.map (fun x => x.instanceParent)

/-! ## Swap chain negotiation (`Vulkan/KVulkanSwapChain.cpp`) -/

/-- Surface format `VkSurfaceFormatKHR`; formats and color spaces are the numeric
values of the Vulkan enumerations. -/
structure VkSurfaceFormatKHR where
  format : Nat
  colorSpace : Nat
deriving DecidableEq, Repr

/-- Enumerator `VK_FORMAT_UNDEFINED`. -/
def VK_FORMAT_UNDEFINED : Nat := 0

/-- Enumerator `VK_FORMAT_B8G8R8A8_UNORM`. -/
def VK_FORMAT_B8G8R8A8_UNORM : Nat := 44

/-- Enumerator `VK_COLOR_SPACE_SRGB_NONLINEAR_KHR`. -/
def VK_COLOR_SPACE_SRGB_NONLINEAR_KHR : Nat := 0

/-- Enumerator `VK_PRESENT_MODE_IMMEDIATE_KHR`. -/
def VK_PRESENT_MODE_IMMEDIATE_KHR : Nat := 0

/-- Enumerator `VK_PRESENT_MODE_MAILBOX_KHR`. -/
def VK_PRESENT_MODE_MAILBOX_KHR : Nat := 1

/-- Enumerator `VK_PRESENT_MODE_FIFO_KHR`. -/
def VK_PRESENT_MODE_FIFO_KHR : Nat := 2

/-- Enumerator `VK_PRESENT_MODE_FIFO_RELAXED_KHR`. -/
def VK_PRESENT_MODE_FIFO_RELAXED_KHR : Nat := 3

/-- Extent `VkExtent2D`. -/
structure VkExtent2D where
  width : Nat
  height : Nat
deriving DecidableEq, Repr

/-- Window dimensions `Vector2<int>`, as `IWindow::GetDimensions` returns them. -/
structure Vector2 where
  x : Int
  y : Int
deriving DecidableEq, Repr

/-- Fields of `VkSurfaceCapabilitiesKHR` that `KVulkanSwapChain` reads. -/
structure VkSurfaceCapabilitiesKHR where
  minImageCount : Nat
  maxImageCount : Nat
  currentExtent : VkExtent2D
  minImageExtent : VkExtent2D
  maxImageExtent : VkExtent2D
  currentTransform : Nat
deriving DecidableEq, Repr

/-- Support record `KVulkanSwapChain::SwapChainSupportDetails`. -/
structure SwapChainSupportDetails where
  capabilities : VkSurfaceCapabilitiesKHR
  formats : List VkSurfaceFormatKHR
  presentModes : List Nat
deriving DecidableEq, Repr

/-- Fields of `VkSwapchainCreateInfoKHR` that `KVulkanSwapChain::Initialize`
fills in when the caller left them zero. -/
structure VkSwapchainCreateInfoKHR where
  surface : Nat
  minImageCount : Nat
  imageFormat : Nat
  imageColorSpace : Nat
  imageExtent : VkExtent2D
  preTransform : Nat
  presentMode : Nat
deriving DecidableEq, Repr

/-- Member `desiredSurfaceFormat` of `KVulkanDefaults`. -/
def KVulkanDefaults.desiredSurfaceFormat : VkSurfaceFormatKHR :=
  { format := VK_FORMAT_B8G8R8A8_UNORM, colorSpace := VK_COLOR_SPACE_SRGB_NONLINEAR_KHR }

/-- Member `desiredPresentMode` of `KVulkanDefaults`. -/
def KVulkanDefaults.desiredPresentMode : Nat := VK_PRESENT_MODE_MAILBOX_KHR

/-- Member `swapChainCreateInfo` of `KVulkanDefaults`: the fields modelled here
are left zero by `VulkanSettings`. -/
def KVulkanDefaults.swapChainCreateInfo : VkSwapchainCreateInfoKHR :=
  { surface := 0
    minImageCount := 0
    imageFormat := 0
    imageColorSpace := 0
    imageExtent := { width := 0, height := 0 }
    preTransform := 0
    presentMode := 0 }

/-- Template `KVulkanDefaults::ObtainValues`: the value behind the passed pointer,
or the default when the pointer is null. -/
def ObtainValues {T : Type} (passedPtr : Option T) (defaultsPtr : T) : T :=
  match passedPtr with
  | none => defaultsPtr
  | some passed => passed

/-- Method `KVulkanSwapChain::IsSwapChainAdequate`. -/
def IsSwapChainAdequate (swapChainDetails : SwapChainSupportDetails) : Bool :=
  !swapChainDetails.formats.isEmpty && !swapChainDetails.presentModes.isEmpty

/-- Loop of `KVulkanSwapChain::ChooseSwapSurfaceFormat`: whether some available
format agrees with the requested one in format and color space. -/
def ChooseSwapSurfaceFormat.search (requestedFormat : VkSurfaceFormatKHR) :
    List VkSurfaceFormatKHR → Bool
  | [] => false
  | availableFormat :: rest =>
    if availableFormat.format = requestedFormat.format ∧
        availableFormat.colorSpace = requestedFormat.colorSpace then true
    else ChooseSwapSurfaceFormat.search requestedFormat rest

/-- Method `KVulkanSwapChain::ChooseSwapSurfaceFormat`. Reading element 0 of an
empty vector is undefined, hence `none` for the empty list. -/
def ChooseSwapSurfaceFormat (availableFormats : List VkSurfaceFormatKHR)
    (desiredFormat : Option VkSurfaceFormatKHR) : Option VkSurfaceFormatKHR :=
  let requestedFormat := ObtainValues desiredFormat KVulkanDefaults.desiredSurfaceFormat
  match availableFormats with
  | [] => none
  | first :: rest =>
    if (first :: rest).length = 1 ∧ first.format = VK_FORMAT_UNDEFINED then some requestedFormat
    else if ChooseSwapSurfaceFormat.search requestedFormat (first :: rest) then
      some requestedFormat
    else some first

/-- Loop of `KVulkanSwapChain::ChooseSwapPresentMode`, entered with the current
`bestMode`: it returns at the first mode equal to the requested one and
otherwise remembers `VK_PRESENT_MODE_IMMEDIATE_KHR` when it sees it. -/
def ChooseSwapPresentMode.scan (requestedFormat : Nat) : List Nat → Nat → Nat
  | [], bestMode => bestMode
  | availablePresentMode :: rest, bestMode =>
    if availablePresentMode = requestedFormat then availablePresentMode
    else if availablePresentMode = VK_PRESENT_MODE_IMMEDIATE_KHR then
      ChooseSwapPresentMode.scan requestedFormat rest availablePresentMode
    else ChooseSwapPresentMode.scan requestedFormat rest bestMode

/-- Method `KVulkanSwapChain::ChooseSwapPresentMode`. -/
def ChooseSwapPresentMode (availablePresentModes : List Nat) (desiredPresentMode : Option Nat) :
    Nat :=
  let requestedFormat := ObtainValues desiredPresentMode KVulkanDefaults.desiredPresentMode
  let bestMode := VK_PRESENT_MODE_FIFO_KHR
  ChooseSwapPresentMode.scan requestedFormat availablePresentModes bestMode

/-- Method `KVulkanSwapChain::ChooseSwapExtent`; `windowSize` is what
`context->window->GetDimensions()` returns. -/
def ChooseSwapExtent (capabilities : VkSurfaceCapabilitiesKHR) (windowSize : Vector2) :
    VkExtent2D :=
  if capabilities.currentExtent.width ≠ UINT32_MAX then capabilities.currentExtent
  else
    let actualExtent : VkExtent2D :=
      { width := castU32 windowSize.x, height := castU32 windowSize.y }
    let actualExtent := { actualExtent with
      width := max capabilities.minImageExtent.width
        (min capabilities.maxImageExtent.width actualExtent.width) }
    let actualExtent := { actualExtent with
      height := max capabilities.minImageExtent.height
        (min capabilities.maxImageExtent.height actualExtent.height) }
    actualExtent

/-- Image count computed by `KVulkanSwapChain::Initialize` from the surface
capabilities, the present mode returned by `ChooseSwapPresentMode` (the local
`presentMode` of the source, not the field of the creation record) and the
`minImageCount` of the caller's creation record. The increment `imageCount++`
is on a `uint32_t`. -/
def Initialize.imageCount (capabilities : VkSurfaceCapabilitiesKHR) (presentMode : Nat)
    (createInfoMinImageCount : Nat) : Nat :=
  let imageCount := capabilities.minImageCount
  let imageCount :=
    if createInfoMinImageCount = 0 then
      if presentMode = VK_PRESENT_MODE_MAILBOX_KHR then (imageCount + 1) % 2 ^ 32
      else imageCount
    else
      if capabilities.minImageCount ≤ createInfoMinImageCount then createInfoMinImageCount
      else imageCount
  if capabilities.maxImageCount > 0 ∧ imageCount > capabilities.maxImageCount then
    capabilities.maxImageCount
  else imageCount

/-- Statements of `KVulkanSwapChain::Initialize` that complete the creation
record: the image count is stored and every field the caller left zero takes
the negotiated value. -/
def Initialize.fill (createInfo : VkSwapchainCreateInfoKHR) (imageCount contextSurface : Nat)
    (surfaceFormat : VkSurfaceFormatKHR) (extent : VkExtent2D) (currentTransform presentMode : Nat) :
    VkSwapchainCreateInfoKHR :=
  { surface := if createInfo.surface = 0 then contextSurface else createInfo.surface
    minImageCount := imageCount
    imageFormat :=
      if createInfo.imageFormat = 0 then surfaceFormat.format else createInfo.imageFormat
    imageColorSpace :=
      if createInfo.imageColorSpace = 0 then surfaceFormat.colorSpace
      else createInfo.imageColorSpace
    imageExtent :=
      if createInfo.imageExtent.height = 0 ∧ createInfo.imageExtent.width = 0 then extent
      else createInfo.imageExtent
    preTransform :=
      if createInfo.preTransform = 0 then currentTransform else createInfo.preTransform
    presentMode := if createInfo.presentMode = 0 then presentMode else createInfo.presentMode }

/-- Method `KVulkanSwapChain::Initialize` up to the call of `vkCreateSwapchainKHR`:
the creation record handed to the driver, or the error returned.
`supportDetails` is what `QuerySwapChainSupport` reports, `contextSurface` the
surface of the context, and `created` tells whether the driver call succeeds.
Past the adequacy test the format list is not empty, so a surface format is
always found. -/
def KVulkanSwapChain.Initialize (supportDetails : SwapChainSupportDetails) (windowSize : Vector2)
    (contextSurface : Nat) (created : Bool) (desiredFormat : Option VkSurfaceFormatKHR)
    (desiredPresentMode : Option Nat) (swapChainCreateInfo : Option VkSwapchainCreateInfoKHR) :
    Except KError VkSwapchainCreateInfoKHR :=
  if IsSwapChainAdequate supportDetails = false then .error .KE_VULKAN_SWAPCHAIN_FAIL
  else
    match ChooseSwapSurfaceFormat supportDetails.formats desiredFormat with
    | none => .error .KE_VULKAN_SWAPCHAIN_FAIL
    | some surfaceFormat =>
      let presentMode := ChooseSwapPresentMode supportDetails.presentModes desiredPresentMode
      let extent := ChooseSwapExtent supportDetails.capabilities windowSize
      let createInfo := ObtainValues swapChainCreateInfo KVulkanDefaults.swapChainCreateInfo
      let imageCount :=
        Initialize.imageCount supportDetails.capabilities presentMode createInfo.minImageCount
      let createInfo := Initialize.fill createInfo imageCount contextSurface surfaceFormat extent
        supportDetails.capabilities.currentTransform presentMode
      if created = false then .error .KE_VULKAN_SWAPCHAIN_FAIL
      else .ok createInfo

/-! ## Buffer construction and memory types (`Vulkan/KVulkanBuffer.cpp`)

From here on the answers of the driver are inputs: a result code is the numeric
value of its `VkResult` enumerator, and a function that can both return an error
code and throw yields `Except KError (KError × _)`, the thrown error on the left
and the returned code on the right. -/

/-- Enumerator `VK_SUCCESS` of `VkResult`. -/
def VK_SUCCESS : Int := 0

/-- Enumerator `VK_SUBOPTIMAL_KHR` of `VkResult`. -/
def VK_SUBOPTIMAL_KHR : Int := 1000001003

/-- Enumerator `VK_ERROR_OUT_OF_DATE_KHR` of `VkResult`. -/
def VK_ERROR_OUT_OF_DATE_KHR : Int := -1000001004

/-- Enumerator `VK_ERROR_OUT_OF_DEVICE_MEMORY` of `VkResult`. -/
def VK_ERROR_OUT_OF_DEVICE_MEMORY : Int := -2

/-- Constant `VK_MAX_MEMORY_TYPES`, the length of the array `memoryTypes` of
`VkPhysicalDeviceMemoryProperties`. -/
def VK_MAX_MEMORY_TYPES : Nat := 32

/-- Flag `VK_MEMORY_PROPERTY_DEVICE_LOCAL_BIT`. -/
def VK_MEMORY_PROPERTY_DEVICE_LOCAL_BIT : Nat := 1

/-- Flag `VK_MEMORY_PROPERTY_HOST_VISIBLE_BIT`. -/
def VK_MEMORY_PROPERTY_HOST_VISIBLE_BIT : Nat := 2

/-- Flag `VK_MEMORY_PROPERTY_HOST_COHERENT_BIT`. -/
def VK_MEMORY_PROPERTY_HOST_COHERENT_BIT : Nat := 4

/-- Memory type `VkMemoryType`. -/
structure VkMemoryType where
  propertyFlags : Nat
  heapIndex : Nat
deriving DecidableEq, Repr

/-- Requirements `VkMemoryRequirements` the driver reports for a buffer or image. -/
structure VkMemoryRequirements where
  size : Nat
  alignment : Nat
  memoryTypeBits : Nat
deriving DecidableEq, Repr

/-- Expression `1 << i` as it enters the `uint32_t` conjunction with `typeFilter`;
the device reports at most `VK_MAX_MEMORY_TYPES` types, so `i` stays below 32. -/
def shiftU32 (i : Nat) : Nat := (1 <<< i) % 2 ^ 32

/-- Loop of `KVulkanBuffer::FindMemoryType`, entered at index `i` with the memory
types from `i` on: the index it returns, or `none` when it runs to the end. -/
def FindMemoryType.scan (typeFilter properties : Nat) : List VkMemoryType → Nat → Option Nat
  | [], _ => none
  | memoryType :: rest, i =>
    if (typeFilter &&& shiftU32 i) ≠ 0 ∧ (memoryType.propertyFlags &&& properties) = properties then
      some i
    else FindMemoryType.scan typeFilter properties rest (i + 1)

/-- Method `KVulkanBuffer::FindMemoryType`; `memoryTypes` are the first
`memoryTypeCount` entries of what `vkGetPhysicalDeviceMemoryProperties` reports. -/
def KVulkanBuffer.FindMemoryType (memoryTypes : List VkMemoryType) (typeFilter properties : Nat) :
    Except KError Nat :=
  match FindMemoryType.scan typeFilter properties memoryTypes 0 with
  | some i => .ok i
  | none => .error .KE_VULKAN_MEMORY_FAIL

/-- Answers of the driver to the calls `KVulkanBuffer::CreateBuffer` makes, in the
order of the calls. -/
structure BufferDriver where
  vkCreateBuffer : Int
  memRequirements : VkMemoryRequirements
  memoryTypes : List VkMemoryType
  vkAllocateMemory : Int
  vkBindBufferMemory : Int
deriving DecidableEq, Repr

/-- Method `KVulkanBuffer::CreateBuffer`. The member `size` is assigned first; the
value `vkBindBufferMemory` returns is discarded by the source. -/
def KVulkanBuffer.CreateBuffer (b : KVulkanBuffer) (driver : BufferDriver)
    (bufferSize properties : Nat) : Except KError (KError × KVulkanBuffer) :=
  let b := { b with size := toSizeT bufferSize }
  if driver.vkCreateBuffer ≠ VK_SUCCESS then .ok (.KE_VULKAN_BUFFER_CREATE_FAIL, b)
  else
    match KVulkanBuffer.FindMemoryType driver.memoryTypes driver.memRequirements.memoryTypeBits
        properties with
    | .error e => .error e
    | .ok _ =>
      if driver.vkAllocateMemory ≠ VK_SUCCESS then .ok (.KE_VULKAN_BUFFER_CREATE_FAIL, b)
      else .ok (.KE_OK, b)

/-- Constructor `KVulkanBuffer::KVulkanBuffer` for the object at address `id`: the
error thrown, or the constructed buffer. -/
def KVulkanBuffer.new (driver : BufferDriver) (id size properties : Nat) :
    Except KError KVulkanBuffer :=
  match ({ id := id, size := 0 } : KVulkanBuffer).CreateBuffer driver size properties with
  | .error e => .error e
  | .ok (ret, b) => if ret ≠ .KE_OK then .error ret else .ok b

/-! ## Images (`Vulkan/KVulkanImage.cpp`) -/

/-- Numeric value of an error code, as the enumeration `KError` assigns it:
`KE_UNKNOWN_ERR` is -1, `KE_STOP` is 0, `KE_OK` is 1 and the enumerators after it
count upwards. -/
def KError.toInt : KError → Int
  | .KE_UNKNOWN_ERR => -1
  | .KE_STOP => 0
  | .KE_OK => 1
  | .KE_WINDOW_CREATE_FAIL => 2
  | .KE_INIT_FAIL => 3
  | .KE_MAX_ENTITIES => 4
  | .KE_UNKNOWN_VULKAN => 5
  | .KE_VULKAN_INIT_FAIL => 6
  | .KE_VULKAN_NO_DEVICE => 7
  | .KE_VULKAN_DEVICE_FAIL => 8
  | .KE_VULKAN_SURFACE_FAIL => 9
  | .KE_VULKAN_SWAPCHAIN_FAIL => 10
  | .KE_VULKAN_IMAGEVIEW_FAIL => 11
  | .KE_VULKAN_GPIPELINE_FAIL => 12
  | .KE_VULKAN_RENDERPASS_FAIL => 13
  | .KE_VULKAN_FRAMEBUFFER_FAIL => 14
  | .KE_VULKAN_EXT_NOT_AVAILABLE => 15
  | .KE_VULKAN_VLAYER_NOT_AVAILABLE => 16
  | .KE_VULKAN_TEXTURE_SAMPLER_FAIL => 17
  | .KE_VULKAN_DEBUG_INIT_FAIL => 18
  | .KE_VULKAN_SC_PRESENT_FAIL => 19
  | .KE_VULKAN_CMDPOOL_FAIL => 20
  | .KE_VULKAN_CMDBUFFERS_FAIL => 21
  | .KE_VULKAN_SEMAPHORE_FAIL => 22
  | .KE_VULKAN_SHADER_FAIL => 23
  | .KE_VULKAN_DRAW_FAIL => 24
  | .KE_VULKAN_MEMORY_FAIL => 25
  | .KE_VULKAN_SC_OUT_OF_DATE => 26
  | .KE_VULKAN_BUFFER_TOO_SMALL => 27
  | .KE_VULKAN_BUFFER_CREATE_FAIL => 28
  | .KE_VULKAN_DESC_SET_LAYOUT_FAIL => 29
  | .KE_VULKAN_DESC_POOL_FAIL => 30
  | .KE_VULKAN_DESC_SET_FAIL => 31
  | .KE_TEXTURE_LOAD_FAIL => 32
  | .KE_TEXTURE_ALLOC_FAIL => 33
  | .KE_UNSUPPORTED_LAYOUT => 34
  | .KE_MODEL_LOAD_FAIL => 35
  | .KE_UNKNOWN_BUFFER_TYPE => 36

/-- Answers of the driver to the calls `KVulkanImage::Initialize` makes; `temp`
answers the construction of the temporary buffer, whose memory types are those
of the device. -/
structure ImageDriver where
  vkCreateImage : Int
  memRequirements : VkMemoryRequirements
  temp : BufferDriver
  vkAllocateMemory : Int
  vkBindImageMemory : Int
deriving DecidableEq, Repr

/-- A `Vulkan::KVulkanImage` object: whether its members `image` and `imageMemory`
hold handles the driver has created. -/
structure KVulkanImage where
  image : Bool
  imageMemory : Bool
deriving DecidableEq, Repr

/-- Method `KVulkanImage::Initialize`. The temporary buffer takes the address
`tempId`; the value `vkBindImageMemory` returns is discarded by the source. -/
def KVulkanImage.Initialize (img : KVulkanImage) (driver : ImageDriver) (tempId properties : Nat) :
    Except KError (KError × KVulkanImage) :=
  if driver.vkCreateImage ≠ VK_SUCCESS then .ok (.KE_TEXTURE_LOAD_FAIL, img)
  else
    let img := { img with image := true }
    match KVulkanBuffer.new driver.temp tempId 1 properties with
    | .error e => .error e
    | .ok _ =>
      match KVulkanBuffer.FindMemoryType driver.temp.memoryTypes
          driver.memRequirements.memoryTypeBits VK_MEMORY_PROPERTY_DEVICE_LOCAL_BIT with
      | .error e => .error e
      | .ok _ =>
        if driver.vkAllocateMemory ≠ VK_SUCCESS then .ok (.KE_TEXTURE_ALLOC_FAIL, img)
        else .ok (.KE_OK, { img with imageMemory := true })

/-- Constructor `KVulkanImage::KVulkanImage`: the error thrown, or the constructed
image. The test `if (!ret)` holds when the numeric value of `ret` is zero. -/
def KVulkanImage.new (driver : ImageDriver) (tempId properties : Nat) :
    Except KError KVulkanImage :=
  match ({ image := false, imageMemory := false } : KVulkanImage).Initialize driver tempId
      properties with
  | .error e => .error e
  | .ok (ret, img) => if ret.toInt = 0 then .error ret else .ok img

/-- Enumerator `VK_IMAGE_LAYOUT_UNDEFINED`; layouts are the numeric values of
`VkImageLayout`. -/
def VK_IMAGE_LAYOUT_UNDEFINED : Nat := 0

/-- Enumerator `VK_IMAGE_LAYOUT_DEPTH_STENCIL_ATTACHMENT_OPTIMAL`. -/
def VK_IMAGE_LAYOUT_DEPTH_STENCIL_ATTACHMENT_OPTIMAL : Nat := 3

/-- Enumerator `VK_IMAGE_LAYOUT_SHADER_READ_ONLY_OPTIMAL`. -/
def VK_IMAGE_LAYOUT_SHADER_READ_ONLY_OPTIMAL : Nat := 5

/-- Enumerator `VK_IMAGE_LAYOUT_TRANSFER_DST_OPTIMAL`. -/
def VK_IMAGE_LAYOUT_TRANSFER_DST_OPTIMAL : Nat := 7

/-- Enumerator `VK_FORMAT_R8G8B8A8_UNORM`. -/
def VK_FORMAT_R8G8B8A8_UNORM : Nat := 37

/-- Enumerator `VK_FORMAT_D32_SFLOAT`. -/
def VK_FORMAT_D32_SFLOAT : Nat := 126

/-- Enumerator `VK_FORMAT_D24_UNORM_S8_UINT`. -/
def VK_FORMAT_D24_UNORM_S8_UINT : Nat := 129

/-- Enumerator `VK_FORMAT_D32_SFLOAT_S8_UINT`. -/
def VK_FORMAT_D32_SFLOAT_S8_UINT : Nat := 130

/-- Flag `VK_IMAGE_ASPECT_COLOR_BIT`. -/
def VK_IMAGE_ASPECT_COLOR_BIT : Nat := 1

/-- Flag `VK_IMAGE_ASPECT_DEPTH_BIT`. -/
def VK_IMAGE_ASPECT_DEPTH_BIT : Nat := 2

/-- Flag `VK_IMAGE_ASPECT_STENCIL_BIT`. -/
def VK_IMAGE_ASPECT_STENCIL_BIT : Nat := 4

/-- Flag `VK_ACCESS_SHADER_READ_BIT`. -/
def VK_ACCESS_SHADER_READ_BIT : Nat := 0x20

/-- Flag `VK_ACCESS_DEPTH_STENCIL_ATTACHMENT_READ_BIT`. -/
def VK_ACCESS_DEPTH_STENCIL_ATTACHMENT_READ_BIT : Nat := 0x200

/-- Flag `VK_ACCESS_DEPTH_STENCIL_ATTACHMENT_WRITE_BIT`. -/
def VK_ACCESS_DEPTH_STENCIL_ATTACHMENT_WRITE_BIT : Nat := 0x400

/-- Flag `VK_ACCESS_TRANSFER_WRITE_BIT`. -/
def VK_ACCESS_TRANSFER_WRITE_BIT : Nat := 0x1000

/-- Flag `VK_PIPELINE_STAGE_TOP_OF_PIPE_BIT`. -/
def VK_PIPELINE_STAGE_TOP_OF_PIPE_BIT : Nat := 0x1

/-- Flag `VK_PIPELINE_STAGE_FRAGMENT_SHADER_BIT`. -/
def VK_PIPELINE_STAGE_FRAGMENT_SHADER_BIT : Nat := 0x80

/-- Flag `VK_PIPELINE_STAGE_EARLY_FRAGMENT_TESTS_BIT`. -/
def VK_PIPELINE_STAGE_EARLY_FRAGMENT_TESTS_BIT : Nat := 0x100

/-- Flag `VK_PIPELINE_STAGE_TRANSFER_BIT`. -/
def VK_PIPELINE_STAGE_TRANSFER_BIT : Nat := 0x1000

/-- Fields of `VkImageMemoryBarrier` that `TransitionImageLayout` sets apart from
constants; `aspectMask` is that of the subresource range. -/
structure VkImageMemoryBarrier where
  oldLayout : Nat
  newLayout : Nat
  aspectMask : Nat
  srcAccessMask : Nat
  dstAccessMask : Nat
deriving DecidableEq, Repr

/-- Arguments of the call `vkCmdPipelineBarrier` that `TransitionImageLayout`
records. -/
structure PipelineBarrier where
  sourceStage : Nat
  destinationStage : Nat
  barrier : VkImageMemoryBarrier
deriving DecidableEq, Repr

/-- Aspect mask `TransitionImageLayout` gives the barrier. -/
def TransitionImageLayout.aspectMask (format newLayout : Nat) : Nat :=
  if newLayout = VK_IMAGE_LAYOUT_DEPTH_STENCIL_ATTACHMENT_OPTIMAL then
    if format = VK_FORMAT_D32_SFLOAT_S8_UINT ∨ format = VK_FORMAT_D24_UNORM_S8_UINT then
      VK_IMAGE_ASPECT_DEPTH_BIT ||| VK_IMAGE_ASPECT_STENCIL_BIT
    else VK_IMAGE_ASPECT_DEPTH_BIT
  else VK_IMAGE_ASPECT_COLOR_BIT

/-- Method `KVulkanImage::TransitionImageLayout`: the error thrown, or the barrier
recorded with `vkCmdPipelineBarrier` and submitted. When neither branch of the
source applies, the access masks and stages keep their zero initial values. -/
def KVulkanImage.TransitionImageLayout (format oldLayout newLayout : Nat) :
    Except KError PipelineBarrier :=
  let barrier : VkImageMemoryBarrier :=
    { oldLayout := oldLayout
      newLayout := newLayout
      aspectMask := TransitionImageLayout.aspectMask format newLayout
      srcAccessMask := 0
      dstAccessMask := 0 }
  if oldLayout = VK_IMAGE_LAYOUT_UNDEFINED then
    if newLayout = VK_IMAGE_LAYOUT_TRANSFER_DST_OPTIMAL then
      .ok { sourceStage := VK_PIPELINE_STAGE_TOP_OF_PIPE_BIT
            destinationStage := VK_PIPELINE_STAGE_TRANSFER_BIT
            barrier := { barrier with
              srcAccessMask := 0
              dstAccessMask := VK_ACCESS_TRANSFER_WRITE_BIT } }
    else if newLayout = VK_IMAGE_LAYOUT_DEPTH_STENCIL_ATTACHMENT_OPTIMAL then
      .ok { sourceStage := VK_PIPELINE_STAGE_TOP_OF_PIPE_BIT
            destinationStage := VK_PIPELINE_STAGE_EARLY_FRAGMENT_TESTS_BIT
            barrier := { barrier with
              srcAccessMask := 0
              dstAccessMask := VK_ACCESS_DEPTH_STENCIL_ATTACHMENT_READ_BIT |||
                VK_ACCESS_DEPTH_STENCIL_ATTACHMENT_WRITE_BIT } }
    else .error .KE_UNSUPPORTED_LAYOUT
  else if oldLayout = VK_IMAGE_LAYOUT_TRANSFER_DST_OPTIMAL ∧
      newLayout = VK_IMAGE_LAYOUT_SHADER_READ_ONLY_OPTIMAL then
    .ok { sourceStage := VK_PIPELINE_STAGE_TRANSFER_BIT
          destinationStage := VK_PIPELINE_STAGE_FRAGMENT_SHADER_BIT
          barrier := { barrier with
            srcAccessMask := VK_ACCESS_TRANSFER_WRITE_BIT
            dstAccessMask := VK_ACCESS_SHADER_READ_BIT } }
  else .ok { sourceStage := 0, destinationStage := 0, barrier := barrier }

/-! ## Descriptor pool (`Vulkan/KVulkanDescriptorPool.cpp`, `KScene.cpp`) -/

/-- Enumerator `VK_DESCRIPTOR_TYPE_COMBINED_IMAGE_SAMPLER`; descriptor types are
the numeric values of `VkDescriptorType`. -/
def VK_DESCRIPTOR_TYPE_COMBINED_IMAGE_SAMPLER : Nat := 1

/-- Enumerator `VK_DESCRIPTOR_TYPE_UNIFORM_BUFFER`. -/
def VK_DESCRIPTOR_TYPE_UNIFORM_BUFFER : Nat := 6

/-- Enumerator `VK_DESCRIPTOR_TYPE_UNIFORM_BUFFER_DYNAMIC`. -/
def VK_DESCRIPTOR_TYPE_UNIFORM_BUFFER_DYNAMIC : Nat := 8

/-- Pool size entry `VkDescriptorPoolSize`; the field `type` of the source is
`descriptorType` here. -/
structure VkDescriptorPoolSize where
  descriptorType : Nat
  descriptorCount : Nat
deriving DecidableEq, Repr

/-- The four descriptor set layouts the Vulkan context keeps. -/
inductive DescriptorLayout where
  | vertexDescriptorLayout
  | fragmentDescriptorLayout
  | vxUniformBufferDescriptorLayout
  | lightsDescriptorLayout
deriving DecidableEq, Repr

/-- A descriptor set allocated by `AllocateDescriptor`: the layout it was
allocated with and the single write performed on it. -/
structure DescriptorSet where
  layout : DescriptorLayout
  descriptorType : Nat
  dstBinding : Nat
  descriptorCount : Nat
deriving DecidableEq, Repr

/-- A `Vulkan::KVulkanDescriptorPool`: the sizes and the `maxSets` it was created
with, and the sets allocated from it so far, oldest first. The handle of a set
is its position in `sets`. -/
structure KVulkanDescriptorPool where
  poolSizes : List VkDescriptorPoolSize
  maxSets : Nat
  sets : List DescriptorSet
deriving DecidableEq, Repr

/-- Constructor `KVulkanDescriptorPool::KVulkanDescriptorPool`: `maxSets` adds up
the descriptor counts of the pool sizes. -/
def KVulkanDescriptorPool.new (poolSizes : List VkDescriptorPoolSize) : KVulkanDescriptorPool :=
  let maxSets := poolSizes.foldl (fun maxSets size => maxSets + size.descriptorCount) 0
  { poolSizes := poolSizes, maxSets := maxSets, sets := [] }

/-- Method `KVulkanDescriptorPool::AllocateDescriptor`: one set is allocated and
written; the handle stored through `descriptorSet` is returned with the pool. -/
def KVulkanDescriptorPool.AllocateDescriptor (pool : KVulkanDescriptorPool)
    (layout : DescriptorLayout) (descriptorType binding descCount : Nat) :
    Nat × KVulkanDescriptorPool :=
  let descriptorSet : DescriptorSet :=
    { layout := layout
      descriptorType := descriptorType
      dstBinding := binding
      descriptorCount := descCount }
  (pool.sets.length, { pool with sets := pool.sets ++ [descriptorSet] })

/-- A `KMaterial`: `id` stands for the address of the object and `descriptorSet`
is its member of that name, null until a set is allocated for it. -/
structure KMaterial where
  id : Nat
  descriptorSet : Option Nat
deriving DecidableEq, Repr

/-- Descriptor state of a scene: the pool of the Vulkan context, the material
list and the three descriptor set members of `KScene`. -/
structure SceneDescriptors where
  descPool : KVulkanDescriptorPool
  materials : List KMaterial
  uniformDescriptorSet : Option Nat
  lightsDescriptorSet : Option Nat
  vxDynamicUniformDescriptorSet : Option Nat
deriving DecidableEq, Repr

/-- Method `KScene::PrepareDescriptorLayouts`: the pool sizes it leaves in the
graphics settings. -/
def KScene.PrepareDescriptorLayouts (materials : List KMaterial) : List VkDescriptorPoolSize :=
  let descriptorPoolSizes : List VkDescriptorPoolSize := []
  let descriptorPoolSizes := descriptorPoolSizes ++
    [{ descriptorType := VK_DESCRIPTOR_TYPE_UNIFORM_BUFFER, descriptorCount := 1 }]
  let descriptorPoolSizes := descriptorPoolSizes ++
    [{ descriptorType := VK_DESCRIPTOR_TYPE_UNIFORM_BUFFER, descriptorCount := 1 }]
  let descriptorPoolSizes := descriptorPoolSizes ++
    [{ descriptorType := VK_DESCRIPTOR_TYPE_UNIFORM_BUFFER_DYNAMIC, descriptorCount := 1 }]
  descriptorPoolSizes ++
    [{ descriptorType := VK_DESCRIPTOR_TYPE_COMBINED_IMAGE_SAMPLER
       descriptorCount := materials.length }]

/-- Loop `for (auto &material : materials)` of `KScene::InitializeDescriptorSets`. -/
def InitializeDescriptorSets.materials (pool : KVulkanDescriptorPool) :
    List KMaterial → List KMaterial × KVulkanDescriptorPool
  | [] => ([], pool)
  | material :: rest =>
    let (descriptorSet, pool) := pool.AllocateDescriptor .fragmentDescriptorLayout
      VK_DESCRIPTOR_TYPE_COMBINED_IMAGE_SAMPLER 0 1
    let material := { material with descriptorSet := some descriptorSet }
    let (rest, pool) := InitializeDescriptorSets.materials pool rest
    (material :: rest, pool)

/-- Method `KScene::InitializeDescriptorSets`. -/
def KScene.InitializeDescriptorSets (materials : List KMaterial) (pool : KVulkanDescriptorPool) :
    SceneDescriptors :=
  let (materials, pool) := InitializeDescriptorSets.materials pool materials
  let (uniformDescriptorSet, pool) := pool.AllocateDescriptor .vertexDescriptorLayout
    VK_DESCRIPTOR_TYPE_UNIFORM_BUFFER 0 1
  let (lightsDescriptorSet, pool) := pool.AllocateDescriptor .lightsDescriptorLayout
    VK_DESCRIPTOR_TYPE_UNIFORM_BUFFER 0 1
  let (vxDynamicUniformDescriptorSet, pool) :=
    pool.AllocateDescriptor .vxUniformBufferDescriptorLayout
      VK_DESCRIPTOR_TYPE_UNIFORM_BUFFER_DYNAMIC 0 1
  { descPool := pool
    materials := materials
    uniformDescriptorSet := some uniformDescriptorSet
    lightsDescriptorSet := some lightsDescriptorSet
    vxDynamicUniformDescriptorSet := some vxDynamicUniformDescriptorSet }

/-- Statements `PrepareDescriptorLayouts(); vulkan->RecreateDescriptorPool();
InitializeDescriptorSets();` of `KScene::Actualize`: the old pool is deleted and
a new one is constructed from the prepared sizes, then the sets are allocated. -/
def Actualize.descriptors (materials : List KMaterial) : SceneDescriptors :=
  let descriptorPoolSizes := KScene.PrepareDescriptorLayouts materials
  let descPool := KVulkanDescriptorPool.new descriptorPoolSizes
  KScene.InitializeDescriptorSets materials descPool

/-! ## Frame submission and swap chain recreation (`Vulkan/KVulkan.cpp`, `KEngine.cpp`)

The order of events is modelled by the list of calls a function makes, at the
granularity of the objects the Vulkan context owns. -/

/-- Objects the Vulkan context and the scene create and delete. -/
inductive ContextObject where
  | transferCmdPool
  | cmdPool
  | frameBuffer
  | depthImage
  | depthImageView
  | mainRenderPass
  | mainPipeline
  | instancePipeline
  | swapChain
  | descPool
  | stagingBuffer
  | vertexBuffer
  | indexBuffer
  | instanceBuffer
  | vxDynamicBuffer
deriving DecidableEq, Repr

/-- One step of a call sequence: a driver call that waits or submits, the
invocation of a callback, or the construction or deletion of an object. -/
inductive DeviceCall where
  | vkDeviceWaitIdle
  | vkQueueWaitIdle
  | vkAcquireNextImageKHR
  | vkQueueSubmit
  | vkQueuePresentKHR
  | outdatedSwapChainCallback
  | sceneRenderCallback
  | create (o : ContextObject)
  | delete (o : ContextObject)
deriving DecidableEq, Repr

/-- Method `KVulkan::FinishDrawing`. -/
def KVulkan.FinishDrawing : List DeviceCall := [.vkDeviceWaitIdle]

/-- Method `KVulkan::DestroyCommandPools`. -/
def KVulkan.DestroyCommandPools : List DeviceCall :=
  [.delete .transferCmdPool, .delete .cmdPool]

/-- Method `KVulkan::DestroySwapChain`. -/
def KVulkan.DestroySwapChain : List DeviceCall :=
  KVulkan.DestroyCommandPools ++
    [.delete .frameBuffer, .delete .depthImage, .delete .depthImageView, .delete .mainRenderPass,
     .delete .mainPipeline, .delete .instancePipeline, .delete .swapChain]

/-- Method `KVulkan::InitializeCommandPools`. -/
def KVulkan.InitializeCommandPools : List DeviceCall :=
  [.create .cmdPool, .create .transferCmdPool]

/-- Method `KVulkan::InitializeDepthBuffer`; the layout transition of the depth
image submits one command buffer and waits for its queue. -/
def KVulkan.InitializeDepthBuffer : List DeviceCall :=
  [.create .depthImage, .create .depthImageView, .vkQueueSubmit, .vkQueueWaitIdle]

/-- Method `KVulkan::InitializeGraphics` when every step returns `KE_OK`. -/
def KVulkan.InitializeGraphics (doCreateInstancingPipeline : Bool) : List DeviceCall :=
  [.create .swapChain, .create .mainRenderPass, .create .mainPipeline] ++
    (if doCreateInstancingPipeline then [.create .instancePipeline] else []) ++
    KVulkan.InitializeCommandPools ++ KVulkan.InitializeDepthBuffer ++ [.create .frameBuffer]

/-- Method `KVulkan::RecreateSwapChain`. -/
def KVulkan.RecreateSwapChain (doCreateInstancingPipeline : Bool) : List DeviceCall :=
  KVulkan.DestroySwapChain ++ KVulkan.InitializeGraphics doCreateInstancingPipeline

/-- Method `KVulkan::RecreateDescriptorPool`. -/
def KVulkan.RecreateDescriptorPool : List DeviceCall :=
  [.delete .descPool, .create .descPool]

/-- Method `KVulkan::RecreateCommandPool`. -/
def KVulkan.RecreateCommandPool : List DeviceCall :=
  KVulkan.FinishDrawing ++ KVulkan.DestroyCommandPools ++ KVulkan.InitializeCommandPools

/-- Answers of the driver to the three calls of `KVulkan::DrawFrame` whose result
the source examines. -/
structure FrameDriver where
  vkAcquireNextImageKHR : Int
  vkQueueSubmit : Int
  vkQueuePresentKHR : Int
deriving DecidableEq, Repr

/-- Outcome of a function that may throw: the calls made and the error thrown,
if any. -/
structure Run where
  calls : List DeviceCall
  thrown : Option KError
deriving DecidableEq, Repr

/-- Method `KVulkan::DrawFrame`. The member `outdatedSwapChainCallback` is `none`
when null and otherwise the calls its body makes; `sceneRenderCallback` tells
whether that callback of the settings is set. -/
def KVulkan.DrawFrame (outdatedSwapChainCallback : Option (List DeviceCall))
    (sceneRenderCallback : Bool) (driver : FrameDriver) : Run :=
  let calls : List DeviceCall := [.vkAcquireNextImageKHR]
  if driver.vkAcquireNextImageKHR = VK_ERROR_OUT_OF_DATE_KHR then
    match outdatedSwapChainCallback with
    | some body => { calls := calls ++ .outdatedSwapChainCallback :: body, thrown := none }
    | none => { calls := calls, thrown := some .KE_VULKAN_SC_OUT_OF_DATE }
  else if driver.vkAcquireNextImageKHR ≠ VK_SUCCESS ∧
      driver.vkAcquireNextImageKHR ≠ VK_SUBOPTIMAL_KHR then
    { calls := calls, thrown := some .KE_VULKAN_DRAW_FAIL }
  else
    let calls := if sceneRenderCallback then calls ++ [.sceneRenderCallback] else calls
    let calls := calls ++ [.vkQueueSubmit]
    if driver.vkQueueSubmit ≠ VK_SUCCESS then
      { calls := calls, thrown := some .KE_VULKAN_DRAW_FAIL }
    else
      let calls := calls ++ [.vkQueuePresentKHR]
      if driver.vkQueuePresentKHR ≠ VK_SUCCESS then
        { calls := calls, thrown := some .KE_VULKAN_DRAW_FAIL }
      else { calls := calls ++ [.vkQueueWaitIdle], thrown := none }

/-- Callback `KEngine::InitializeVulkan` leaves in the settings: the one the user
supplied, or the lambda that calls `RecreateSwapChain`. -/
def KEngine.InitializeVulkan (outdatedSwapChainCallback : Option (List DeviceCall))
    (doCreateInstancingPipeline : Bool) : Option (List DeviceCall) :=
  match outdatedSwapChainCallback with
  | none => some (KVulkan.RecreateSwapChain doCreateInstancingPipeline)
  | some body => some body

/-- Method `KEngine::OnWindowResize`. -/
def KEngine.OnWindowResize (outdatedSwapChainCallback : Option (List DeviceCall))
    (doCreateInstancingPipeline : Bool) : List DeviceCall :=
  KVulkan.FinishDrawing ++
    match outdatedSwapChainCallback with
    | some body => .outdatedSwapChainCallback :: body
    | none => KVulkan.RecreateSwapChain doCreateInstancingPipeline

/-- Calls of the statement `if (buffer != nullptr && buffer != dummy) delete (buffer);`
of `KScene::Actualize` for the buffer member `o`. -/
def Actualize.releaseCalls (buffer : Option KVulkanBuffer) (dummy : KVulkanBuffer)
    (o : ContextObject) : List DeviceCall :=
  match buffer with
  | none => []
  | some b => if b.id ≠ dummy.id then [.delete o] else []

/-- Calls of `KScene::CreateObjectBuffer` for a payload of `bufferSize` bytes:
`Copy` submits one transfer command buffer and waits for the transfer queue. -/
def CreateObjectBuffer.calls (bufferSize : Nat) (o : ContextObject) : List DeviceCall :=
  if bufferSize = 0 then []
  else [.create .stagingBuffer, .create o, .vkQueueSubmit, .vkQueueWaitIdle, .delete .stagingBuffer]

/-- Calls of `KScene::Actualize` in the order of the source, when nothing throws. -/
def Actualize.calls {V D : Type} (sz : PayloadSizes) (s : KScene V D) : List DeviceCall :=
  let r := Actualize.loadObjects s.objects 0 0 [] []
  let inst := Actualize.loadInstances s.instancedObjects
  let doCreateInstancingPipeline :=
    if s.instancedObjects.isEmpty then s.vulkan.doCreateInstancingPipeline else true
  Actualize.releaseCalls s.vertexBuffer s.dummyVertexBuffer .vertexBuffer ++
    Actualize.releaseCalls s.indexBuffer s.dummyIndexBuffer .indexBuffer ++
    CreateObjectBuffer.calls (toSizeT (sz.sizeofVertex * r.vx.length)) .vertexBuffer ++
    CreateObjectBuffer.calls (toSizeT (sizeofIndex * r.ix.length)) .indexBuffer ++
    Actualize.releaseCalls s.instanceBuffer s.dummyInstanceBuffer .instanceBuffer ++
    CreateObjectBuffer.calls (toSizeT (sz.sizeofInstanceData * inst.length)) .instanceBuffer ++
    [.create .vxDynamicBuffer] ++
    KVulkan.RecreateDescriptorPool ++
    KVulkan.RecreateSwapChain doCreateInstancingPipeline ++
    KVulkan.RecreateCommandPool

/-! ## Model loader (`KModelLoaderTinyObj.cpp`)

A `KMesh` pointer is the position of the mesh in the list of meshes the loader
has allocated; the source never frees a mesh. The member `filename` of `KMesh`
is never assigned by the loader and is left out. -/

/-- The `float` values and the one float operation the loader uses. -/
structure FloatOps (F : Type) where
  zero : F
  one : F
  sub : F → F → F

/-- Vertex `Vulkan::Vertex`: position, color, texture coordinate and normal. -/
structure Vertex (F : Type) where
  pos : F × F × F
  color : F × F × F
  texCoord : F × F
  normal : F × F × F
deriving DecidableEq, Repr

/-- Face corner `tinyobj::index_t`. -/
structure index_t where
  vertex_index : Int
  normal_index : Int
  texcoord_index : Int
deriving DecidableEq, Repr

/-- Attribute arrays `tinyobj::attrib_t`. -/
structure attrib_t (F : Type) where
  vertices : List F
  normals : List F
  texcoords : List F
deriving DecidableEq, Repr

/-- Shape `tinyobj::shape_t`: the face corners `mesh.indices` of the shape. -/
structure shape_t where
  indices : List index_t
deriving DecidableEq, Repr

/-- What `tinyobj::LoadObj` delivers for a file it parses. -/
structure ObjFile (F : Type) where
  attrib : attrib_t F
  shapes : List shape_t
deriving DecidableEq, Repr

/-- Subscript `v[i]` on a `std::vector<float>` with an `int` expression: outside
the vector the read is undefined, hence `none`. -/
def readFloat {F : Type} (v : List F) (i : Int) : Option F :=
  if i < 0 then none else v[i.toNat]?

/-- Body of the inner loop of `LoadMeshData` up to the two `push_back` calls: the
vertex built for one face corner, `none` when a read is undefined. -/
def LoadMeshData.vertex {F : Type} (fl : FloatOps F) (attrib : attrib_t F) (index : index_t) :
    Option (Vertex F) :=
  match readFloat attrib.vertices (3 * index.vertex_index + 0),
      readFloat attrib.vertices (3 * index.vertex_index + 1),
      readFloat attrib.vertices (3 * index.vertex_index + 2),
      readFloat attrib.normals (3 * index.normal_index + 0),
      readFloat attrib.normals (3 * index.normal_index + 1),
      readFloat attrib.normals (3 * index.normal_index + 2) with
  | some p0, some p1, some p2, some n0, some n1, some n2 =>
    if attrib.texcoords.isEmpty then
      some { pos := (p0, p1, p2)
             color := (fl.one, fl.one, fl.one)
             texCoord := (fl.zero, fl.zero)
             normal := (n0, n1, n2) }
    else
      match readFloat attrib.texcoords (2 * index.texcoord_index + 0),
          readFloat attrib.texcoords (2 * index.texcoord_index + 1) with
      | some t0, some t1 =>
        some { pos := (p0, p1, p2)
               color := (fl.one, fl.one, fl.one)
               texCoord := (t0, fl.sub fl.one t1)
               normal := (n0, n1, n2) }
      | _, _ => none
  | _, _, _, _, _, _ => none

/-- Inner loop `for (const auto &index : shape.mesh.indices)` of `LoadMeshData`:
each corner pushes its vertex and the index `mesh->indices.size()`. -/
def LoadMeshData.corners {F : Type} (fl : FloatOps F) (attrib : attrib_t F) :
    List index_t → KMesh (Vertex F) → Option (KMesh (Vertex F))
  | [], mesh => some mesh
  | index :: rest, mesh =>
    match LoadMeshData.vertex fl attrib index with
    | none => none
    | some vertex =>
      let mesh := { mesh with vertices := mesh.vertices ++ [vertex] }
      let mesh := { mesh with indices := mesh.indices ++ [mesh.indices.length] }
      LoadMeshData.corners fl attrib rest mesh

/-- Outer loop `for (const auto &shape : shapes)` of `LoadMeshData`. -/
def LoadMeshData.shapes {F : Type} (fl : FloatOps F) (attrib : attrib_t F) :
    List shape_t → KMesh (Vertex F) → Option (KMesh (Vertex F))
  | [], mesh => some mesh
  | shape :: rest, mesh =>
    match LoadMeshData.corners fl attrib shape.indices mesh with
    | none => none
    | some mesh => LoadMeshData.shapes fl attrib rest mesh

/-- A `KModelLoaderTinyObj`: the meshes it has allocated, by address, and its
member `meshCache`, the entries in insertion order. -/
structure KModelLoaderTinyObj (F : Type) where
  meshes : List (KMesh (Vertex F))
  meshCache : List (String × Nat)
deriving DecidableEq, Repr

/-- Expression `new KMesh()`. -/
def KMesh.new (V : Type) : KMesh V :=
  { vertices := [], indices := [], bufferOffset := 0 }

/-- Call `meshCache.find(filename)`: the mesh pointer of the entry with that key. -/
def meshCacheFind (meshCache : List (String × Nat)) (filename : String) : Option Nat :=
  match meshCache with
  | [] => none
  | cache :: rest => if cache.1 = filename then some cache.2 else meshCacheFind rest filename

/-- Method `KModelLoaderTinyObj::LoadMeshData`: the address of the mesh returned
and the loader afterwards, or the error thrown; `none` when a read of the
attribute arrays is undefined. `files` tells what `tinyobj::LoadObj` delivers
for a file name, `none` when it fails. -/
def KModelLoaderTinyObj.LoadMeshData {F : Type} (fl : FloatOps F)
    (files : String → Option (ObjFile F)) (loader : KModelLoaderTinyObj F) (filename : String) :
    Option (Except KError (Nat × KModelLoaderTinyObj F)) :=
  let mesh := KMesh.new (Vertex F)
  match meshCacheFind loader.meshCache filename with
  | some cache =>
    match loader.meshes[cache]? with
    | none => none
    | some cached =>
      let mesh := { mesh with vertices := cached.vertices }
      let mesh := { mesh with indices := cached.indices }
      some (.ok (loader.meshes.length, { loader with meshes := loader.meshes ++ [mesh] }))
  | none =>
    match files filename with
    | none => some (.error .KE_MODEL_LOAD_FAIL)
    | some obj =>
      match LoadMeshData.shapes fl obj.attrib obj.shapes mesh with
      | none => none
      | some mesh =>
        some (.ok (loader.meshes.length,
          { meshes := loader.meshes ++ [mesh]
            meshCache := loader.meshCache ++ [(filename, loader.meshes.length)] }))

/-- Method `KModelLoaderTinyObj::LoadModel`; the object returned is given by the
address of its mesh. -/
def KModelLoaderTinyObj.LoadModel {F : Type} (fl : FloatOps F)
    (files : String → Option (ObjFile F)) (loader : KModelLoaderTinyObj F) (filename : String) :
    Option (Except KError (Nat × KModelLoaderTinyObj F)) :=
  if filename.isEmpty then
    some (.ok (loader.meshes.length,
      { loader with meshes := loader.meshes ++ [KMesh.new (Vertex F)] }))
  else loader.LoadMeshData fl files filename

/-- Loop of `KModelLoaderTinyObj::RemoveFromCache`: the first entry whose mesh
pointer is `mesh` is erased and the loop stops. -/
def RemoveFromCache.erase (mesh : Nat) : List (String × Nat) → List (String × Nat)
  | [] => []
  | cache :: rest => if cache.2 = mesh then rest else cache :: RemoveFromCache.erase mesh rest

/-- Method `KModelLoaderTinyObj::RemoveFromCache`. -/
def KModelLoaderTinyObj.RemoveFromCache {F : Type} (loader : KModelLoaderTinyObj F) (mesh : Nat) :
    KModelLoaderTinyObj F :=
  { loader with meshCache := RemoveFromCache.erase mesh loader.meshCache }

/-- Method `KModelLoaderTinyObj::ClearCache`. -/
def KModelLoaderTinyObj.ClearCache {F : Type} (loader : KModelLoaderTinyObj F) :
    KModelLoaderTinyObj F :=
  { loader with meshCache := [] }

/-! ## Lights (`KScene::CreateLight`, `KScene::Update`) -/

/-- Constant `KE_MAX_DYNAMIC_LIGHTS`, the length of the array `lights` of
`LightUniformBufferObject`. -/
def KE_MAX_DYNAMIC_LIGHTS : Nat := 128

/-- Method `KScene::CreateLight` on the member `lights`; `light` is the object
`new KLight(this)` builds. The light returned is given by its position in the
list afterwards. -/
def KScene.CreateLight {L : Type} (lights : List L) (light : L) : Nat × List L :=
  if lights.length ≥ KE_MAX_DYNAMIC_LIGHTS then (lights.length - 1, lights)
  else
    let lights := lights ++ [light]
    (lights.length - 1, lights)

/-- Loop of `KScene::Update` that fills `lightUBO.lights`, entered at subscript
`i` with the lights from `i` on: `record` builds the `KLightData` of a light. A
write outside the array is undefined, hence `none`. -/
def Update.lights {L R : Type} (record : L → R) : List L → Nat → List R → Option (List R)
  | [], _, lightUBO => some lightUBO
  | light :: rest, i, lightUBO =>
    if i < lightUBO.length then Update.lights record rest (i + 1) (lightUBO.set i (record light))
    else none

/-- Light block `lightUBO` that `KScene::Update` copies to the lights buffer:
the zero-initialised array of `KE_MAX_DYNAMIC_LIGHTS` records with one record
written per light. -/
def KScene.Update.lightUBO {L R : Type} (record : L → R) (zero : R) (lights : List L) :
    Option (List R) :=
  Update.lights record lights 0 (List.replicate KE_MAX_DYNAMIC_LIGHTS zero)

/-! ## Queue families (`Vulkan/KVulkanDevice.cpp`, `include/Vulkan/KVulkanDevice.h`) -/

/-- Flag `VK_QUEUE_GRAPHICS_BIT`. -/
def VK_QUEUE_GRAPHICS_BIT : Nat := 1

/-- Flag `VK_QUEUE_COMPUTE_BIT`. -/
def VK_QUEUE_COMPUTE_BIT : Nat := 2

/-- Flag `VK_QUEUE_TRANSFER_BIT`. -/
def VK_QUEUE_TRANSFER_BIT : Nat := 4

/-- What the driver reports for one queue family: the fields of
`VkQueueFamilyProperties` the source reads and the answer of
`vkGetPhysicalDeviceSurfaceSupportKHR` for the surface of the context. -/
structure QueueFamily where
  queueFlags : Nat
  queueCount : Nat
  presentSupport : Bool
deriving DecidableEq, Repr

/-- Queue family members of `KVulkanDevice::KDeviceFeatures`. -/
structure KDeviceFeatures where
  graphicsFamily : Nat
  presentFamily : Nat
  transferFamily : Nat
deriving DecidableEq, Repr

/-- Method `KDeviceFeatures::hasCompleteFamilies`. -/
def KDeviceFeatures.hasCompleteFamilies (f : KDeviceFeatures) : Bool :=
  f.graphicsFamily != UINT32_MAX && f.presentFamily != UINT32_MAX &&
    f.transferFamily != UINT32_MAX

/-- Loop `for (uint32_t i = 0; i < queueFamilies.size(); ++i)` of
`KVulkanDevice::GetDeviceFeatures`, entered at index `i` with the families from
`i` on; it stops as soon as the three families are set. -/
def GetDeviceFeatures.scan : List QueueFamily → Nat → KDeviceFeatures → KDeviceFeatures
  | [], _, devFeatures => devFeatures
  | family :: rest, i, devFeatures =>
    if family.queueCount > 0 then
      let devFeatures :=
        if family.queueFlags &&& VK_QUEUE_GRAPHICS_BIT ≠ 0 then
          { devFeatures with graphicsFamily := i }
        else devFeatures
      let devFeatures :=
        if family.queueFlags &&& VK_QUEUE_TRANSFER_BIT ≠ 0 ∧
            ¬ (family.queueFlags &&& VK_QUEUE_GRAPHICS_BIT ≠ 0) then
          { devFeatures with transferFamily := i }
        else devFeatures
      let devFeatures :=
        if family.presentSupport then { devFeatures with presentFamily := i } else devFeatures
      if devFeatures.hasCompleteFamilies then devFeatures
      else GetDeviceFeatures.scan rest (i + 1) devFeatures
    else GetDeviceFeatures.scan rest (i + 1) devFeatures

/-- Queue family part of `KVulkanDevice::GetDeviceFeatures`: the families chosen
for the queue families the driver reports, or the error thrown. -/
def KVulkanDevice.GetDeviceFeatures (queueFamilies : List QueueFamily) :
    Except KError KDeviceFeatures :=
  if queueFamilies.length = 0 then .error .KE_VULKAN_NO_DEVICE
  else
    let devFeatures : KDeviceFeatures :=
      { graphicsFamily := UINT32_MAX, presentFamily := UINT32_MAX, transferFamily := UINT32_MAX }
    let devFeatures := GetDeviceFeatures.scan queueFamilies 0 devFeatures
    let devFeatures :=
      if devFeatures.presentFamily ≠ UINT32_MAX ∧ devFeatures.graphicsFamily ≠ UINT32_MAX ∧
          devFeatures.transferFamily = UINT32_MAX then
        { devFeatures with transferFamily := devFeatures.graphicsFamily }
      else devFeatures
    if devFeatures.hasCompleteFamilies = false then .error .KE_VULKAN_NO_DEVICE
    else .ok devFeatures

/-- Method `KVulkanDevice::GetQueueFamilyIndices`. -/
def KVulkanDevice.GetQueueFamilyIndices (features : KDeviceFeatures) : List Nat :=
  let ret : List Nat := []
  let ret := ret ++ [features.graphicsFamily]
  let ret := if features.graphicsFamily ≠ features.presentFamily then
    ret ++ [features.presentFamily] else ret
  let ret := if features.graphicsFamily ≠ features.transferFamily then
    ret ++ [features.transferFamily] else ret
  ret

/-! ## Graphics pipeline (`Vulkan/KVulkanGraphicsPipeline.cpp`) -/

/-- Answers of the driver to the two calls of `CreatePipeline` whose result the
source examines. -/
structure PipelineDriver where
  vkCreatePipelineLayout : Int
  vkCreateGraphicsPipelines : Int
deriving DecidableEq, Repr

/-- Conversion of a `KError` value to `bool`, which a `return` of an error code
from a function of result type `bool` performs: true unless the value is zero. -/
def KError.toBool (e : KError) : Bool := e.toInt != 0

/-- Method `KVulkanGraphicsPipeline::CreatePipeline`, declared to return `bool`.
The statement `return KE_VULKAN_GPIPELINE_FAIL;` after a failed
`vkCreatePipelineLayout` converts the error code to `bool`. -/
def KVulkanGraphicsPipeline.CreatePipeline (driver : PipelineDriver) : Bool :=
  if driver.vkCreatePipelineLayout ≠ VK_SUCCESS then KError.toBool .KE_VULKAN_GPIPELINE_FAIL
  else !(decide (driver.vkCreateGraphicsPipelines ≠ VK_SUCCESS))

/-- Method `KVulkanGraphicsPipeline::Initialize` when no shader throws;
`shadersLoaded` is what `LoadShaders` returns. -/
def KVulkanGraphicsPipeline.Initialize (shadersLoaded : Bool) (driver : PipelineDriver) : KError :=
  if !shadersLoaded then .KE_VULKAN_SHADER_FAIL
  else if !KVulkanGraphicsPipeline.CreatePipeline driver then .KE_VULKAN_GPIPELINE_FAIL
  else .KE_OK

/-! ## Recording the static render pass (`KScene::StaticRenderCallback`, `KScene::DrawObjects`) -/

/-- What one iteration of the loop of `KScene::DrawObjects` records for an object:
the byte offset into the host block `vxUBO` at which `UpdateDynamicObjectBuffer`
writes the object's block, the dynamic offset bound with the descriptor sets,
and the indexed draw. -/
structure ObjectDraw where
  vxUBOOffset : Nat
  dynamicOffset : Nat
  draw : DrawIndexed
deriving DecidableEq, Repr

/-- Loop `for (uint32_t i = 0; i < objects.size(); ++i)` of `KScene::DrawObjects`,
entered at index `i` with the objects from `i` on. -/
def DrawObjects.loop {V : Type} (dynamicAlignment : Nat) :
    List (KObject V) → Nat → List ObjectDraw
  | [], _ => []
  | object :: rest, i =>
    let offset := object.mesh.GetBufferOffset
    let dynamicOffset := (i * (dynamicAlignment % 2 ^ 32)) % 2 ^ 32
    { vxUBOOffset := toSizeT (i * dynamicAlignment)
      dynamicOffset := dynamicOffset
      draw :=
        { indexCount := object.mesh.indices.length
          instanceCount := 1
          firstIndex := 0
          vertexOffset := offset
          firstInstance := 0 } } :: DrawObjects.loop dynamicAlignment rest (i + 1)

/-- Method `KScene::DrawObjects`: what it records for each object, in order. -/
def KScene.DrawObjects {V D : Type} (s : KScene V D) : List ObjectDraw :=
  DrawObjects.loop s.dynamicAlignment s.objects 0

/-- Method `KScene::StaticRenderCallback`, which the command pool calls whenever
it records the static render pass: `none` when the vertex buffer pointer is
null and nothing is recorded, otherwise what `DrawObjects` records and whether
`DrawInstancedObjects` is called, which binds the pipeline behind
`vulkan->instancePipeline`. -/
def KScene.StaticRenderCallback {V D : Type} (s : KScene V D) : Option (List ObjectDraw × Bool) :=
  match s.vertexBuffer with
  | none => none
  | some _ => some (s.DrawObjects, !s.instancedObjects.isEmpty)

/-! ## Materials of a scene (`KScene.cpp`) -/

/-- Members of `KScene` that concern materials: the material list, the pointer
`dummyMat`, the material pointer `mat` of every object in the order of the
object list, and the address the next constructed material receives. A
material pointer is the `id` of the material. -/
structure SceneMaterials where
  materials : List KMaterial
  dummyMat : Nat
  objectMaterials : List Nat
  nextMaterial : Nat
deriving DecidableEq, Repr

/-- Method `KScene::LoadImageTexture`: the built-in loader returns a new
`KMaterial`, which joins the material list; its address is returned. -/
def SceneMaterials.LoadImageTexture (s : SceneMaterials) : Nat × SceneMaterials :=
  let mat : KMaterial := { id := s.nextMaterial, descriptorSet := none }
  (mat.id, { s with materials := s.materials ++ [mat], nextMaterial := s.nextMaterial + 1 })

/-- Method `KScene::Generate2DTexture`: a new `KMaterial` joins the material list. -/
def SceneMaterials.Generate2DTexture (s : SceneMaterials) : Nat × SceneMaterials :=
  let mat : KMaterial := { id := s.nextMaterial, descriptorSet := none }
  (mat.id, { s with materials := s.materials ++ [mat], nextMaterial := s.nextMaterial + 1 })

/-- Last statement of the constructor `KScene::KScene`:
`dummyMat = LoadImageTexture("");` on a scene without materials. -/
def SceneMaterials.new : SceneMaterials :=
  let s : SceneMaterials :=
    { materials := [], dummyMat := 0, objectMaterials := [], nextMaterial := 0 }
  let (mat, s) := s.LoadImageTexture
  { s with dummyMat := mat }

/-- Method `KScene::LoadModel`: the new object receives `dummyMat`. -/
def SceneMaterials.LoadModel (s : SceneMaterials) : SceneMaterials :=
  { s with objectMaterials := s.objectMaterials ++ [s.dummyMat] }

/-- Method `KScene::DeleteEverything`: the objects are deleted, every material of
the list is deleted and the list is cleared; `dummyMat` is not assigned. -/
def SceneMaterials.DeleteEverything (s : SceneMaterials) : SceneMaterials :=
  { s with objectMaterials := [], materials := [] }

/-- Method `KScene::Actualize`: the descriptor pool is rebuilt and every material
of the list receives its descriptor set. -/
def SceneMaterials.Actualize (s : SceneMaterials) : SceneMaterials :=
  { s with materials := (Actualize.descriptors s.materials).materials }

/-- Method `KScene::Clear`: `DeleteEverything(); Actualize();`. -/
def SceneMaterials.Clear (s : SceneMaterials) : SceneMaterials :=
  s.DeleteEverything.Actualize

/-! ## Ownership of the loaders (`KScene::KScene`, `KScene::~KScene`) -/

/-- Members of `KScene` that concern the loaders. A loader pointer is an
address. -/
structure SceneLoaders where
  texLoader : Nat
  hasUserSetTextureLoader : Bool
  objLoader : Nat
  hasUserSetModelLoader : Bool
deriving DecidableEq, Repr

/-- Loader part of the constructor `KScene::KScene`. A null argument is `none`;
the loaders the constructor creates itself receive the addresses
`newTextureLoader` and `newModelLoader`. Both flags are `true` initially. -/
def SceneLoaders.new (textureLoader modelLoader : Option Nat)
    (newTextureLoader newModelLoader : Nat) : SceneLoaders :=
  let hasUserSetTextureLoader := true
  let hasUserSetModelLoader := true
  let (textureLoader, hasUserSetTextureLoader) :=
    match textureLoader with
    | none => (newTextureLoader, false)
    | some loader => (loader, hasUserSetTextureLoader)
  let texLoader := textureLoader
  let (modelLoader, hasUserSetTextureLoader) :=
    match modelLoader with
    | none => (newModelLoader, false)
    | some loader => (loader, hasUserSetTextureLoader)
  let objLoader := modelLoader
  { texLoader := texLoader
    hasUserSetTextureLoader := hasUserSetTextureLoader
    objLoader := objLoader
    hasUserSetModelLoader := hasUserSetModelLoader }

/-- Loader part of the destructor `KScene::~KScene`: the loaders it deletes. -/
def SceneLoaders.delete (s : SceneLoaders) : List Nat :=
  let deleted : List Nat := []
  let deleted := if !s.hasUserSetTextureLoader then deleted ++ [s.texLoader] else deleted
  let deleted := if !s.hasUserSetModelLoader then deleted ++ [s.objLoader] else deleted
  deleted

/-- Method `KEngine::CreateScene`: the scene is constructed with the given
texture loader and no model loader. -/
def KEngine.CreateScene (textureLoader : Option Nat) (newTextureLoader newModelLoader : Nat) :
    SceneLoaders :=
  SceneLoaders.new textureLoader none newTextureLoader newModelLoader

/-- A sequence of `KScene::CreateLight` calls on a scene that holds `lights`, one
call for each element of `created` (the light the call would construct): the
light list afterwards. -/
def KScene.CreateLights {L : Type} (lights : List L) (created : List L) : List L :=
  created.foldl (fun lights light => (KScene.CreateLight lights light).2) lights

/-! ## Concrete inputs on which the definitions are evaluated -/

/-- Payload sizes under the packed `glm` layout: a vertex is 11 floats, an
instance block 7 floats, the per-object block a 4x4 matrix and a 4-vector, the
camera block two matrices and a 4-vector, the light block 128 records of four
4-vectors. -/
def demoSizes : PayloadSizes :=
  { sizeofVertex := 44
    sizeofInstanceData := 28
    sizeofVxDynamicUBO := 80
    sizeofUniformBufferObject := 144
    sizeofLightUniformBufferObject := 8192 }

/-- Vulkan context with no buffer yet, on a device whose
`minUniformBufferOffsetAlignment` is `a`. -/
def demoContext (a : Nat) : KVulkan :=
  { buffers := []
    nextBuffer := 0
    minUniformBufferOffsetAlignment := a
    doCreateInstancingPipeline := false }

/-- Mesh with `n` vertices (numbered from `tag`) and the indices `0, ..., n - 1`,
the shape of mesh the built-in loader produces. -/
def demoMesh (tag n : Nat) : KMesh Nat :=
  { vertices := (List.range n).map (fun j => tag + j)
    indices := List.range n
    bufferOffset := 0 }

/-- Scene built by the constructor on a device of alignment `a`, followed by one
`LoadModel` for each of the given meshes; `none` when the constructor is
undefined. -/
def demoScene (a : Nat) (meshes : List (KMesh Nat)) : Option (KScene Nat Nat) :=
  (KScene.new Nat Nat demoSizes (demoContext a)).map (fun s => meshes.foldl KScene.LoadModel s)

/-- Scene of `demoScene` after one `CreateInstance` on each listed object, in
list order, followed by `Actualize`. -/
def demoInstancedScene (a : Nat) (meshes : List (KMesh Nat)) (parents : List Nat) :
    Option (KScene Nat Nat) :=
  match demoScene a meshes with
  | none => none
  | some s =>
    match (s.CreateInstances parents 0).Actualize demoSizes with
    | .error _ => none
    | .ok t => some t

/-- Swap chain support of a surface with image counts between `minCount` and
`maxCount`, a fixed current extent of 800 by 600, one BGRA8 sRGB format and the
given present modes. -/
def demoSupport (minCount maxCount : Nat) (presentModes : List Nat) : SwapChainSupportDetails :=
  { capabilities :=
      { minImageCount := minCount
        maxImageCount := maxCount
        currentExtent := { width := 800, height := 600 }
        minImageExtent := { width := 1, height := 1 }
        maxImageExtent := { width := 4096, height := 4096 }
        currentTransform := 1 }
    formats := [KVulkanDefaults.desiredSurfaceFormat]
    presentModes := presentModes }

/-- Support of a surface with 2 to 8 images that offers FIFO and mailbox. -/
def demoMailboxSupport : SwapChainSupportDetails :=
  demoSupport 2 8 [VK_PRESENT_MODE_FIFO_KHR, VK_PRESENT_MODE_MAILBOX_KHR]

/-- Creation record of the BoxTest example (`Examples/BoxTest/main.cpp`): the
default record with `presentMode` set to FIFO. -/
def demoVSyncRecord : VkSwapchainCreateInfoKHR :=
  { KVulkanDefaults.swapChainCreateInfo with presentMode := VK_PRESENT_MODE_FIFO_KHR }

/-- Creation record that sets `presentMode` to mailbox and nothing else. -/
def demoMailboxRecord : VkSwapchainCreateInfoKHR :=
  { KVulkanDefaults.swapChainCreateInfo with presentMode := VK_PRESENT_MODE_MAILBOX_KHR }

/-- Memory types of a device with one device-local type, one host-visible and
coherent type, and one type that is all three. -/
def demoMemoryTypes : List VkMemoryType :=
  [{ propertyFlags := 1, heapIndex := 0 }, { propertyFlags := 6, heapIndex := 1 },
   { propertyFlags := 7, heapIndex := 0 }]

/-- Driver of `demoMemoryTypes` that accepts every memory type for the buffer and
answers the three calls of `CreateBuffer` with the given result codes. -/
def demoBufferDriver (create allocate bind : Int) : BufferDriver :=
  { vkCreateBuffer := create
    memRequirements := { size := 256, alignment := 16, memoryTypeBits := 7 }
    memoryTypes := demoMemoryTypes
    vkAllocateMemory := allocate
    vkBindBufferMemory := bind }

/-- Driver that answers `vkCreateImage` and the image's `vkAllocateMemory` with the
given result codes and lets the temporary buffer succeed. -/
def demoImageDriver (create allocate : Int) : ImageDriver :=
  { vkCreateImage := create
    memRequirements := { size := 4096, alignment := 256, memoryTypeBits := 5 }
    temp := demoBufferDriver VK_SUCCESS VK_SUCCESS VK_SUCCESS
    vkAllocateMemory := allocate
    vkBindImageMemory := VK_SUCCESS }

/-- Float operations on integers, standing in for `float` where the values are
evaluated. -/
def demoFloats : FloatOps Int :=
  { zero := 0, one := 1, sub := fun a b => a - b }

/-- Model file with four positions and one normal and two triangles that share
two of their corners: six face corners in two shapes. -/
def demoObjFile : ObjFile Int :=
  { attrib :=
      { vertices := [0, 0, 0, 1, 0, 0, 0, 1, 0, 1, 1, 0]
        normals := [0, 0, 1]
        texcoords := [] }
    shapes :=
      [{ indices :=
          [{ vertex_index := 0, normal_index := 0, texcoord_index := -1 },
           { vertex_index := 1, normal_index := 0, texcoord_index := -1 },
           { vertex_index := 2, normal_index := 0, texcoord_index := -1 }] },
       { indices :=
          [{ vertex_index := 2, normal_index := 0, texcoord_index := -1 },
           { vertex_index := 1, normal_index := 0, texcoord_index := -1 },
           { vertex_index := 3, normal_index := 0, texcoord_index := -1 }] }] }

/-- File system that holds `demoObjFile` under the name `quad.obj` and nothing
else. -/
def demoFiles (filename : String) : Option (ObjFile Int) :=
  if filename = "quad.obj" then some demoObjFile else none

/-- File system on which `tinyobj::LoadObj` fails for every name. -/
def noFiles (_ : String) : Option (ObjFile Int) := none

/-- Loader that has allocated no mesh yet. -/
def demoLoader : KModelLoaderTinyObj Int :=
  { meshes := [], meshCache := [] }

/-- Queue families of a device whose family 0 does graphics and whose family 1
does compute and transfer; both can present to the surface. -/
def demoQueueFamilies : List QueueFamily :=
  [{ queueFlags := VK_QUEUE_GRAPHICS_BIT ||| VK_QUEUE_COMPUTE_BIT ||| VK_QUEUE_TRANSFER_BIT
     queueCount := 1
     presentSupport := true },
   { queueFlags := VK_QUEUE_COMPUTE_BIT ||| VK_QUEUE_TRANSFER_BIT
     queueCount := 2
     presentSupport := true }]

/-- Scene on a device of alignment 256 that is actualized while it is empty and
then receives two objects of three vertices each. -/
def demoStaleScene : Option (KScene Nat Nat) :=
  match demoScene 256 [] with
  | none => none
  | some s =>
    match s.Actualize demoSizes with
    | .error _ => none
    | .ok t => some ((t.LoadModel (demoMesh 0 3)).LoadModel (demoMesh 3 3))

/-- Scene on a device of alignment 256 that is actualized with one object and no
instance, after which one instance of the object is created. -/
def demoStaleInstancedScene : Option (KScene Nat Nat) :=
  match demoScene 256 [demoMesh 0 3] with
  | none => none
  | some s =>
    match s.Actualize demoSizes with
    | .error _ => none
    | .ok t => some (t.CreateInstance 0 0)

/-- Scene with one object of three vertices and one instance added through
`KScene::AddObjectInstance`, actualized. -/
def demoAddedInstanceScene : Option (KScene Nat Nat) :=
  match demoScene 256 [demoMesh 0 3] with
  | none => none
  | some s =>
    match (s.AddObjectInstance 0 0).Actualize demoSizes with
    | .error _ => none
    | .ok t => some t

/-- The loader `demoLoader` after it has loaded `quad.obj` from `demoFiles`. -/
def demoLoadedLoader : KModelLoaderTinyObj Int :=
  match demoLoader.LoadModel demoFloats demoFiles "quad.obj" with
  | some (.ok (_, loader)) => loader
  | _ => demoLoader

/-- Quad of four vertices drawn as two triangles that share two vertices, the
kind of mesh a model loader with shared vertices or `KMesh::Initialize` yields. -/
def demoQuadMesh : KMesh Nat :=
  { vertices := [10, 11, 12, 13], indices := [0, 1, 2, 2, 1, 3], bufferOffset := 0 }

/-- Triangle of three vertices drawn from both sides. -/
def demoTwoSidedMesh : KMesh Nat :=
  { vertices := [20, 21, 22], indices := [0, 1, 2, 2, 1, 0], bufferOffset := 0 }

/-! ## Specification vocabulary -/

/-- The number `r` is the smallest multiple of `a` that is not below `s`. -/
def IsLeastMultipleAbove (a s r : Nat) : Prop :=
  a ∣ r ∧ s ≤ r ∧ ∀ m, a ∣ m → s ≤ m → r ≤ m

/-- The three dummy buffers `dv`, `di`, `dn` are alive in the context `vk` and
were constructed before the next buffer that `vk` hands out. -/
structure DummiesAlive (dv di dn : KVulkanBuffer) (vk : KVulkan) : Prop where
  vertexLive : dv ∈ vk.buffers
  indexLive : di ∈ vk.buffers
  instanceLive : dn ∈ vk.buffers
  vertexOld : dv.id < vk.nextBuffer
  indexOld : di.id < vk.nextBuffer
  instanceOld : dn.id < vk.nextBuffer

/-- The draw expected for a run of instances of the object `parent` whose first
instance sits at position `firstInstance` of the instance buffer. -/
def runDraw {V : Type} (parent : KObject V) (firstInstance : Nat) : DrawIndexed :=
  { indexCount := parent.mesh.indices.length
    instanceCount := parent.instanceCount
    firstIndex := 0
    vertexOffset := parent.mesh.bufferOffset
    firstInstance := firstInstance }

/-- Length of the contiguous run of `parent` that starts at the first occurrence
of `parent` in a list of instance parents. -/
def firstRunLength (parent : Nat) (parents : List Nat) : Nat :=
  ((parents.dropWhile (fun p => p != parent)).takeWhile (fun p => p == parent)).length

/-- Memory type `i` of the device fits a request: its bit is set in `typeFilter`
and its property flags include all of `properties`. -/
def FitsRequest (memoryTypes : List VkMemoryType) (typeFilter properties i : Nat) : Prop :=
  ∃ memoryType, memoryTypes[i]? = some memoryType ∧ typeFilter.testBit i = true ∧
    memoryType.propertyFlags &&& properties = properties

/-- Number of descriptors of type `t` a pool was sized for. -/
def KVulkanDescriptorPool.descriptorsOfType (pool : KVulkanDescriptorPool) (t : Nat) : Nat :=
  ((pool.poolSizes.filter (fun size => size.descriptorType = t)).map
    (fun size => size.descriptorCount)).sum

/-- Objects that depend on the swap chain: the command pools, the framebuffers,
the depth resources, the render pass, the pipelines and the swap chain. -/
def ContextObject.swapChainDependent : ContextObject → Bool
  | .transferCmdPool => true
  | .cmdPool => true
  | .frameBuffer => true
  | .depthImage => true
  | .depthImageView => true
  | .mainRenderPass => true
  | .mainPipeline => true
  | .instancePipeline => true
  | .swapChain => true
  | _ => false

/-- In a call sequence, every deletion of an object that depends on the swap
chain comes after a `vkDeviceWaitIdle`. -/
def WaitsBeforeDestroy (calls : List DeviceCall) : Prop :=
  ∀ pre o post, calls = pre ++ DeviceCall.delete o :: post → o.swapChainDependent = true →
    DeviceCall.vkDeviceWaitIdle ∈ pre

/-- Decision procedure for `WaitsBeforeDestroy`: the sequence is read up to its
first `vkDeviceWaitIdle`. -/
def waitsBeforeDestroy : List DeviceCall → Bool
  | [] => true
  | .vkDeviceWaitIdle :: _ => true
  | .delete o :: rest => !o.swapChainDependent && waitsBeforeDestroy rest
  | _ :: rest => waitsBeforeDestroy rest

/-- The set `AllocateDescriptor` yields for a layout and a descriptor type when it
is called with binding 0 and one descriptor, as `InitializeDescriptorSets` does. -/
def singleDescriptorSet (layout : DescriptorLayout) (descriptorType : Nat) : DescriptorSet :=
  { layout := layout, descriptorType := descriptorType, dstBinding := 0, descriptorCount := 1 }

/-- Index entries a draw reads from the combined index buffer `ix`: `indexCount`
entries starting at `firstIndex`. -/
def DrawIndexed.indicesRead (draw : DrawIndexed) (ix : List Nat) : List Nat :=
  (ix.drop draw.firstIndex).take draw.indexCount

/-- Every entry of the mesh cache points to a mesh the loader has allocated. -/
def KModelLoaderTinyObj.CacheValid {F : Type} (loader : KModelLoaderTinyObj F) : Prop :=
  ∀ entry, entry ∈ loader.meshCache → entry.2 < loader.meshes.length

/-- Contents of the combined index buffer `Actualize` uploads for the object list
of the scene. -/
def KScene.indexBufferContents {V D : Type} (s : KScene V D) : List Nat :=
  (Actualize.loadObjects s.objects 0 0 [] []).ix

/-- Contents of the combined vertex buffer `Actualize` uploads for the object
list of the scene. -/
def KScene.vertexBufferContents {V D : Type} (s : KScene V D) : List V :=
  (Actualize.loadObjects s.objects 0 0 [] []).vx

/-- For each object draw of `DrawObjects`, the entries it reads from the combined
index buffer. -/
def KScene.objectIndexReads {V D : Type} (s : KScene V D) : List (List Nat) :=
  s.DrawObjects.map (fun d => d.draw.indicesRead s.indexBufferContents)

/-- For each object draw of `DrawObjects`, the positions of the combined vertex
buffer it addresses: the index entries read plus the base vertex of the draw. -/
def KScene.objectVertexReads {V D : Type} (s : KScene V D) : List (List Nat) :=
  s.DrawObjects.map (fun d =>
    (d.draw.indicesRead s.indexBufferContents).map (fun index => index + d.draw.vertexOffset))

/-! ## Properties

### Dynamic uniform buffer stride and size -/

theorem land_sizeNot_pow_two (x k : Nat) (hk : k < 64) (hx : x < 2 ^ 64) :
    x &&& sizeNot (2 ^ k - 1) = x / 2 ^ k * 2 ^ k := by
  have hpos : 0 < 2 ^ k := Nat.pow_pos (by decide)
  have hlt : 2 ^ k - 1 < 2 ^ 64 := by
    have : 2 ^ k < 2 ^ 64 := Nat.pow_lt_pow_right (by decide) hk
    omega
  have h1 : sizeNot (2 ^ k - 1) = 2 ^ 64 - ((2 ^ k - 1) + 1) := by
    unfold sizeNot toSizeT
    rw [Nat.mod_eq_of_lt hlt]
    omega
  apply Nat.eq_of_testBit_eq
  intro i
  rw [h1, Nat.testBit_and, Nat.testBit_two_pow_sub_succ hlt, Nat.testBit_two_pow_sub_one,
    Nat.mul_comm, Nat.testBit_mul_pow_two, ← Nat.shiftRight_eq_div_pow, Nat.testBit_shiftRight]
  by_cases hik : i < k
  · have : ¬ k ≤ i := by omega
    simp [hik, this]
  · have hki : k ≤ i := by omega
    have e : k + (i - k) = i := by omega
    by_cases hi : i < 64
    · simp [hik, hki, hi, e]
    · have : x.testBit i = false := by
        apply Nat.testBit_lt_two_pow
        calc x < 2 ^ 64 := hx
          _ ≤ 2 ^ i := Nat.pow_le_pow_right (by decide) (by omega)
      simp [hik, hki, hi, e, this]

theorem roundUp_isLeastMultipleAbove (a s : Nat) (ha : 0 < a) :
    IsLeastMultipleAbove a s ((s + a - 1) / a * a) := by
  refine ⟨Dvd.intro_left _ rfl, ?_, ?_⟩
  · have h1 := Nat.div_add_mod (s + a - 1) a
    have h2 := Nat.mod_lt (s + a - 1) ha
    have h3 : (s + a - 1) / a * a = a * ((s + a - 1) / a) := Nat.mul_comm _ _
    omega
  · rintro m ⟨q, rfl⟩ hsm
    have : (s + a - 1) / a ≤ q := by
      apply Nat.le_of_lt_succ
      rw [Nat.div_lt_iff_lt_mul ha]
      have hq : q.succ * a = a * q + a := by rw [Nat.succ_mul, Nat.mul_comm]
      omega
    calc (s + a - 1) / a * a ≤ q * a := Nat.mul_le_mul_right _ this
      _ = a * q := Nat.mul_comm _ _

theorem CreateDynamicUniformBuffers_vxDynamicBuffer {V D : Type} (sz : PayloadSizes)
    (s : KScene V D) :
    (s.CreateDynamicUniformBuffers sz).vxDynamicBuffer =
      some { id := s.vulkan.nextBuffer,
             size := toSizeT
              (if toSizeT ((s.CreateDynamicUniformBuffers sz).dynamicAlignment * s.objects.length) = 0
                then toSizeT (1 * (s.CreateDynamicUniformBuffers sz).dynamicAlignment)
                else toSizeT ((s.CreateDynamicUniformBuffers sz).dynamicAlignment * s.objects.length)) } :=
  rfl

theorem vxUBOSize_eq (d n : Nat) (hd : d < 2 ^ 64) (h : d * n < 2 ^ 64) :
    toSizeT (if toSizeT (d * n) = 0 then toSizeT (1 * d) else toSizeT (d * n)) =
      if n = 0 then d else d * n := by
  unfold toSizeT
  rw [Nat.one_mul, Nat.mod_eq_of_lt hd, Nat.mod_eq_of_lt h]
  by_cases hn : n = 0
  · subst hn
    simp only [Nat.mul_zero, if_true]
    exact Nat.mod_eq_of_lt hd
  · rw [if_neg hn]
    by_cases hz : d * n = 0
    · rw [if_pos hz, Nat.mod_eq_of_lt hd]
      rcases Nat.mul_eq_zero.mp hz with h0 | h0
      · rw [h0, Nat.zero_mul]
      · exact absurd h0 hn
    · rw [if_neg hz, Nat.mod_eq_of_lt h]

/-- C1 (amended). On a device whose minimum uniform buffer offset alignment is a
power of two `2 ^ k` (`k < 64`), and when block size plus alignment does not
exceed `2 ^ 64`, `CreateDynamicUniformBuffers` leaves in `dynamicAlignment` the
smallest multiple of the alignment that is not below the size of the
per-object block; and whenever `dynamicAlignment * objects.size()` fits in 64
bits the new dynamic uniform buffer has that size when there are objects and
exactly `dynamicAlignment` bytes when there are none. -/
theorem CreateDynamicUniformBuffers_stride_and_size {V D : Type} (sz : PayloadSizes)
    (s : KScene V D) (k : Nat) (hk : k < 64)
    (ha : s.vulkan.minUniformBufferOffsetAlignment = 2 ^ k)
    (hS : sz.sizeofVxDynamicUBO + 2 ^ k ≤ 2 ^ 64) :
    IsLeastMultipleAbove (2 ^ k) sz.sizeofVxDynamicUBO
        (s.CreateDynamicUniformBuffers sz).dynamicAlignment ∧
      ((s.CreateDynamicUniformBuffers sz).dynamicAlignment * s.objects.length < 2 ^ 64 →
        ∃ b, (s.CreateDynamicUniformBuffers sz).vxDynamicBuffer = some b ∧
          b.size = if s.objects.length = 0 then (s.CreateDynamicUniformBuffers sz).dynamicAlignment
            else (s.CreateDynamicUniformBuffers sz).dynamicAlignment * s.objects.length) := by
  have hpos : 0 < 2 ^ k := Nat.pow_pos (by decide)
  have hak : 2 ^ k < 2 ^ 64 := Nat.pow_lt_pow_right (by decide) hk
  have hmod : toSizeT (2 ^ k) = 2 ^ k := by
    unfold toSizeT; exact Nat.mod_eq_of_lt (by omega)
  have hSmod : toSizeT sz.sizeofVxDynamicUBO = sz.sizeofVxDynamicUBO := by
    unfold toSizeT; exact Nat.mod_eq_of_lt (by omega)
  have hsum : toSizeT (sz.sizeofVxDynamicUBO + 2 ^ k - 1) = sz.sizeofVxDynamicUBO + 2 ^ k - 1 := by
    unfold toSizeT; exact Nat.mod_eq_of_lt (by omega)
  have hstride : (s.CreateDynamicUniformBuffers sz).dynamicAlignment =
      (sz.sizeofVxDynamicUBO + 2 ^ k - 1) / 2 ^ k * 2 ^ k := by
    simp only [KScene.CreateDynamicUniformBuffers, KVulkan.newBuffer, ha, hmod, hSmod, hsum]
    rw [if_pos hpos]
    exact land_sizeNot_pow_two _ k hk (by omega)
  refine ⟨?_, ?_⟩
  · rw [hstride]
    exact roundUp_isLeastMultipleAbove _ _ hpos
  · intro hlt
    have hst : (s.CreateDynamicUniformBuffers sz).dynamicAlignment < 2 ^ 64 := by
      rw [hstride]
      have := Nat.div_mul_le_self (sz.sizeofVxDynamicUBO + 2 ^ k - 1) (2 ^ k)
      omega
    exact ⟨_, CreateDynamicUniformBuffers_vxDynamicBuffer sz s, vxUBOSize_eq _ _ hst hlt⟩

/-- C1, witness: the amended statement at the scene of two loaded models on a
device of alignment `256 = 2 ^ 8` with the 80-byte per-object block. -/
theorem CreateDynamicUniformBuffers_stride_and_size_witness :
    ∃ s, demoScene 256 [demoMesh 0 3, demoMesh 3 5] = some s ∧
      s.vulkan.minUniformBufferOffsetAlignment = 2 ^ 8 ∧
      demoSizes.sizeofVxDynamicUBO + 2 ^ 8 ≤ 2 ^ 64 ∧
      (s.CreateDynamicUniformBuffers demoSizes).dynamicAlignment = 256 ∧
      (IsLeastMultipleAbove (2 ^ 8) demoSizes.sizeofVxDynamicUBO
          (s.CreateDynamicUniformBuffers demoSizes).dynamicAlignment ∧
        ((s.CreateDynamicUniformBuffers demoSizes).dynamicAlignment * s.objects.length < 2 ^ 64 →
          ∃ b, (s.CreateDynamicUniformBuffers demoSizes).vxDynamicBuffer = some b ∧
            b.size = if s.objects.length = 0
              then (s.CreateDynamicUniformBuffers demoSizes).dynamicAlignment
              else (s.CreateDynamicUniformBuffers demoSizes).dynamicAlignment * s.objects.length)) :=
  ⟨_, rfl, rfl, by decide, by decide,
    CreateDynamicUniformBuffers_stride_and_size demoSizes _ 8 (by decide) rfl (by decide)⟩

/-- C1, counterexample. With the 80-byte block on a device reporting the
alignment 3 (which is at least 1) the stride comes out as 80, which is not a
multiple of 3, so it is not the smallest multiple of 3 above 80. And with the
alignment `2 ^ 63` and two objects the stride is `2 ^ 63`, the product with the
object count wraps to 0 and the buffer gets `2 ^ 63` bytes, not stride times 2. -/
theorem CreateDynamicUniformBuffers_counterexample :
    (∃ s, demoScene 3 [demoMesh 0 3] = some s ∧
      1 ≤ s.vulkan.minUniformBufferOffsetAlignment ∧
      (s.CreateDynamicUniformBuffers demoSizes).dynamicAlignment = 80 ∧
      ¬ IsLeastMultipleAbove s.vulkan.minUniformBufferOffsetAlignment
          demoSizes.sizeofVxDynamicUBO
          (s.CreateDynamicUniformBuffers demoSizes).dynamicAlignment) ∧
    (∃ s, demoScene (2 ^ 63) [demoMesh 0 3, demoMesh 3 5] = some s ∧
      1 ≤ s.vulkan.minUniformBufferOffsetAlignment ∧
      0 < s.objects.length ∧
      (s.CreateDynamicUniformBuffers demoSizes).dynamicAlignment = 2 ^ 63 ∧
      ∃ b, (s.CreateDynamicUniformBuffers demoSizes).vxDynamicBuffer = some b ∧
        b.size = 2 ^ 63 ∧
        b.size ≠ (s.CreateDynamicUniformBuffers demoSizes).dynamicAlignment * s.objects.length) := by
  refine ⟨⟨_, rfl, by decide, by decide, ?_⟩, ⟨_, rfl, by decide, by decide, by decide, _, rfl, ?_, ?_⟩⟩
  · intro h
    have h1 : (3 : Nat) ∣ 80 := h.1
    revert h1
    decide
  · decide
  · decide

/-! ### The object loop of `Actualize` and the buffers it replaces -/

theorem foldl_push_eq_append {α : Type} (xs acc : List α) :
    xs.foldl (fun acc x => acc ++ [x]) acc = acc ++ xs := by
  induction xs generalizing acc with
  | nil => simp
  | cons x xs ih => simp [List.foldl_cons, ih]

theorem foldl_push_map_eq_append {α β : Type} (f : α → β) (xs : List α) (acc : List β) :
    xs.foldl (fun acc x => acc ++ [f x]) acc = acc ++ xs.map f := by
  induction xs generalizing acc with
  | nil => simp
  | cons x xs ih => simp [List.foldl_cons, ih]

theorem loadObjects_cons {V : Type} (obj : KObject V) (rest : List (KObject V))
    (i offset : Nat) (vx : List V) (ix : List Nat) :
    Actualize.loadObjects (obj :: rest) i offset vx ix =
      { Actualize.loadObjects rest (i + 1) (offset + obj.mesh.vertices.length)
          (vx ++ obj.mesh.vertices) (ix ++ obj.mesh.indices) with
        objects :=
          { mesh := { vertices := obj.mesh.vertices, indices := obj.mesh.indices,
                      bufferOffset := offset },
            instanceCount := obj.instanceCount, index := i } ::
          (Actualize.loadObjects rest (i + 1) (offset + obj.mesh.vertices.length)
            (vx ++ obj.mesh.vertices) (ix ++ obj.mesh.indices)).objects } := by
  simp [Actualize.loadObjects, KMesh.SetBufferOffset, KObject.SetIndex, foldl_push_eq_append]

theorem loadObjects_vx {V : Type} (objs : List (KObject V)) (i offset : Nat) (vx : List V)
    (ix : List Nat) :
    (Actualize.loadObjects objs i offset vx ix).vx = vx ++ objs.flatMap (fun o => o.mesh.vertices) := by
  induction objs generalizing i offset vx ix with
  | nil => simp [Actualize.loadObjects]
  | cons o rest ih => rw [loadObjects_cons]; simp [ih]

theorem loadObjects_ix {V : Type} (objs : List (KObject V)) (i offset : Nat) (vx : List V)
    (ix : List Nat) :
    (Actualize.loadObjects objs i offset vx ix).ix = ix ++ objs.flatMap (fun o => o.mesh.indices) := by
  induction objs generalizing i offset vx ix with
  | nil => simp [Actualize.loadObjects]
  | cons o rest ih => rw [loadObjects_cons]; simp [ih]

theorem loadObjects_getElem? {V : Type} (objs : List (KObject V)) (i offset : Nat) (vx : List V)
    (ix : List Nat) (j : Nat) :
    (Actualize.loadObjects objs i offset vx ix).objects[j]? =
      (objs[j]?).map (fun o =>
        { mesh := { vertices := o.mesh.vertices, indices := o.mesh.indices,
                    bufferOffset := offset + ((objs.take j).map (fun p => p.mesh.vertices.length)).sum },
          instanceCount := o.instanceCount, index := i + j }) := by
  induction objs generalizing i offset vx ix j with
  | nil => simp [Actualize.loadObjects]
  | cons o rest ih =>
    rw [loadObjects_cons]
    cases j with
    | zero => simp
    | succ j =>
      simp only [List.getElem?_cons_succ, ih, List.take_succ_cons, List.map_cons, List.sum_cons]
      congr 1
      funext p
      simp only [Nat.add_assoc, Nat.add_comm 1 j]


theorem Actualize_inversion {V D : Type} (sz : PayloadSizes) (s t : KScene V D)
    (h : s.Actualize sz = .ok t) :
    ∃ vb vk1 ib vk2 nb vk3,
      KScene.CreateObjectBuffer s
          (Actualize.release (Actualize.release s.vulkan s.vertexBuffer s.dummyVertexBuffer)
            s.indexBuffer s.dummyIndexBuffer)
          sz.sizeofVertex (Actualize.loadObjects s.objects 0 0 [] []).vx .KT_BUFFER_VERTEX
        = .ok (vb, vk1) ∧
      KScene.CreateObjectBuffer s vk1 sizeofIndex (Actualize.loadObjects s.objects 0 0 [] []).ix
          .KT_BUFFER_INDEX = .ok (ib, vk2) ∧
      KScene.CreateObjectBuffer s (Actualize.release vk2 s.instanceBuffer s.dummyInstanceBuffer)
          sz.sizeofInstanceData (Actualize.loadInstances s.instancedObjects) .KT_BUFFER_INSTANCE
        = .ok (nb, vk3) ∧
      t = Actualize.finish sz { s with objects := (Actualize.loadObjects s.objects 0 0 [] []).objects }
        vb ib nb vk3 := by
  unfold KScene.Actualize at h
  simp only [] at h
  split at h
  · simp at h
  · next vb vk1 h1 =>
    split at h
    · simp at h
    · next ib vk2 h2 =>
      split at h
      · simp at h
      · next nb vk3 h3 =>
        simp only [Except.ok.injEq] at h
        exact ⟨vb, vk1, ib, vk2, nb, vk3, h1, h2, h3, h.symm⟩

theorem finish_fields {V D : Type} (sz : PayloadSizes) (s : KScene V D)
    (vb ib nb : KVulkanBuffer) (vk : KVulkan) :
    (Actualize.finish sz s vb ib nb vk).vertexBuffer = some vb ∧
    (Actualize.finish sz s vb ib nb vk).indexBuffer = some ib ∧
    (Actualize.finish sz s vb ib nb vk).instanceBuffer = some nb ∧
    (Actualize.finish sz s vb ib nb vk).dummyVertexBuffer = s.dummyVertexBuffer ∧
    (Actualize.finish sz s vb ib nb vk).dummyIndexBuffer = s.dummyIndexBuffer ∧
    (Actualize.finish sz s vb ib nb vk).dummyInstanceBuffer = s.dummyInstanceBuffer ∧
    (Actualize.finish sz s vb ib nb vk).objects = s.objects ∧
    (Actualize.finish sz s vb ib nb vk).instancedObjects = s.instancedObjects ∧
    (∃ d, (Actualize.finish sz s vb ib nb vk).vxDynamicBuffer = some d ∧
      d.id = vk.nextBuffer ∧
      (Actualize.finish sz s vb ib nb vk).vulkan.buffers = vk.buffers ++ [d] ∧
      (Actualize.finish sz s vb ib nb vk).vulkan.nextBuffer = vk.nextBuffer + 1 ∧
      d.size = toSizeT
        (if toSizeT ((Actualize.finish sz s vb ib nb vk).dynamicAlignment * s.objects.length) = 0
          then toSizeT (1 * (Actualize.finish sz s vb ib nb vk).dynamicAlignment)
          else toSizeT ((Actualize.finish sz s vb ib nb vk).dynamicAlignment * s.objects.length))) := by
  unfold Actualize.finish
  simp only []
  split
  · exact ⟨rfl, rfl, rfl, rfl, rfl, rfl, rfl, rfl, _, rfl, rfl, rfl, rfl, rfl⟩
  · exact ⟨rfl, rfl, rfl, rfl, rfl, rfl, rfl, rfl, _, rfl, rfl, rfl, rfl, rfl⟩

/-- C2. For every object list, the objects as `Actualize` leaves them (they are
the objects of the scene whenever `Actualize` completes) keep their vertex
lists, the offset recorded for the first object is 0, and for every pair of
consecutive objects the offset recorded for the earlier one plus its vertex
count is the offset recorded for the next one. -/
theorem Actualize_vertex_offsets {V D : Type} (sz : PayloadSizes) (s : KScene V D) :
    (∀ t, s.Actualize sz = .ok t →
      t.objects = (Actualize.loadObjects s.objects 0 0 [] []).objects) ∧
    (Actualize.loadObjects s.objects 0 0 [] []).objects.map (fun o => o.mesh.vertices) =
      s.objects.map (fun o => o.mesh.vertices) ∧
    (∀ first, (Actualize.loadObjects s.objects 0 0 [] []).objects[0]? = some first →
      first.mesh.GetBufferOffset = 0) ∧
    (∀ j earlier next,
      (Actualize.loadObjects s.objects 0 0 [] []).objects[j]? = some earlier →
      (Actualize.loadObjects s.objects 0 0 [] []).objects[j + 1]? = some next →
      earlier.mesh.GetBufferOffset + earlier.mesh.vertices.length = next.mesh.GetBufferOffset) := by
  refine ⟨?_, ?_, ?_, ?_⟩
  · intro t h
    obtain ⟨vb, vk1, ib, vk2, nb, vk3, -, -, -, ht⟩ := Actualize_inversion sz s t h
    rw [ht]
    exact (finish_fields sz _ vb ib nb vk3).2.2.2.2.2.2.1
  · apply List.ext_getElem?
    intro j
    simp only [List.getElem?_map, loadObjects_getElem?, Option.map_map]
    rfl
  · intro first h
    rw [loadObjects_getElem?] at h
    cases hj : s.objects[0]? with
    | none => rw [hj] at h; simp at h
    | some o =>
      rw [hj] at h
      simp only [Option.map_some', Option.some.injEq] at h
      rw [← h]
      simp [KMesh.GetBufferOffset]
  · intro j earlier next h1 h2
    rw [loadObjects_getElem?] at h1 h2
    cases hj : s.objects[j]? with
    | none => rw [hj] at h1; simp at h1
    | some o =>
      cases hj2 : s.objects[j + 1]? with
      | none => rw [hj2] at h2; simp at h2
      | some o2 =>
        rw [hj] at h1
        rw [hj2] at h2
        simp only [Option.map_some', Option.some.injEq] at h1 h2
        rw [← h1, ← h2]
        have hlen : j < s.objects.length := by
          rcases List.getElem?_eq_some_iff.mp hj with ⟨hl, _⟩
          exact hl
        have hget : s.objects[j] = o := by
          rcases List.getElem?_eq_some_iff.mp hj with ⟨_, he⟩
          exact he
        simp only [KMesh.GetBufferOffset, Nat.zero_add]
        rw [List.map_take, List.map_take,
          List.sum_take_succ _ j (by simpa using hlen)]
        simp [hget]

/-- C3. For every object list, the vector `vx` that `Actualize` builds is the
concatenation of the vertex lists of the objects in list order, its length is
the sum of the vertex counts, and the vector `ix` is the concatenation of the
index lists with every index value as the object has it. -/
theorem Actualize_flat_arrays {V D : Type} (s : KScene V D) :
    (Actualize.loadObjects s.objects 0 0 [] []).vx =
      s.objects.flatMap (fun o => o.mesh.vertices) ∧
    (Actualize.loadObjects s.objects 0 0 [] []).vx.length =
      (s.objects.map (fun o => o.mesh.vertices.length)).sum ∧
    (Actualize.loadObjects s.objects 0 0 [] []).ix =
      s.objects.flatMap (fun o => o.mesh.indices) := by
  refine ⟨?_, ?_, ?_⟩
  · rw [loadObjects_vx]; simp
  · rw [loadObjects_vx]
    simp only [List.nil_append, List.length_flatMap]
    rfl
  · rw [loadObjects_ix]; simp

/-- Scenario of the specification: two objects with 3 and 5 vertices give a
combined vertex vector of 8 vertices, and the second object records offset 3. -/
theorem Actualize_three_and_five_vertices :
    ((Actualize.loadObjects [KObject.new (demoMesh 0 3), KObject.new (demoMesh 3 5)]
        0 0 [] []).vx.length = 8) ∧
      ((Actualize.loadObjects [KObject.new (demoMesh 0 3), KObject.new (demoMesh 3 5)]
        0 0 [] []).objects.map (fun o => o.mesh.GetBufferOffset) = [0, 3]) ∧
      ((Actualize.loadObjects [KObject.new (demoMesh 0 3), KObject.new (demoMesh 3 5)]
        0 0 [] []).ix = [0, 1, 2, 0, 1, 2, 3, 4]) := by
  decide

/-- A call of `CreateObjectBuffer` completes when the element size is positive and
the byte size of the data fits in 64 bits. -/
theorem CreateObjectBuffer_completes {V D T : Type} (s : KScene V D) (vk : KVulkan)
    (sizeofT : Nat) (data : List T) (type : KE_BUFFER_TYPE)
    (h1 : 1 ≤ sizeofT) (h2 : sizeofT * data.length < 2 ^ 64) :
    ∃ r, s.CreateObjectBuffer vk sizeofT data type = .ok r := by
  have hmod : toSizeT (sizeofT * data.length) = sizeofT * data.length := by
    unfold toSizeT; exact Nat.mod_eq_of_lt h2
  have hge : data.length ≤ sizeofT * data.length := Nat.le_mul_of_pos_left _ h1
  unfold KScene.CreateObjectBuffer
  simp only [hmod]
  split
  · cases type <;> exact ⟨_, rfl⟩
  · next hne =>
    simp only [KVulkan.newBuffer, KVulkanBuffer.Fill, KVulkanBuffer.Copy, hmod]
    rw [if_neg (by omega)]
    simp only [if_true]
    rw [if_neg (by omega)]
    exact ⟨_, rfl⟩

/-- `Actualize` runs to completion when the payload sizes are positive and the
byte sizes of the three flat vectors fit in 64 bits. -/
theorem Actualize_completes {V D : Type} (sz : PayloadSizes) (s : KScene V D)
    (hv : 1 ≤ sz.sizeofVertex) (hn : 1 ≤ sz.sizeofInstanceData)
    (hvx : sz.sizeofVertex * (s.objects.map (fun o => o.mesh.vertices.length)).sum < 2 ^ 64)
    (hix : sizeofIndex * (s.objects.map (fun o => o.mesh.indices.length)).sum < 2 ^ 64)
    (hin : sz.sizeofInstanceData * s.instancedObjects.length < 2 ^ 64) :
    ∃ t, s.Actualize sz = .ok t := by
  have lvx : (Actualize.loadObjects s.objects 0 0 [] []).vx.length =
      (s.objects.map (fun o => o.mesh.vertices.length)).sum := by
    rw [loadObjects_vx]
    simp only [List.nil_append, List.length_flatMap]
    rfl
  have lix : (Actualize.loadObjects s.objects 0 0 [] []).ix.length =
      (s.objects.map (fun o => o.mesh.indices.length)).sum := by
    rw [loadObjects_ix]
    simp only [List.nil_append, List.length_flatMap]
    rfl
  have lin : (Actualize.loadInstances s.instancedObjects).length = s.instancedObjects.length := by
    unfold Actualize.loadInstances
    rw [foldl_push_map_eq_append]
    simp
  unfold KScene.Actualize
  simp only []
  obtain ⟨⟨vb, vk1⟩, h1⟩ := CreateObjectBuffer_completes
    { s with objects := (Actualize.loadObjects s.objects 0 0 [] []).objects }
    (Actualize.release (Actualize.release s.vulkan s.vertexBuffer s.dummyVertexBuffer)
      s.indexBuffer s.dummyIndexBuffer)
    sz.sizeofVertex (Actualize.loadObjects s.objects 0 0 [] []).vx .KT_BUFFER_VERTEX hv
    (by rw [lvx]; exact hvx)
  rw [h1]
  simp only []
  obtain ⟨⟨ib, vk2⟩, h2⟩ := CreateObjectBuffer_completes
    { s with objects := (Actualize.loadObjects s.objects 0 0 [] []).objects } vk1
    sizeofIndex (Actualize.loadObjects s.objects 0 0 [] []).ix .KT_BUFFER_INDEX (by decide)
    (by rw [lix]; exact hix)
  rw [h2]
  simp only []
  obtain ⟨⟨nb, vk3⟩, h3⟩ := CreateObjectBuffer_completes
    { s with objects := (Actualize.loadObjects s.objects 0 0 [] []).objects }
    (Actualize.release vk2 s.instanceBuffer s.dummyInstanceBuffer)
    sz.sizeofInstanceData (Actualize.loadInstances s.instancedObjects) .KT_BUFFER_INSTANCE hn
    (by rw [lin]; exact hin)
  rw [h3]
  exact ⟨_, rfl⟩

theorem DummiesAlive.deleteBuffer {dv di dn : KVulkanBuffer} {vk : KVulkan}
    (h : DummiesAlive dv di dn vk) (b : KVulkanBuffer)
    (hv : b.id ≠ dv.id) (hi : b.id ≠ di.id) (hn : b.id ≠ dn.id) :
    DummiesAlive dv di dn (vk.deleteBuffer b) := by
  refine ⟨?_, ?_, ?_, h.vertexOld, h.indexOld, h.instanceOld⟩
  · simp only [KVulkan.deleteBuffer, List.mem_filter]
    exact ⟨h.vertexLive, by simpa using fun e => hv e.symm⟩
  · simp only [KVulkan.deleteBuffer, List.mem_filter]
    exact ⟨h.indexLive, by simpa using fun e => hi e.symm⟩
  · simp only [KVulkan.deleteBuffer, List.mem_filter]
    exact ⟨h.instanceLive, by simpa using fun e => hn e.symm⟩

theorem DummiesAlive.newBuffer {dv di dn : KVulkanBuffer} {vk : KVulkan}
    (h : DummiesAlive dv di dn vk) (size : Nat) :
    DummiesAlive dv di dn (vk.newBuffer size).2 := by
  refine ⟨?_, ?_, ?_, ?_, ?_, ?_⟩ <;> simp only [KVulkan.newBuffer, List.mem_append]
  · exact Or.inl h.vertexLive
  · exact Or.inl h.indexLive
  · exact Or.inl h.instanceLive
  · exact Nat.lt_succ_of_lt h.vertexOld
  · exact Nat.lt_succ_of_lt h.indexOld
  · exact Nat.lt_succ_of_lt h.instanceOld

theorem DummiesAlive.release {dv di dn : KVulkanBuffer} {vk : KVulkan}
    (h : DummiesAlive dv di dn vk) (buffer : Option KVulkanBuffer) (dummy : KVulkanBuffer)
    (hb : ∀ b, buffer = some b → b = dummy ∨ (b.id ≠ dv.id ∧ b.id ≠ di.id ∧ b.id ≠ dn.id)) :
    DummiesAlive dv di dn (Actualize.release vk buffer dummy) := by
  unfold Actualize.release
  cases buffer with
  | none => exact h
  | some b =>
    simp only []
    split
    · next hne =>
      rcases hb b rfl with rfl | ⟨h1, h2, h3⟩
      · exact absurd rfl hne
      · exact h.deleteBuffer b h1 h2 h3
    · exact h

theorem GetInstanceCount_eq {V D : Type} (s : KScene V D) (p : Nat) (o : KObject V)
    (h : s.objects[p]? = some o) : s.GetInstanceCount p = o.instanceCount := by
  unfold KScene.GetInstanceCount
  rw [h]

theorem loop_runs {V D : Type} (s : KScene V D) (runs : List Nat)
    (hvalid : ∀ p ∈ runs, ∃ o, s.objects[p]? = some o ∧ 0 < o.instanceCount)
    (i : Nat)
    (hdrop : (s.instancedObjects.map (fun x => x.instanceParent)).drop i =
      runs.flatMap (fun p => List.replicate (s.GetInstanceCount p) p))
    (fuel : Nat) (hfuel : runs.length < fuel) :
    ∃ draws, DrawInstancedObjects.loop s.objects s.instancedObjects fuel i = some draws ∧
      draws.length = runs.length ∧
      ∀ j p, runs[j]? = some p → ∃ o, s.objects[p]? = some o ∧
        draws[j]? = some (runDraw o (i + ((runs.take j).map s.GetInstanceCount).sum)) := by
  induction runs generalizing i fuel with
  | nil =>
    cases fuel with
    | zero => omega
    | succ fuel =>
      have hlen : ¬ i < s.instancedObjects.length := by
        intro hlt
        have := congrArg List.length hdrop
        simp at this
        omega
      refine ⟨[], ?_, rfl, ?_⟩
      · unfold DrawInstancedObjects.loop
        rw [dif_neg hlen]
      · intro j p hj
        simp at hj
  | cons p ps ih =>
    cases fuel with
    | zero => omega
    | succ fuel =>
      obtain ⟨o, ho, hpos⟩ := hvalid p (List.mem_cons_self _ _)
      have hic := GetInstanceCount_eq s p o ho
      have hdrop2 : (s.instancedObjects.map (fun x => x.instanceParent)).drop i =
          List.replicate o.instanceCount p ++
            ps.flatMap (fun q => List.replicate (s.GetInstanceCount q) q) := by
        rw [hdrop, List.flatMap_cons, hic]
      obtain ⟨c, hc⟩ : ∃ c, o.instanceCount = c + 1 := ⟨o.instanceCount - 1, by omega⟩
      have hlen : i < s.instancedObjects.length := by
        have := congrArg List.length hdrop2
        simp at this
        omega
      have hpar : (s.instancedObjects[i]).instanceParent = p := by
        have h1 : ((s.instancedObjects.map (fun x => x.instanceParent)).drop i)[0]? = some p := by
          rw [hdrop2, hc, List.replicate_succ]
          simp
        rw [List.getElem?_drop, Nat.add_zero, List.getElem?_map,
          List.getElem?_eq_getElem hlen] at h1
        simpa using h1
      have hnext : (s.instancedObjects.map (fun x => x.instanceParent)).drop (i + o.instanceCount) =
          ps.flatMap (fun q => List.replicate (s.GetInstanceCount q) q) := by
        rw [← List.drop_drop, hdrop2, List.drop_left' (by simp)]
      obtain ⟨draws, hd, hl, hspec⟩ := ih (fun q hq => hvalid q (List.mem_cons_of_mem _ hq))
        (i + o.instanceCount) hnext fuel (by simp at hfuel; omega)
      refine ⟨runDraw o i :: draws, ?_, by simp [hl], ?_⟩
      · unfold DrawInstancedObjects.loop
        rw [dif_pos hlen]
        simp only [hpar, ho, hd]
        rfl
      · intro j q hj
        cases j with
        | zero =>
          simp only [List.getElem?_cons_zero, Option.some.injEq] at hj
          subst hj
          exact ⟨o, ho, by simp⟩
        | succ j =>
          simp only [List.getElem?_cons_succ] at hj
          obtain ⟨o2, ho2, hdraw⟩ := hspec j q hj
          refine ⟨o2, ho2, ?_⟩
          simp only [List.getElem?_cons_succ, hdraw, List.take_succ_cons, List.map_cons,
            List.sum_cons, hic, Nat.add_assoc]

/-- C5. Let the instance list be the concatenation, over a list `runs` of parent
objects, of one run per listed parent whose length is the `instanceCount` of
that parent (every listed parent exists and has a positive count). Then
`DrawInstancedObjects` terminates (any fuel above the number of runs suffices)
and records exactly one indexed draw per run, in order: the draw of a run has
the index count and vertex offset of the parent's mesh, `instanceCount` equal
to the parent's instance count and `firstInstance` equal to the position of the
first instance of the run in the instance list, the sum of the lengths of the
earlier runs. -/
theorem DrawInstancedObjects_one_draw_per_run {V D : Type} (s : KScene V D) (runs : List Nat)
    (hvalid : ∀ p ∈ runs, ∃ o, s.objects[p]? = some o ∧ 0 < o.instanceCount)
    (hruns : s.instanceParents =
      runs.flatMap (fun p => List.replicate (s.GetInstanceCount p) p))
    (fuel : Nat) (hfuel : runs.length < fuel) :
    ∃ draws, s.DrawInstancedObjects fuel = some draws ∧
      draws.length = runs.length ∧
      ∀ j p, runs[j]? = some p → ∃ o, s.objects[p]? = some o ∧
        draws[j]? = some (runDraw o (((runs.take j).map s.GetInstanceCount).sum)) := by
  have := loop_runs s runs hvalid 0 (by rw [List.drop_zero]; exact hruns) fuel hfuel
  simpa [KScene.DrawInstancedObjects] using this

/-- C5, witness: four `CreateInstance` calls on the one object of a scene, then
`Actualize`. The instance list is one run of four instances of object 0 and
`DrawInstancedObjects` records exactly one draw, with `instanceCount = 4` and
`firstInstance = 0`. -/
theorem DrawInstancedObjects_one_draw_per_run_witness :
    ∃ s, demoInstancedScene 256 [demoMesh 0 3] [0, 0, 0, 0] = some s ∧
      (∀ p ∈ [0], ∃ o, s.objects[p]? = some o ∧ 0 < o.instanceCount) ∧
      s.instanceParents = [0].flatMap (fun p => List.replicate (s.GetInstanceCount p) p) ∧
      s.instancedObjects.length = 4 ∧
      s.DrawInstancedObjects 2 = some
        [{ indexCount := 3, instanceCount := 4, firstIndex := 0, vertexOffset := 0,
           firstInstance := 0 }] ∧
      ∃ draws, s.DrawInstancedObjects 2 = some draws ∧
        draws.length = [0].length ∧
        ∀ j p, [0][j]? = some p → ∃ o, s.objects[p]? = some o ∧
          draws[j]? = some (runDraw o ((([0].take j).map s.GetInstanceCount).sum)) :=
  ⟨_, rfl, by decide, by decide, by decide, by decide,
    DrawInstancedObjects_one_draw_per_run _ [0] (by decide) (by decide) 2 (by decide)⟩

/-! ### Instance creation order -/

theorem CreateInstance_parents {V D : Type} (s : KScene V D) (obj : Nat) (d : D) :
    (s.CreateInstance obj d).instancedObjects.map (fun x => x.instanceParent) =
      s.instancedObjects.map (fun x => x.instanceParent) ++ [obj] := by
  simp [KScene.CreateInstance, KScene.AddObjectInstance]

theorem CreateInstance_count {V D : Type} (s : KScene V D) (obj : Nat) (d : D) (p : Nat)
    (hp : p < s.objects.length) :
    (s.CreateInstance obj d).GetInstanceCount p =
      s.GetInstanceCount p + (if obj = p then 1 else 0) := by
  simp only [KScene.CreateInstance, KScene.AddObjectInstance, KScene.GetInstanceCount,
    List.getElem?_modify, List.getElem?_eq_getElem hp, Option.map_eq_map, Option.map_some']
  split <;> simp_all

theorem CreateInstance_length {V D : Type} (s : KScene V D) (obj : Nat) (d : D) :
    (s.CreateInstance obj d).objects.length = s.objects.length := by
  simp [KScene.CreateInstance, KScene.AddObjectInstance]

theorem CreateInstances_spec {V D : Type} (calls : List Nat) (d : D) (s : KScene V D) :
    (s.CreateInstances calls d).objects.length = s.objects.length ∧
    (s.CreateInstances calls d).instancedObjects.map (fun x => x.instanceParent) =
      s.instancedObjects.map (fun x => x.instanceParent) ++ calls ∧
    ∀ p, p < s.objects.length →
      (s.CreateInstances calls d).GetInstanceCount p = s.GetInstanceCount p + calls.count p := by
  induction calls generalizing s with
  | nil => simp [KScene.CreateInstances]
  | cons c rest ih =>
    obtain ⟨h1, h2, h3⟩ := ih (s.CreateInstance c d)
    have hl := CreateInstance_length s c d
    refine ⟨?_, ?_, ?_⟩
    · simpa [KScene.CreateInstances, hl] using h1
    · have : (s.CreateInstances (c :: rest) d) = (s.CreateInstance c d).CreateInstances rest d := rfl
      rw [this, h2, CreateInstance_parents]
      simp
    · intro p hp
      have : (s.CreateInstances (c :: rest) d) = (s.CreateInstance c d).CreateInstances rest d := rfl
      rw [this, h3 p (by rw [hl]; exact hp), CreateInstance_count s c d p hp, List.count_cons]
      by_cases hcp : c = p
      · simp [hcp]; omega
      · simp [hcp]

theorem firstRunLength_grouped (n : Nat → Nat) (runs : List Nat) (hnodup : runs.Nodup) (p : Nat) :
    firstRunLength p (runs.flatMap (fun q => List.replicate (n q) q)) =
        (runs.flatMap (fun q => List.replicate (n q) q)).count p ∧
      (runs.flatMap (fun q => List.replicate (n q) q)).count p = if p ∈ runs then n p else 0 := by
  induction runs with
  | nil => simp [firstRunLength]
  | cons q rest ih =>
    obtain ⟨hq, hrest⟩ := List.nodup_cons.mp hnodup
    obtain ⟨ih1, ih2⟩ := ih hrest
    rw [List.flatMap_cons]
    by_cases hpq : p = q
    · subst hpq
      have hcount0 : (rest.flatMap (fun q => List.replicate (n q) q)).count p = 0 := by
        rw [ih2, if_neg hq]
      have hnot : p ∉ rest.flatMap (fun q => List.replicate (n q) q) :=
        List.count_eq_zero.mp hcount0
      have htake : (rest.flatMap (fun q => List.replicate (n q) q)).takeWhile (fun x => x == p)
          = [] := by
        cases hL : rest.flatMap (fun q => List.replicate (n q) q) with
        | nil => rfl
        | cons a l =>
          have : a ≠ p := by
            intro e
            apply hnot
            rw [hL, e]
            exact List.mem_cons_self _ _
          simp [this]
      constructor
      · unfold firstRunLength
        cases hn : n p with
        | zero =>
          simp only [List.replicate_zero, List.nil_append]
          rw [hcount0]
          have hdrop : (rest.flatMap (fun q => List.replicate (n q) q)).dropWhile
              (fun x => x != p) = [] := by
            rw [List.dropWhile_eq_nil_iff]
            intro a ha
            have : a ≠ p := fun e => hnot (e ▸ ha)
            simpa using this
          rw [hdrop]
          rfl
        | succ c =>
          rw [List.replicate_succ, List.cons_append, List.dropWhile_cons_of_neg (by simp),
            ← List.cons_append, ← List.replicate_succ,
            List.takeWhile_append_of_pos (by
              intro a ha
              simpa using List.eq_of_mem_replicate ha),
            htake, List.count_append, hcount0]
          simp
      · rw [List.count_append, hcount0, List.count_replicate]
        simp
    · have hall : ∀ a ∈ List.replicate (n q) q, (fun x => x != p) a = true := by
        intro a ha
        have := List.eq_of_mem_replicate ha
        subst this
        simpa using fun e => hpq e.symm
      have hc : (List.replicate (n q) q).count p = 0 := by
        rw [List.count_replicate]
        have hqp : ¬ q = p := fun e => hpq e.symm
        simp [hqp]
      constructor
      · unfold firstRunLength
        rw [List.dropWhile_append_of_pos hall, List.count_append, hc, Nat.zero_add]
        exact ih1
      · rw [List.count_append, hc, Nat.zero_add, ih2]
        simp [hpq]

/-- C6 (amended). Start from a scene without instances whose objects have no
instances yet, and let the `CreateInstance` calls be grouped by parent: for a
duplicate-free list `runs` of objects of the scene, `n p` consecutive calls on
each listed object `p`, in list order. Then the instance list is exactly the
sequence of calls, and for every object `p` all instances of `p` lie in the one
contiguous run that starts at its first instance, whose length is the
`instanceCount` of `p`. -/
theorem CreateInstances_grouped_keeps_runs {V D : Type} (s : KScene V D) (d : D)
    (n : Nat → Nat) (runs : List Nat)
    (hempty : s.instancedObjects = [])
    (hzero : ∀ o ∈ s.objects, o.instanceCount = 0)
    (hvalid : ∀ p ∈ runs, p < s.objects.length)
    (hnodup : runs.Nodup) :
    (s.CreateInstances (runs.flatMap (fun q => List.replicate (n q) q)) d).instanceParents =
      runs.flatMap (fun q => List.replicate (n q) q) ∧
    ∀ p,
      (s.CreateInstances (runs.flatMap (fun q => List.replicate (n q) q)) d).instanceParents.count p
        = firstRunLength p
          (s.CreateInstances (runs.flatMap (fun q => List.replicate (n q) q)) d).instanceParents ∧
      (s.CreateInstances (runs.flatMap (fun q => List.replicate (n q) q)) d).GetInstanceCount p
        = firstRunLength p
          (s.CreateInstances (runs.flatMap (fun q => List.replicate (n q) q)) d).instanceParents := by
  obtain ⟨hlen, hpar, hcnt⟩ :=
    CreateInstances_spec (runs.flatMap (fun q => List.replicate (n q) q)) d s
  have hpar2 :
      (s.CreateInstances (runs.flatMap (fun q => List.replicate (n q) q)) d).instanceParents =
        runs.flatMap (fun q => List.replicate (n q) q) := by
    unfold KScene.instanceParents
    rw [hpar, hempty]
    rfl
  refine ⟨hpar2, ?_⟩
  intro p
  rw [hpar2]
  obtain ⟨h1, h2⟩ := firstRunLength_grouped n runs hnodup p
  refine ⟨h1.symm, ?_⟩
  rw [h1]
  by_cases hp : p < s.objects.length
  · rw [hcnt p hp]
    have h0 : s.GetInstanceCount p = 0 := by
      unfold KScene.GetInstanceCount
      rw [List.getElem?_eq_getElem hp]
      exact hzero _ (List.getElem_mem hp)
    rw [h0, Nat.zero_add]
  · have hnone : (s.CreateInstances (runs.flatMap (fun q => List.replicate (n q) q)) d).objects[p]?
        = none := by
      rw [List.getElem?_eq_none_iff, hlen]
      omega
    have hnot : p ∉ runs := fun hm => hp (hvalid p hm)
    unfold KScene.GetInstanceCount
    rw [hnone, h2, if_neg hnot]

/-- C6, witness: two `CreateInstance` calls on object 0 followed by two on object
1 of a scene with two freshly loaded models. -/
theorem CreateInstances_grouped_keeps_runs_witness :
    ∃ s, demoScene 256 [demoMesh 0 3, demoMesh 3 5] = some s ∧
      s.instancedObjects = [] ∧
      (∀ o ∈ s.objects, o.instanceCount = 0) ∧
      (∀ p ∈ [0, 1], p < s.objects.length) ∧
      [0, 1].Nodup ∧
      [0, 1].flatMap (fun q => List.replicate 2 q) = [0, 0, 1, 1] ∧
      ((s.CreateInstances ([0, 1].flatMap (fun q => List.replicate 2 q)) 0).instanceParents =
        [0, 1].flatMap (fun q => List.replicate 2 q) ∧
      ∀ p,
        (s.CreateInstances ([0, 1].flatMap (fun q => List.replicate 2 q)) 0).instanceParents.count p
          = firstRunLength p
            (s.CreateInstances ([0, 1].flatMap (fun q => List.replicate 2 q)) 0).instanceParents ∧
        (s.CreateInstances ([0, 1].flatMap (fun q => List.replicate 2 q)) 0).GetInstanceCount p
          = firstRunLength p
            (s.CreateInstances ([0, 1].flatMap (fun q => List.replicate 2 q)) 0).instanceParents) :=
  ⟨_, rfl, rfl, by decide, by decide, by decide, by decide,
    CreateInstances_grouped_keeps_runs _ 0 (fun _ => 2) [0, 1] rfl
      (by decide) (by decide) (by decide)⟩

/-- C6, counterexample: `CreateInstance` on object 0, then on object 1, then on
object 0 again (followed by `Actualize`). The instance list is `[0, 1, 0]`:
object 0 has two instances but the run that starts at its first instance has
length 1, so its instances are not one contiguous run and its `instanceCount`,
2, differs from the length of that run. `DrawInstancedObjects` then records two
draws of object 0 with two instances each, the second starting at instance 2 of
a list of 3 instances, and no draw of object 1. -/
theorem CreateInstance_interleaved_breaks_runs :
    ∃ s, demoInstancedScene 256 [demoMesh 0 3, demoMesh 3 5] [0, 1, 0] = some s ∧
      s.instanceParents = [0, 1, 0] ∧
      s.instanceParents.count 0 = 2 ∧
      s.GetInstanceCount 0 = 2 ∧
      firstRunLength 0 s.instanceParents = 1 ∧
      s.instancedObjects.length = 3 ∧
      s.DrawInstancedObjects 4 = some
        [{ indexCount := 3, instanceCount := 2, firstIndex := 0, vertexOffset := 0,
           firstInstance := 0 },
         { indexCount := 3, instanceCount := 2, firstIndex := 0, vertexOffset := 0,
           firstInstance := 2 }] :=
  ⟨_, rfl, by decide, by decide, by decide, by decide, by decide, by decide⟩

/-! ### Swap chain negotiation -/

theorem search_eq_true_iff (requestedFormat : VkSurfaceFormatKHR)
    (availableFormats : List VkSurfaceFormatKHR) :
    ChooseSwapSurfaceFormat.search requestedFormat availableFormats = true ↔
      requestedFormat ∈ availableFormats := by
  induction availableFormats with
  | nil => simp [ChooseSwapSurfaceFormat.search]
  | cons f rest ih =>
    unfold ChooseSwapSurfaceFormat.search
    by_cases h : f.format = requestedFormat.format ∧ f.colorSpace = requestedFormat.colorSpace
    · rw [if_pos h]
      have : requestedFormat = f := by
        cases f; cases requestedFormat; simp_all
      simp [this]
    · rw [if_neg h, ih]
      have : requestedFormat ≠ f := by
        intro e; apply h; rw [e]; exact ⟨rfl, rfl⟩
      simp [this]

/-- C7. For every non-empty list `first :: rest` of supported surface formats and
every requested pair (the caller's, or the default when the caller passes
none), `ChooseSwapSurfaceFormat` returns the requested pair if the list is the
single entry `first` and its format is `VK_FORMAT_UNDEFINED`, or if the list
contains the requested pair (same format and same color space); otherwise it
returns `first`. -/
theorem ChooseSwapSurfaceFormat_spec (first : VkSurfaceFormatKHR)
    (rest : List VkSurfaceFormatKHR) (desiredFormat : Option VkSurfaceFormatKHR) :
    (((rest = [] ∧ first.format = VK_FORMAT_UNDEFINED) ∨
        ObtainValues desiredFormat KVulkanDefaults.desiredSurfaceFormat ∈ first :: rest) →
      ChooseSwapSurfaceFormat (first :: rest) desiredFormat =
        some (ObtainValues desiredFormat KVulkanDefaults.desiredSurfaceFormat)) ∧
    (¬ ((rest = [] ∧ first.format = VK_FORMAT_UNDEFINED) ∨
        ObtainValues desiredFormat KVulkanDefaults.desiredSurfaceFormat ∈ first :: rest) →
      ChooseSwapSurfaceFormat (first :: rest) desiredFormat = some first) := by
  have hlen : (first :: rest).length = 1 ↔ rest = [] := by
    cases rest <;> simp
  constructor
  · intro h
    unfold ChooseSwapSurfaceFormat
    simp only [hlen]
    rcases h with h | h
    · rw [if_pos h]
    · split
      · rfl
      · rw [if_pos ((search_eq_true_iff _ _).mpr h)]
  · intro h
    unfold ChooseSwapSurfaceFormat
    simp only [hlen]
    rw [if_neg (fun h1 => h (Or.inl h1))]
    have : ¬ ChooseSwapSurfaceFormat.search
        (ObtainValues desiredFormat KVulkanDefaults.desiredSurfaceFormat) (first :: rest) = true :=
      fun h2 => h (Or.inr ((search_eq_true_iff _ _).mp h2))
    rw [if_neg this]

theorem scan_eq (requestedFormat : Nat) (modes : List Nat) (bestMode : Nat) :
    ChooseSwapPresentMode.scan requestedFormat modes bestMode =
      if requestedFormat ∈ modes then requestedFormat
      else if VK_PRESENT_MODE_IMMEDIATE_KHR ∈ modes then VK_PRESENT_MODE_IMMEDIATE_KHR
      else bestMode := by
  induction modes generalizing bestMode with
  | nil => simp [ChooseSwapPresentMode.scan]
  | cons m rest ih =>
    unfold ChooseSwapPresentMode.scan
    by_cases h1 : m = requestedFormat
    · simp [h1]
    · rw [if_neg h1]
      have hne : ¬ requestedFormat = m := fun e => h1 e.symm
      by_cases h2 : m = VK_PRESENT_MODE_IMMEDIATE_KHR
      · rw [if_pos h2, ih]
        simp only [List.mem_cons, hne, false_or]
        by_cases h3 : requestedFormat ∈ rest
        · simp [h3]
        · simp [h3, h2]
      · rw [if_neg h2, ih]
        have hne2 : ¬ VK_PRESENT_MODE_IMMEDIATE_KHR = m := fun e => h2 e.symm
        simp only [List.mem_cons, hne, hne2, false_or]

/-- C8. For every list of supported present modes and every requested mode (the
caller's, or the default when the caller passes none), `ChooseSwapPresentMode`
returns the requested mode whenever it occurs in the list; otherwise it returns
`VK_PRESENT_MODE_IMMEDIATE_KHR` if that is in the list and
`VK_PRESENT_MODE_FIFO_KHR` if it is not. Requesting mailbox with `[FIFO]`
returns FIFO and requesting FIFO with `[FIFO, IMMEDIATE]` returns FIFO. -/
theorem ChooseSwapPresentMode_spec (availablePresentModes : List Nat)
    (desiredPresentMode : Option Nat) :
    (ObtainValues desiredPresentMode KVulkanDefaults.desiredPresentMode ∈ availablePresentModes →
      ChooseSwapPresentMode availablePresentModes desiredPresentMode =
        ObtainValues desiredPresentMode KVulkanDefaults.desiredPresentMode) ∧
    (ObtainValues desiredPresentMode KVulkanDefaults.desiredPresentMode ∉ availablePresentModes →
      VK_PRESENT_MODE_IMMEDIATE_KHR ∈ availablePresentModes →
      ChooseSwapPresentMode availablePresentModes desiredPresentMode =
        VK_PRESENT_MODE_IMMEDIATE_KHR) ∧
    (ObtainValues desiredPresentMode KVulkanDefaults.desiredPresentMode ∉ availablePresentModes →
      VK_PRESENT_MODE_IMMEDIATE_KHR ∉ availablePresentModes →
      ChooseSwapPresentMode availablePresentModes desiredPresentMode =
        VK_PRESENT_MODE_FIFO_KHR) ∧
    ChooseSwapPresentMode [VK_PRESENT_MODE_FIFO_KHR] (some VK_PRESENT_MODE_MAILBOX_KHR) =
      VK_PRESENT_MODE_FIFO_KHR ∧
    ChooseSwapPresentMode [VK_PRESENT_MODE_FIFO_KHR, VK_PRESENT_MODE_IMMEDIATE_KHR]
      (some VK_PRESENT_MODE_FIFO_KHR) = VK_PRESENT_MODE_FIFO_KHR := by
  refine ⟨?_, ?_, ?_, by decide, by decide⟩
  · intro h
    unfold ChooseSwapPresentMode
    simp only [scan_eq, if_pos h]
  · intro h1 h2
    unfold ChooseSwapPresentMode
    simp only [scan_eq, if_neg h1, if_pos h2]
  · intro h1 h2
    unfold ChooseSwapPresentMode
    simp only [scan_eq, if_neg h1, if_neg h2]

/-- C9 (amended). For every surface capability record and window size,
`ChooseSwapExtent` returns the current extent of the surface unchanged unless
the width of that extent is `0xFFFFFFFF` (the height is not examined); in that
case each returned dimension is the window dimension (converted to `uint32_t`)
clamped to the surface limits: it is the window dimension when that lies within
the limits, the minimum when it is below, the maximum when it is above and the
minimum does not exceed the maximum; so it is never below the minimum and, when
the minimum does not exceed the maximum, never above the maximum. -/
theorem ChooseSwapExtent_spec (capabilities : VkSurfaceCapabilitiesKHR) (windowSize : Vector2) :
    (capabilities.currentExtent.width ≠ UINT32_MAX →
      ChooseSwapExtent capabilities windowSize = capabilities.currentExtent) ∧
    (capabilities.currentExtent.width = UINT32_MAX →
      ((capabilities.minImageExtent.width ≤ castU32 windowSize.x ∧
          castU32 windowSize.x ≤ capabilities.maxImageExtent.width →
        (ChooseSwapExtent capabilities windowSize).width = castU32 windowSize.x) ∧
       (castU32 windowSize.x < capabilities.minImageExtent.width →
        (ChooseSwapExtent capabilities windowSize).width = capabilities.minImageExtent.width) ∧
       (capabilities.maxImageExtent.width < castU32 windowSize.x ∧
          capabilities.minImageExtent.width ≤ capabilities.maxImageExtent.width →
        (ChooseSwapExtent capabilities windowSize).width = capabilities.maxImageExtent.width) ∧
       capabilities.minImageExtent.width ≤ (ChooseSwapExtent capabilities windowSize).width ∧
       (capabilities.minImageExtent.width ≤ capabilities.maxImageExtent.width →
        (ChooseSwapExtent capabilities windowSize).width ≤ capabilities.maxImageExtent.width)) ∧
      ((capabilities.minImageExtent.height ≤ castU32 windowSize.y ∧
          castU32 windowSize.y ≤ capabilities.maxImageExtent.height →
        (ChooseSwapExtent capabilities windowSize).height = castU32 windowSize.y) ∧
       (castU32 windowSize.y < capabilities.minImageExtent.height →
        (ChooseSwapExtent capabilities windowSize).height = capabilities.minImageExtent.height) ∧
       (capabilities.maxImageExtent.height < castU32 windowSize.y ∧
          capabilities.minImageExtent.height ≤ capabilities.maxImageExtent.height →
        (ChooseSwapExtent capabilities windowSize).height = capabilities.maxImageExtent.height) ∧
       capabilities.minImageExtent.height ≤ (ChooseSwapExtent capabilities windowSize).height ∧
       (capabilities.minImageExtent.height ≤ capabilities.maxImageExtent.height →
        (ChooseSwapExtent capabilities windowSize).height ≤
          capabilities.maxImageExtent.height))) := by
  constructor
  · intro h
    unfold ChooseSwapExtent
    rw [if_pos h]
  · intro h
    have hw : (ChooseSwapExtent capabilities windowSize).width =
        max capabilities.minImageExtent.width
          (min capabilities.maxImageExtent.width (castU32 windowSize.x)) := by
      unfold ChooseSwapExtent
      rw [if_neg (by simpa using h)]
    have hh : (ChooseSwapExtent capabilities windowSize).height =
        max capabilities.minImageExtent.height
          (min capabilities.maxImageExtent.height (castU32 windowSize.y)) := by
      unfold ChooseSwapExtent
      rw [if_neg (by simpa using h)]
    rw [hw, hh]
    refine ⟨⟨?_, ?_, ?_, ?_, ?_⟩, ⟨?_, ?_, ?_, ?_, ?_⟩⟩ <;> omega

/-- C9, counterexample. A surface reports the current extent `(0xFFFFFFFF, 600)`,
which is not the any-size value `(0xFFFFFFFF, 0xFFFFFFFF)`, with limits from
1 by 1 to 4096 by 4096, and the window measures 800 by 600: the extent
returned is `(800, 600)`, not the current extent of the surface. -/
theorem ChooseSwapExtent_counterexample :
    ChooseSwapExtent
        { minImageCount := 2
          maxImageCount := 8
          currentExtent := { width := UINT32_MAX, height := 600 }
          minImageExtent := { width := 1, height := 1 }
          maxImageExtent := { width := 4096, height := 4096 }
          currentTransform := 1 }
        { x := 800, y := 600 } = { width := 800, height := 600 } ∧
    ({ width := UINT32_MAX, height := 600 } : VkExtent2D) ≠
      { width := UINT32_MAX, height := UINT32_MAX } ∧
    ChooseSwapExtent
        { minImageCount := 2
          maxImageCount := 8
          currentExtent := { width := UINT32_MAX, height := 600 }
          minImageExtent := { width := 1, height := 1 }
          maxImageExtent := { width := 4096, height := 4096 }
          currentTransform := 1 }
        { x := 800, y := 600 } ≠ { width := UINT32_MAX, height := 600 } := by
  decide

/-- C10. When the swap chain support is adequate, the caller's creation record
(or the default record when the caller passes none) has `minImageCount` zero
and the driver creates the swap chain, `Initialize` creates it with an image
count equal to the minimum image count of the surface, plus 1 (on 32 bits)
exactly when the present mode that `ChooseSwapPresentMode` negotiates from the
modes of the surface and the desired mode is the mailbox mode, lowered to the
maximum image count of the surface when that maximum is positive and smaller;
a maximum of 0 imposes no limit. The present mode of the created swap chain is
the negotiated mode when the caller's record leaves `presentMode` zero and the
mode of the caller's record otherwise, which has no part in the image count. -/
theorem Initialize_image_count (supportDetails : SwapChainSupportDetails) (windowSize : Vector2)
    (contextSurface : Nat) (desiredFormat : Option VkSurfaceFormatKHR)
    (desiredPresentMode : Option Nat) (swapChainCreateInfo : Option VkSwapchainCreateInfoKHR)
    (hadequate : IsSwapChainAdequate supportDetails = true)
    (hunset : (ObtainValues swapChainCreateInfo KVulkanDefaults.swapChainCreateInfo).minImageCount
      = 0) :
    ∃ createInfo,
      KVulkanSwapChain.Initialize supportDetails windowSize contextSurface true desiredFormat
        desiredPresentMode swapChainCreateInfo = .ok createInfo ∧
      createInfo.minImageCount =
        (if supportDetails.capabilities.maxImageCount = 0 then
          (if ChooseSwapPresentMode supportDetails.presentModes desiredPresentMode =
              VK_PRESENT_MODE_MAILBOX_KHR then
            (supportDetails.capabilities.minImageCount + 1) % 2 ^ 32
          else supportDetails.capabilities.minImageCount)
        else
          min
            (if ChooseSwapPresentMode supportDetails.presentModes desiredPresentMode =
                VK_PRESENT_MODE_MAILBOX_KHR then
              (supportDetails.capabilities.minImageCount + 1) % 2 ^ 32
            else supportDetails.capabilities.minImageCount)
            supportDetails.capabilities.maxImageCount) ∧
      createInfo.presentMode =
        (if (ObtainValues swapChainCreateInfo KVulkanDefaults.swapChainCreateInfo).presentMode
            = 0 then
          ChooseSwapPresentMode supportDetails.presentModes desiredPresentMode
        else (ObtainValues swapChainCreateInfo KVulkanDefaults.swapChainCreateInfo).presentMode)
        := by
  have hf : supportDetails.formats ≠ [] := by
    intro e
    simp [IsSwapChainAdequate, e] at hadequate
  obtain ⟨first, rest, hfr⟩ := List.exists_cons_of_ne_nil hf
  have hsome : ∃ surfaceFormat,
      ChooseSwapSurfaceFormat supportDetails.formats desiredFormat = some surfaceFormat := by
    rw [hfr]
    unfold ChooseSwapSurfaceFormat
    simp only []
    split
    · exact ⟨_, rfl⟩
    · split
      · exact ⟨_, rfl⟩
      · exact ⟨_, rfl⟩
  obtain ⟨surfaceFormat, hsf⟩ := hsome
  have hinit : KVulkanSwapChain.Initialize supportDetails windowSize contextSurface true
      desiredFormat desiredPresentMode swapChainCreateInfo =
      .ok (Initialize.fill (ObtainValues swapChainCreateInfo KVulkanDefaults.swapChainCreateInfo)
        (Initialize.imageCount supportDetails.capabilities
          (ChooseSwapPresentMode supportDetails.presentModes desiredPresentMode)
          (ObtainValues swapChainCreateInfo KVulkanDefaults.swapChainCreateInfo).minImageCount)
        contextSurface surfaceFormat (ChooseSwapExtent supportDetails.capabilities windowSize)
        supportDetails.capabilities.currentTransform
        (ChooseSwapPresentMode supportDetails.presentModes desiredPresentMode)) := by
    unfold KVulkanSwapChain.Initialize
    rw [if_neg (by simp [hadequate]), hsf]
    simp
  refine ⟨_, hinit, ?_, rfl⟩
  simp only [Initialize.fill, Initialize.imageCount, hunset, if_true]
  generalize (if ChooseSwapPresentMode supportDetails.presentModes desiredPresentMode =
      VK_PRESENT_MODE_MAILBOX_KHR then (supportDetails.capabilities.minImageCount + 1) % 2 ^ 32
    else supportDetails.capabilities.minImageCount) = desired
  by_cases h0 : supportDetails.capabilities.maxImageCount = 0
  · simp [h0]
  · rw [if_neg h0]
    split
    · omega
    · omega

/-- C10, witness: a surface with between 2 and 8 images that supports FIFO and
mailbox, no request from the caller. Mailbox is negotiated and the swap chain is
created in mailbox mode with 3 images. -/
theorem Initialize_image_count_witness :
    IsSwapChainAdequate demoMailboxSupport = true ∧
    (ObtainValues none KVulkanDefaults.swapChainCreateInfo).minImageCount = 0 ∧
    ChooseSwapPresentMode demoMailboxSupport.presentModes none = VK_PRESENT_MODE_MAILBOX_KHR ∧
    (KVulkanSwapChain.Initialize demoMailboxSupport { x := 800, y := 600 } 7 true none none
        none).toOption.map (fun c => (c.minImageCount, c.presentMode)) =
      some (3, VK_PRESENT_MODE_MAILBOX_KHR) ∧
    ∃ createInfo,
      KVulkanSwapChain.Initialize demoMailboxSupport { x := 800, y := 600 } 7 true none none none
        = .ok createInfo ∧
      createInfo.minImageCount =
        (if demoMailboxSupport.capabilities.maxImageCount = 0 then
          (if ChooseSwapPresentMode demoMailboxSupport.presentModes none =
              VK_PRESENT_MODE_MAILBOX_KHR then
            (demoMailboxSupport.capabilities.minImageCount + 1) % 2 ^ 32
          else demoMailboxSupport.capabilities.minImageCount)
        else
          min
            (if ChooseSwapPresentMode demoMailboxSupport.presentModes none =
                VK_PRESENT_MODE_MAILBOX_KHR then
              (demoMailboxSupport.capabilities.minImageCount + 1) % 2 ^ 32
            else demoMailboxSupport.capabilities.minImageCount)
            demoMailboxSupport.capabilities.maxImageCount) ∧
      createInfo.presentMode =
        (if (ObtainValues none KVulkanDefaults.swapChainCreateInfo).presentMode = 0 then
          ChooseSwapPresentMode demoMailboxSupport.presentModes none
        else (ObtainValues none KVulkanDefaults.swapChainCreateInfo).presentMode) :=
  ⟨by decide, by decide, by decide, by decide,
    Initialize_image_count demoMailboxSupport { x := 800, y := 600 } 7 none none none
      (by decide) (by decide)⟩

/-- C10, counterexample: the extra image follows the negotiated mode, not the
mode the swap chain is created with. With the creation record of the BoxTest
example (`presentMode` FIFO, no minimum image count) on a surface of 2 to 8
images that offers mailbox, mailbox is negotiated and the swap chain is created
in FIFO mode with 3 images; with a record that sets `presentMode` to mailbox
on a surface that offers only FIFO, the swap chain is created in mailbox mode
with 2 images. On a surface whose minimum is `0xFFFFFFFF` the increment wraps
and the swap chain is created with 0 images. -/
theorem Initialize_image_count_counterexample :
    demoVSyncRecord.minImageCount = 0 ∧
    demoMailboxSupport.capabilities.minImageCount = 2 ∧
    (KVulkanSwapChain.Initialize demoMailboxSupport { x := 800, y := 600 } 7 true none none
        (some demoVSyncRecord)).toOption.map (fun c => (c.minImageCount, c.presentMode)) =
      some (3, VK_PRESENT_MODE_FIFO_KHR) ∧
    VK_PRESENT_MODE_FIFO_KHR ≠ VK_PRESENT_MODE_MAILBOX_KHR ∧
    demoMailboxRecord.minImageCount = 0 ∧
    (KVulkanSwapChain.Initialize (demoSupport 2 8 [VK_PRESENT_MODE_FIFO_KHR])
        { x := 800, y := 600 } 7 true none none
        (some demoMailboxRecord)).toOption.map (fun c => (c.minImageCount, c.presentMode)) =
      some (2, VK_PRESENT_MODE_MAILBOX_KHR) ∧
    (KVulkanSwapChain.Initialize
        (demoSupport UINT32_MAX 0 [VK_PRESENT_MODE_FIFO_KHR, VK_PRESENT_MODE_MAILBOX_KHR])
        { x := 800, y := 600 } 7 true none none
        none).toOption.map (fun c => (c.minImageCount, c.presentMode)) =
      some (0, VK_PRESENT_MODE_MAILBOX_KHR) := by
  decide

/-- Image counts on concrete surfaces: mailbox adds one image (2 becomes 3), the
maximum 2 lowers it back to 2, and FIFO adds none. -/
theorem swapchain_image_count_examples :
    (KVulkanSwapChain.Initialize
        (demoSupport 2 0 [VK_PRESENT_MODE_FIFO_KHR, VK_PRESENT_MODE_MAILBOX_KHR])
        { x := 800, y := 600 } 7 true none none none).toOption.map (fun c => c.minImageCount)
      = some 3 ∧
    (KVulkanSwapChain.Initialize
        (demoSupport 2 2 [VK_PRESENT_MODE_FIFO_KHR, VK_PRESENT_MODE_MAILBOX_KHR])
        { x := 800, y := 600 } 7 true none none none).toOption.map (fun c => c.minImageCount)
      = some 2 ∧
    (KVulkanSwapChain.Initialize (demoSupport 2 8 [VK_PRESENT_MODE_FIFO_KHR])
        { x := 800, y := 600 } 7 true none none none).toOption.map (fun c => c.minImageCount)
      = some 2 := by
  decide

/-! ### Image layout transitions -/

theorem TransitionImageLayout_error_iff (format oldLayout newLayout : Nat) (e : KError) :
    KVulkanImage.TransitionImageLayout format oldLayout newLayout = .error e ↔
      oldLayout = VK_IMAGE_LAYOUT_UNDEFINED ∧
        newLayout ≠ VK_IMAGE_LAYOUT_TRANSFER_DST_OPTIMAL ∧
        newLayout ≠ VK_IMAGE_LAYOUT_DEPTH_STENCIL_ATTACHMENT_OPTIMAL ∧
        e = .KE_UNSUPPORTED_LAYOUT := by
  unfold KVulkanImage.TransitionImageLayout
  by_cases ho : oldLayout = VK_IMAGE_LAYOUT_UNDEFINED
  · by_cases ht : newLayout = VK_IMAGE_LAYOUT_TRANSFER_DST_OPTIMAL
    · simp only [if_pos ho, if_pos ht]
      constructor
      · intro h
        cases h
      · intro h
        exact absurd ht h.2.1
    · by_cases hd : newLayout = VK_IMAGE_LAYOUT_DEPTH_STENCIL_ATTACHMENT_OPTIMAL
      · simp only [if_pos ho, if_neg ht, if_pos hd]
        constructor
        · intro h
          cases h
        · intro h
          exact absurd hd h.2.2.1
      · simp only [if_pos ho, if_neg ht, if_neg hd]
        constructor
        · intro h
          cases h
          exact ⟨ho, ht, hd, rfl⟩
        · intro h
          rw [h.2.2.2]
  · by_cases hs : oldLayout = VK_IMAGE_LAYOUT_TRANSFER_DST_OPTIMAL ∧
        newLayout = VK_IMAGE_LAYOUT_SHADER_READ_ONLY_OPTIMAL
    · simp only [if_neg ho, if_pos hs]
      constructor
      · intro h
        cases h
      · intro h
        exact absurd h.1 ho
    · simp only [if_neg ho, if_neg hs]
      constructor
      · intro h
        cases h
      · intro h
        exact absurd h.1 ho

theorem TransitionImageLayout_whitelist (format : Nat) :
    (∃ b, KVulkanImage.TransitionImageLayout format VK_IMAGE_LAYOUT_UNDEFINED
        VK_IMAGE_LAYOUT_TRANSFER_DST_OPTIMAL = .ok b) ∧
      (∃ b, KVulkanImage.TransitionImageLayout format VK_IMAGE_LAYOUT_UNDEFINED
        VK_IMAGE_LAYOUT_DEPTH_STENCIL_ATTACHMENT_OPTIMAL = .ok b) ∧
      (∃ b, KVulkanImage.TransitionImageLayout format VK_IMAGE_LAYOUT_TRANSFER_DST_OPTIMAL
        VK_IMAGE_LAYOUT_SHADER_READ_ONLY_OPTIMAL = .ok b) ∧
      KVulkanImage.TransitionImageLayout format VK_IMAGE_LAYOUT_UNDEFINED
        VK_IMAGE_LAYOUT_SHADER_READ_ONLY_OPTIMAL = .error .KE_UNSUPPORTED_LAYOUT := by
  refine ⟨⟨_, rfl⟩, ⟨_, rfl⟩, ⟨_, rfl⟩, rfl⟩

/-- Claim C11, evaluated on the pair the claim names: for the transition from
`TRANSFER_DST_OPTIMAL` to `UNDEFINED` the source throws nothing. With every
format it records a barrier whose access masks and pipeline stages are all zero,
where the claim expects the unsupported-layout-transition error and no barrier. -/
theorem TransitionImageLayout_transfer_dst_to_undefined (format : Nat) :
    KVulkanImage.TransitionImageLayout format VK_IMAGE_LAYOUT_TRANSFER_DST_OPTIMAL
        VK_IMAGE_LAYOUT_UNDEFINED =
      .ok { sourceStage := 0
            destinationStage := 0
            barrier :=
              { oldLayout := VK_IMAGE_LAYOUT_TRANSFER_DST_OPTIMAL
                newLayout := VK_IMAGE_LAYOUT_UNDEFINED
                aspectMask := VK_IMAGE_ASPECT_COLOR_BIT
                srcAccessMask := 0
                dstAccessMask := 0 } } := by
  rfl

/-! ### Filling and copying buffers -/

theorem Fill_error_iff (b : KVulkanBuffer) (dataCount : Nat) (e : KError) :
    b.Fill dataCount = .error e ↔ b.size < dataCount ∧ e = .KE_VULKAN_BUFFER_TOO_SMALL := by
  unfold KVulkanBuffer.Fill
  by_cases h : b.size < dataCount
  · rw [if_pos h]
    constructor
    · intro hc
      cases hc
      exact ⟨h, rfl⟩
    · intro hc
      rw [hc.2]
  · rw [if_neg h]
    constructor
    · intro hc
      cases hc
    · intro hc
      exact absurd hc.1 h

theorem Fill_ok_iff (b : KVulkanBuffer) (dataCount copied : Nat) :
    b.Fill dataCount = .ok copied ↔ dataCount ≤ b.size ∧ copied = b.size := by
  unfold KVulkanBuffer.Fill
  by_cases h : b.size < dataCount
  · simp only [if_pos h]
    constructor
    · intro hc
      cases hc
    · intro hc
      omega
  · simp only [if_neg h, Except.ok.injEq]
    constructor
    · intro hc
      exact ⟨by omega, hc.symm⟩
    · intro hc
      exact hc.2.symm

/-- Claim C12, evaluated on a buffer of 4 bytes and a vector of two 4-byte
indices: the payload takes 8 bytes, more than the buffer holds, and `Fill`
throws nothing and hands 4 bytes to `memcpy`. The test of the source compares
the capacity in bytes with the element count (here 4 against 2), where the
claim expects the buffer-too-small error. -/
theorem Fill_accepts_payload_beyond_capacity :
    4 < sizeofIndex * 2 ∧
      KVulkanBuffer.Fill { id := 0, size := 4 } 2 = .ok 4 :=
  ⟨by decide, rfl⟩

/-- Claim C13, evaluated on a buffer of 16 bytes and a vector of two 4-byte
indices: the payload is accepted and takes 8 bytes, and `Fill` hands 16 bytes,
the capacity of the buffer, to `memcpy`, which is more than the vector holds.
The claim expects exactly the 8 bytes of the vector to be copied. -/
theorem Fill_copies_capacity_not_payload :
    sizeofIndex * 2 = 8 ∧
      KVulkanBuffer.Fill { id := 0, size := 16 } 2 = .ok 16 :=
  ⟨by decide, rfl⟩

theorem Copy_error_iff (b srcBuffer : KVulkanBuffer) (copyRegion : VkBufferCopy) (e : KError) :
    b.Copy srcBuffer copyRegion = .error e ↔
      b.size < (if copyRegion.size = 0 then srcBuffer.size else copyRegion.size) ∧
        e = .KE_VULKAN_BUFFER_TOO_SMALL := by
  unfold KVulkanBuffer.Copy
  by_cases hz : copyRegion.size = 0
  · by_cases h : srcBuffer.size > b.size
    · simp only [if_pos hz, if_pos h, Except.error.injEq]
      constructor
      · intro hc
        exact ⟨h, hc.symm⟩
      · intro hc
        exact hc.2.symm
    · simp only [if_pos hz, if_neg h]
      constructor
      · intro hc
        cases hc
      · intro hc
        exact absurd hc.1 h
  · by_cases h : copyRegion.size > b.size
    · simp only [if_neg hz, if_pos h, Except.error.injEq]
      constructor
      · intro hc
        exact ⟨h, hc.symm⟩
      · intro hc
        exact hc.2.symm
    · simp only [if_neg hz, if_neg h]
      constructor
      · intro hc
        cases hc
      · intro hc
        exact absurd hc.1 h

theorem Copy_default_size (b srcBuffer : KVulkanBuffer) (srcOffset dstOffset : Nat)
    (r : VkBufferCopy)
    (h : b.Copy srcBuffer { srcOffset := srcOffset, dstOffset := dstOffset, size := 0 } = .ok r) :
    r = { srcOffset := srcOffset, dstOffset := dstOffset, size := srcBuffer.size } := by
  unfold KVulkanBuffer.Copy at h
  simp only [if_true] at h
  by_cases hs : srcBuffer.size > b.size
  · rw [if_pos hs] at h
    cases h
  · rw [if_neg hs] at h
    cases h
    rfl

/-- Claim C14, evaluated on two buffers of 8 bytes and the region with source
offset 0, destination offset 4 and unset size: the effective size is the full
source size 8, so the copy would write bytes 4 to 12 of a destination of 8
bytes, and `Copy` throws nothing and records that region. The test of the
source compares the size alone with the capacity, where the claim expects the
buffer-too-small error. -/
theorem Copy_ignores_destination_offset :
    8 < 4 + 8 ∧
      KVulkanBuffer.Copy { id := 0, size := 8 } { id := 1, size := 8 }
          { srcOffset := 0, dstOffset := 4, size := 0 } =
        .ok { srcOffset := 0, dstOffset := 4, size := 8 } :=
  ⟨by decide, rfl⟩

/-! ### Memory type selection -/

theorem and_shiftU32_ne_zero (typeFilter i : Nat) (hi : i < 32) :
    typeFilter &&& shiftU32 i ≠ 0 ↔ typeFilter.testBit i = true := by
  have hpow : shiftU32 i = 2 ^ i := by
    unfold shiftU32
    rw [Nat.one_shiftLeft, Nat.mod_eq_of_lt (Nat.pow_lt_pow_right (by decide) hi)]
  have hpos : 0 < 2 ^ i := Nat.pow_pos (by decide)
  rw [hpow, Nat.and_two_pow]
  cases h : typeFilter.testBit i
  · simp
  · simp only [Bool.toNat_true, Nat.one_mul, ne_eq, iff_true]
    omega

theorem scan_some (typeFilter properties : Nat) (types : List VkMemoryType) (i k : Nat)
    (h : FindMemoryType.scan typeFilter properties types i = some k) :
    ∃ j memoryType, k = i + j ∧ types[j]? = some memoryType ∧
      (typeFilter &&& shiftU32 (i + j) ≠ 0 ∧
        memoryType.propertyFlags &&& properties = properties) ∧
      ∀ j2 other, j2 < j → types[j2]? = some other →
        ¬ (typeFilter &&& shiftU32 (i + j2) ≠ 0 ∧ other.propertyFlags &&& properties = properties) := by
  induction types generalizing i with
  | nil => simp [FindMemoryType.scan] at h
  | cons memoryType rest ih =>
    unfold FindMemoryType.scan at h
    by_cases hc : typeFilter &&& shiftU32 i ≠ 0 ∧
        memoryType.propertyFlags &&& properties = properties
    · rw [if_pos hc] at h
      cases h
      refine ⟨0, memoryType, rfl, List.getElem?_cons_zero, hc, ?_⟩
      intro j2 other hj2
      omega
    · rw [if_neg hc] at h
      obtain ⟨j, mt, hk, hget, hfit, hmin⟩ := ih (i + 1) h
      refine ⟨j + 1, mt, by omega, by simpa using hget, ?_, ?_⟩
      · have e : i + (j + 1) = i + 1 + j := by omega
        rw [e]
        exact hfit
      · intro j2 other hj2 hget2
        cases j2 with
        | zero =>
          simp only [List.getElem?_cons_zero, Option.some.injEq] at hget2
          subst hget2
          exact hc
        | succ j3 =>
          have e : i + (j3 + 1) = i + 1 + j3 := by omega
          rw [e]
          exact hmin j3 other (by omega) (by simpa using hget2)

theorem scan_none (typeFilter properties : Nat) (types : List VkMemoryType) (i : Nat)
    (h : FindMemoryType.scan typeFilter properties types i = none) :
    ∀ j other, types[j]? = some other →
      ¬ (typeFilter &&& shiftU32 (i + j) ≠ 0 ∧ other.propertyFlags &&& properties = properties) := by
  induction types generalizing i with
  | nil =>
    intro j other hget
    simp at hget
  | cons memoryType rest ih =>
    unfold FindMemoryType.scan at h
    by_cases hc : typeFilter &&& shiftU32 i ≠ 0 ∧
        memoryType.propertyFlags &&& properties = properties
    · rw [if_pos hc] at h
      cases h
    · rw [if_neg hc] at h
      intro j other hget
      cases j with
      | zero =>
        simp only [List.getElem?_cons_zero, Option.some.injEq] at hget
        subst hget
        exact hc
      | succ j3 =>
        have e : i + (j3 + 1) = i + 1 + j3 := by omega
        rw [e]
        exact ih (i + 1) h j3 other (by simpa using hget)

theorem fitsRequest_iff (memoryTypes : List VkMemoryType) (typeFilter properties i : Nat)
    (hcount : memoryTypes.length ≤ VK_MAX_MEMORY_TYPES) :
    FitsRequest memoryTypes typeFilter properties i ↔
      ∃ memoryType, memoryTypes[i]? = some memoryType ∧
        (typeFilter &&& shiftU32 (0 + i) ≠ 0 ∧
          memoryType.propertyFlags &&& properties = properties) := by
  unfold FitsRequest
  constructor
  · rintro ⟨mt, hget, hbit, hflags⟩
    have hi : i < 32 := by
      have := (List.getElem?_eq_some.mp hget).1
      unfold VK_MAX_MEMORY_TYPES at hcount
      omega
    refine ⟨mt, hget, ?_, hflags⟩
    rw [Nat.zero_add]
    exact (and_shiftU32_ne_zero typeFilter i hi).mpr hbit
  · rintro ⟨mt, hget, hbit, hflags⟩
    have hi : i < 32 := by
      have := (List.getElem?_eq_some.mp hget).1
      unfold VK_MAX_MEMORY_TYPES at hcount
      omega
    rw [Nat.zero_add] at hbit
    exact ⟨mt, hget, (and_shiftU32_ne_zero typeFilter i hi).mp hbit, hflags⟩

/-- Claim C15: for every list of at most `VK_MAX_MEMORY_TYPES` device memory
types, every type filter and all required flags, `FindMemoryType` returns the
index `i` exactly when `i` is the smallest index whose bit is set in the filter
and whose property flags include the required ones, and it throws exactly when
no index fits; the error thrown is then the memory-type-not-found error. -/
theorem FindMemoryType_first_fit (memoryTypes : List VkMemoryType) (typeFilter properties : Nat)
    (hcount : memoryTypes.length ≤ VK_MAX_MEMORY_TYPES) :
    (∀ i, KVulkanBuffer.FindMemoryType memoryTypes typeFilter properties = .ok i ↔
      FitsRequest memoryTypes typeFilter properties i ∧
        ∀ j, j < i → ¬ FitsRequest memoryTypes typeFilter properties j) ∧
      (∀ e, KVulkanBuffer.FindMemoryType memoryTypes typeFilter properties = .error e ↔
        e = .KE_VULKAN_MEMORY_FAIL ∧ ∀ i, ¬ FitsRequest memoryTypes typeFilter properties i) := by
  have hsome : ∀ k, FindMemoryType.scan typeFilter properties memoryTypes 0 = some k →
      FitsRequest memoryTypes typeFilter properties k ∧
        ∀ j, j < k → ¬ FitsRequest memoryTypes typeFilter properties j := by
    intro k hk
    obtain ⟨j, mt, hkj, hget, hfit, hmin⟩ := scan_some typeFilter properties memoryTypes 0 k hk
    have hjk : j = k := by omega
    subst hjk
    refine ⟨(fitsRequest_iff memoryTypes typeFilter properties j hcount).mpr ⟨mt, hget, hfit⟩, ?_⟩
    intro j2 hj2 hfits
    obtain ⟨other, hget2, hfit2⟩ :=
      (fitsRequest_iff memoryTypes typeFilter properties j2 hcount).mp hfits
    exact hmin j2 other hj2 hget2 hfit2
  have hnone : FindMemoryType.scan typeFilter properties memoryTypes 0 = none →
      ∀ i, ¬ FitsRequest memoryTypes typeFilter properties i := by
    intro hn i hfits
    obtain ⟨other, hget, hfit⟩ :=
      (fitsRequest_iff memoryTypes typeFilter properties i hcount).mp hfits
    exact scan_none typeFilter properties memoryTypes 0 hn i other hget hfit
  unfold KVulkanBuffer.FindMemoryType
  cases hscan : FindMemoryType.scan typeFilter properties memoryTypes 0 with
  | none =>
    have hno := hnone hscan
    constructor
    · intro i
      constructor
      · intro h
        cases h
      · intro h
        exact absurd h.1 (hno i)
    · intro e
      constructor
      · intro h
        cases h
        exact ⟨rfl, hno⟩
      · intro h
        rw [h.1]
  | some k =>
    obtain ⟨hfits, hleast⟩ := hsome k hscan
    constructor
    · intro i
      constructor
      · intro h
        cases h
        exact ⟨hfits, hleast⟩
      · intro h
        have hik : i = k := by
          rcases Nat.lt_trichotomy i k with hlt | heq | hgt
          · exact absurd h.1 (hleast i hlt)
          · exact heq
          · exact absurd hfits (h.2 k hgt)
        rw [hik]
    · intro e
      constructor
      · intro h
        cases h
      · intro h
        exact absurd hfits (h.2 k)

theorem FindMemoryType_first_fit_witness :
    demoMemoryTypes.length ≤ VK_MAX_MEMORY_TYPES ∧
      KVulkanBuffer.FindMemoryType demoMemoryTypes 6
        (VK_MEMORY_PROPERTY_HOST_VISIBLE_BIT ||| VK_MEMORY_PROPERTY_HOST_COHERENT_BIT) = .ok 1 ∧
      FitsRequest demoMemoryTypes 6
        (VK_MEMORY_PROPERTY_HOST_VISIBLE_BIT ||| VK_MEMORY_PROPERTY_HOST_COHERENT_BIT) 1 :=
  ⟨by decide, rfl,
    (((FindMemoryType_first_fit demoMemoryTypes 6
      (VK_MEMORY_PROPERTY_HOST_VISIBLE_BIT ||| VK_MEMORY_PROPERTY_HOST_COHERENT_BIT)
      (by decide)).1 1).mp rfl).1⟩

/-! ### Construction of buffers and images -/

theorem new_eq_newBuffer (vk : KVulkan) (driver : BufferDriver) (size properties i : Nat)
    (hcreate : driver.vkCreateBuffer = VK_SUCCESS)
    (hfind : KVulkanBuffer.FindMemoryType driver.memoryTypes
      driver.memRequirements.memoryTypeBits properties = .ok i)
    (halloc : driver.vkAllocateMemory = VK_SUCCESS) :
    KVulkanBuffer.new driver vk.nextBuffer size properties = .ok (vk.newBuffer size).1 := by
  unfold KVulkanBuffer.new KVulkanBuffer.CreateBuffer KVulkan.newBuffer
  simp [hcreate, hfind, halloc]

/-- Claim C16, amended: constructing a buffer of a requested size below `2 ^ 64`
yields, when it succeeds, a buffer of exactly that size. The constructor throws
the buffer-create-failure error when `vkCreateBuffer` fails, and when a memory
type is found and `vkAllocateMemory` fails; it throws the error of
`FindMemoryType` when no memory type fits. When creation and allocation
succeed it returns the buffer whatever `vkBindBufferMemory` answers. -/
theorem KVulkanBuffer_new_size_and_failures (driver : BufferDriver) (id size properties : Nat)
    (hsize : size < 2 ^ 64) :
    (∀ b, KVulkanBuffer.new driver id size properties = .ok b → b = { id := id, size := size }) ∧
      (driver.vkCreateBuffer ≠ VK_SUCCESS →
        KVulkanBuffer.new driver id size properties = .error .KE_VULKAN_BUFFER_CREATE_FAIL) ∧
      (∀ i, driver.vkCreateBuffer = VK_SUCCESS →
        KVulkanBuffer.FindMemoryType driver.memoryTypes driver.memRequirements.memoryTypeBits
          properties = .ok i →
        driver.vkAllocateMemory ≠ VK_SUCCESS →
        KVulkanBuffer.new driver id size properties = .error .KE_VULKAN_BUFFER_CREATE_FAIL) ∧
      (∀ e, driver.vkCreateBuffer = VK_SUCCESS →
        KVulkanBuffer.FindMemoryType driver.memoryTypes driver.memRequirements.memoryTypeBits
          properties = .error e →
        KVulkanBuffer.new driver id size properties = .error e) ∧
      (∀ i, driver.vkCreateBuffer = VK_SUCCESS →
        KVulkanBuffer.FindMemoryType driver.memoryTypes driver.memRequirements.memoryTypeBits
          properties = .ok i →
        driver.vkAllocateMemory = VK_SUCCESS →
        KVulkanBuffer.new driver id size properties = .ok { id := id, size := size }) := by
  have hmod : toSizeT size = size := Nat.mod_eq_of_lt hsize
  refine ⟨?_, ?_, ?_, ?_, ?_⟩
  · intro b hb
    unfold KVulkanBuffer.new KVulkanBuffer.CreateBuffer at hb
    by_cases hcreate : driver.vkCreateBuffer ≠ VK_SUCCESS
    · simp [hcreate] at hb
    · simp only [hcreate, if_false] at hb
      cases hfind : KVulkanBuffer.FindMemoryType driver.memoryTypes
          driver.memRequirements.memoryTypeBits properties with
      | error e => simp [hfind] at hb
      | ok i =>
        by_cases halloc : driver.vkAllocateMemory ≠ VK_SUCCESS
        · simp [hfind, halloc] at hb
        · simp [hfind, halloc, hmod] at hb
          exact hb.symm
  · intro hcreate
    unfold KVulkanBuffer.new KVulkanBuffer.CreateBuffer
    simp [hcreate]
  · intro i hcreate hfind halloc
    unfold KVulkanBuffer.new KVulkanBuffer.CreateBuffer
    simp [hcreate, hfind, halloc]
  · intro e hcreate hfind
    unfold KVulkanBuffer.new KVulkanBuffer.CreateBuffer
    simp [hcreate, hfind]
  · intro i hcreate hfind halloc
    unfold KVulkanBuffer.new KVulkanBuffer.CreateBuffer
    simp [hcreate, hfind, halloc, hmod]

theorem KVulkanBuffer_new_size_and_failures_witness :
    (64 : Nat) < 2 ^ 64 ∧
      KVulkanBuffer.new (demoBufferDriver VK_ERROR_OUT_OF_DEVICE_MEMORY VK_SUCCESS VK_SUCCESS) 0 64
        VK_MEMORY_PROPERTY_DEVICE_LOCAL_BIT = .error .KE_VULKAN_BUFFER_CREATE_FAIL ∧
      KVulkanBuffer.new (demoBufferDriver VK_SUCCESS VK_ERROR_OUT_OF_DEVICE_MEMORY VK_SUCCESS) 0 64
        VK_MEMORY_PROPERTY_DEVICE_LOCAL_BIT = .error .KE_VULKAN_BUFFER_CREATE_FAIL :=
  ⟨by decide,
    (KVulkanBuffer_new_size_and_failures
      (demoBufferDriver VK_ERROR_OUT_OF_DEVICE_MEMORY VK_SUCCESS VK_SUCCESS) 0 64
      VK_MEMORY_PROPERTY_DEVICE_LOCAL_BIT (by decide)).2.1 (by decide),
    (KVulkanBuffer_new_size_and_failures
      (demoBufferDriver VK_SUCCESS VK_ERROR_OUT_OF_DEVICE_MEMORY VK_SUCCESS) 0 64
      VK_MEMORY_PROPERTY_DEVICE_LOCAL_BIT (by decide)).2.2.1 0 rfl rfl (by decide)⟩

/-- Counterexample to claim C16 as stated: `vkBindBufferMemory` fails with
`VK_ERROR_OUT_OF_DEVICE_MEMORY` after a successful creation and allocation, and
the constructor throws nothing and returns the buffer. -/
theorem KVulkanBuffer_new_bind_failure_unnoticed :
    (demoBufferDriver VK_SUCCESS VK_SUCCESS VK_ERROR_OUT_OF_DEVICE_MEMORY).vkBindBufferMemory ≠
        VK_SUCCESS ∧
      KVulkanBuffer.new (demoBufferDriver VK_SUCCESS VK_SUCCESS VK_ERROR_OUT_OF_DEVICE_MEMORY) 0 64
        VK_MEMORY_PROPERTY_DEVICE_LOCAL_BIT = .ok { id := 0, size := 64 } :=
  ⟨by decide, rfl⟩

theorem Initialize_returns (img : KVulkanImage) (driver : ImageDriver) (tempId properties : Nat)
    (ret : KError) (img2 : KVulkanImage)
    (h : img.Initialize driver tempId properties = .ok (ret, img2)) :
    ret = .KE_TEXTURE_LOAD_FAIL ∨ ret = .KE_TEXTURE_ALLOC_FAIL ∨ ret = .KE_OK := by
  unfold KVulkanImage.Initialize at h
  by_cases hcreate : driver.vkCreateImage ≠ VK_SUCCESS
  · rw [if_pos hcreate] at h
    cases h
    exact Or.inl rfl
  · rw [if_neg hcreate] at h
    cases htemp : KVulkanBuffer.new driver.temp tempId 1 properties with
    | error e => simp [htemp] at h
    | ok temp =>
      cases hfind : KVulkanBuffer.FindMemoryType driver.temp.memoryTypes
          driver.memRequirements.memoryTypeBits VK_MEMORY_PROPERTY_DEVICE_LOCAL_BIT with
      | error e => simp [htemp, hfind] at h
      | ok i =>
        by_cases halloc : driver.vkAllocateMemory ≠ VK_SUCCESS
        · simp [htemp, hfind, halloc] at h
          exact Or.inr (Or.inl h.1.symm)
        · simp [htemp, hfind, halloc] at h
          exact Or.inr (Or.inr h.1.symm)

theorem KVulkanImage_new_never_throws_a_returned_code (driver : ImageDriver)
    (tempId properties : Nat) (ret : KError) (img : KVulkanImage)
    (h : ({ image := false, imageMemory := false } : KVulkanImage).Initialize driver tempId
      properties = .ok (ret, img)) :
    KVulkanImage.new driver tempId properties = .ok img := by
  have hret := Initialize_returns _ driver tempId properties ret img h
  unfold KVulkanImage.new
  rw [h]
  rcases hret with hr | hr | hr <;> subst hr <;> rfl

/-- Claim C19, evaluated on a driver whose `vkCreateImage` fails with
`VK_ERROR_OUT_OF_DEVICE_MEMORY`, and on one whose image memory allocation
fails: `Initialize` returns `KE_TEXTURE_LOAD_FAIL` and `KE_TEXTURE_ALLOC_FAIL`,
codes other than `KE_OK`, and in both cases the constructor throws nothing and
returns an image without memory. The test `if (!ret)` of the source holds only
for the code whose value is zero, `KE_STOP`, where the claim expects a fatal
error for every code other than `KE_OK`. -/
theorem KVulkanImage_new_failure_unnoticed :
    KVulkanImage.Initialize { image := false, imageMemory := false }
        (demoImageDriver VK_ERROR_OUT_OF_DEVICE_MEMORY VK_SUCCESS) 0
        VK_MEMORY_PROPERTY_DEVICE_LOCAL_BIT =
          .ok (.KE_TEXTURE_LOAD_FAIL, { image := false, imageMemory := false }) ∧
      KVulkanImage.new (demoImageDriver VK_ERROR_OUT_OF_DEVICE_MEMORY VK_SUCCESS) 0
        VK_MEMORY_PROPERTY_DEVICE_LOCAL_BIT = .ok { image := false, imageMemory := false } ∧
      KVulkanImage.Initialize { image := false, imageMemory := false }
        (demoImageDriver VK_SUCCESS VK_ERROR_OUT_OF_DEVICE_MEMORY) 0
        VK_MEMORY_PROPERTY_DEVICE_LOCAL_BIT =
          .ok (.KE_TEXTURE_ALLOC_FAIL, { image := true, imageMemory := false }) ∧
      KVulkanImage.new (demoImageDriver VK_SUCCESS VK_ERROR_OUT_OF_DEVICE_MEMORY) 0
        VK_MEMORY_PROPERTY_DEVICE_LOCAL_BIT = .ok { image := true, imageMemory := false } ∧
      KError.toInt .KE_OK = 1 ∧ KError.toInt .KE_STOP = 0 :=
  ⟨rfl, rfl, rfl, rfl, rfl, rfl⟩

/-! ### Frame submission -/

theorem DrawFrame_acquire_out_of_date (body : List DeviceCall) (sceneRenderCallback : Bool)
    (driver : FrameDriver) (h : driver.vkAcquireNextImageKHR = VK_ERROR_OUT_OF_DATE_KHR) :
    KVulkan.DrawFrame (some body) sceneRenderCallback driver =
        { calls := [.vkAcquireNextImageKHR, .outdatedSwapChainCallback] ++ body, thrown := none } ∧
      KVulkan.DrawFrame none sceneRenderCallback driver =
        { calls := [.vkAcquireNextImageKHR], thrown := some .KE_VULKAN_SC_OUT_OF_DATE } := by
  unfold KVulkan.DrawFrame
  simp [h]

/-- Claim C17, evaluated on a frame whose image acquisition and submission
succeed and whose presentation reports `VK_ERROR_OUT_OF_DATE_KHR`, with a
recreation callback registered: `DrawFrame` throws the draw-failure error after
the presentation and the callback is not among the calls made. The claim
expects the callback to be invoked and no fatal error; the source does that
only when the report comes from the acquisition. -/
theorem DrawFrame_present_out_of_date_is_fatal (body : List DeviceCall) :
    KVulkan.DrawFrame (some body) false
        { vkAcquireNextImageKHR := VK_SUCCESS
          vkQueueSubmit := VK_SUCCESS
          vkQueuePresentKHR := VK_ERROR_OUT_OF_DATE_KHR } =
      { calls := [.vkAcquireNextImageKHR, .vkQueueSubmit, .vkQueuePresentKHR]
        thrown := some .KE_VULKAN_DRAW_FAIL } := by
  rfl

/-! ### Descriptor pool -/

theorem InitializeDescriptorSets_materials_spec (materials : List KMaterial)
    (pool : KVulkanDescriptorPool) :
    (InitializeDescriptorSets.materials pool materials).2 =
        { pool with sets := pool.sets ++ materials.map (fun _ =>
          singleDescriptorSet .fragmentDescriptorLayout
            VK_DESCRIPTOR_TYPE_COMBINED_IMAGE_SAMPLER) } ∧
      (InitializeDescriptorSets.materials pool materials).1.map (fun m => m.descriptorSet) =
        (List.range materials.length).map (fun i => some (pool.sets.length + i)) ∧
      (InitializeDescriptorSets.materials pool materials).1.map (fun m => m.id) =
        materials.map (fun m => m.id) := by
  induction materials generalizing pool with
  | nil => simp [InitializeDescriptorSets.materials]
  | cons material rest ih =>
    obtain ⟨hpool, hsets, hids⟩ := ih
      (pool.AllocateDescriptor .fragmentDescriptorLayout
        VK_DESCRIPTOR_TYPE_COMBINED_IMAGE_SAMPLER 0 1).2
    refine ⟨?_, ?_, ?_⟩
    · simp only [InitializeDescriptorSets.materials]
      rw [hpool]
      simp [KVulkanDescriptorPool.AllocateDescriptor, singleDescriptorSet]
    · simp only [InitializeDescriptorSets.materials, List.map_cons, List.length_cons]
      rw [hsets, List.range_succ_eq_map]
      simp [KVulkanDescriptorPool.AllocateDescriptor, Nat.add_assoc, Nat.add_comm 1]
    · simp only [InitializeDescriptorSets.materials, List.map_cons]
      rw [hids]

/-- Claim C18: for every material list of length `m`, the pool that `Actualize`
rebuilds is sized for `m` combined-image-sampler descriptors, two
uniform-buffer descriptors and one dynamic-uniform-buffer descriptor, and its
`maxSets` is `m + 3`. The sets then allocated from it are one combined image
sampler set per material, in list order, followed by the camera set, the lights
set and the dynamic-uniform set, so their number `m + 3` does not exceed
`maxSets`; every material and the three scene members hold the handle of their
own set. -/
theorem Actualize_descriptor_pool (materials : List KMaterial) :
    (Actualize.descriptors materials).descPool.descriptorsOfType
        VK_DESCRIPTOR_TYPE_COMBINED_IMAGE_SAMPLER = materials.length ∧
      (Actualize.descriptors materials).descPool.descriptorsOfType
        VK_DESCRIPTOR_TYPE_UNIFORM_BUFFER = 2 ∧
      (Actualize.descriptors materials).descPool.descriptorsOfType
        VK_DESCRIPTOR_TYPE_UNIFORM_BUFFER_DYNAMIC = 1 ∧
      (Actualize.descriptors materials).descPool.maxSets = materials.length + 3 ∧
      (Actualize.descriptors materials).descPool.sets =
        materials.map (fun _ => singleDescriptorSet .fragmentDescriptorLayout
          VK_DESCRIPTOR_TYPE_COMBINED_IMAGE_SAMPLER) ++
        [singleDescriptorSet .vertexDescriptorLayout VK_DESCRIPTOR_TYPE_UNIFORM_BUFFER,
         singleDescriptorSet .lightsDescriptorLayout VK_DESCRIPTOR_TYPE_UNIFORM_BUFFER,
         singleDescriptorSet .vxUniformBufferDescriptorLayout
           VK_DESCRIPTOR_TYPE_UNIFORM_BUFFER_DYNAMIC] ∧
      (Actualize.descriptors materials).descPool.sets.length = materials.length + 3 ∧
      (Actualize.descriptors materials).descPool.sets.length ≤
        (Actualize.descriptors materials).descPool.maxSets ∧
      (Actualize.descriptors materials).materials.map (fun m => m.descriptorSet) =
        (List.range materials.length).map some ∧
      (Actualize.descriptors materials).materials.map (fun m => m.id) =
        materials.map (fun m => m.id) ∧
      (Actualize.descriptors materials).uniformDescriptorSet = some materials.length ∧
      (Actualize.descriptors materials).lightsDescriptorSet = some (materials.length + 1) ∧
      (Actualize.descriptors materials).vxDynamicUniformDescriptorSet =
        some (materials.length + 2) := by
  obtain ⟨hpool, hsets, hids⟩ := InitializeDescriptorSets_materials_spec materials
    (KVulkanDescriptorPool.new (KScene.PrepareDescriptorLayouts materials))
  have hd : Actualize.descriptors materials =
      { descPool :=
          { poolSizes := KScene.PrepareDescriptorLayouts materials
            maxSets := materials.length + 3
            sets := materials.map (fun _ => singleDescriptorSet .fragmentDescriptorLayout
                VK_DESCRIPTOR_TYPE_COMBINED_IMAGE_SAMPLER) ++
              [singleDescriptorSet .vertexDescriptorLayout VK_DESCRIPTOR_TYPE_UNIFORM_BUFFER,
               singleDescriptorSet .lightsDescriptorLayout VK_DESCRIPTOR_TYPE_UNIFORM_BUFFER,
               singleDescriptorSet .vxUniformBufferDescriptorLayout
                 VK_DESCRIPTOR_TYPE_UNIFORM_BUFFER_DYNAMIC] }
        materials := (InitializeDescriptorSets.materials
          (KVulkanDescriptorPool.new (KScene.PrepareDescriptorLayouts materials)) materials).1
        uniformDescriptorSet := some materials.length
        lightsDescriptorSet := some (materials.length + 1)
        vxDynamicUniformDescriptorSet := some (materials.length + 2) } := by
    unfold Actualize.descriptors KScene.InitializeDescriptorSets
    simp only []
    rw [hpool]
    simp [KVulkanDescriptorPool.AllocateDescriptor, KVulkanDescriptorPool.new,
      KScene.PrepareDescriptorLayouts, singleDescriptorSet]
    omega
  rw [hd]
  refine ⟨?_, ?_, ?_, rfl, rfl, ?_, ?_, ?_, hids, rfl, rfl, rfl⟩
  · simp [KVulkanDescriptorPool.descriptorsOfType, KScene.PrepareDescriptorLayouts,
      VK_DESCRIPTOR_TYPE_COMBINED_IMAGE_SAMPLER, VK_DESCRIPTOR_TYPE_UNIFORM_BUFFER,
      VK_DESCRIPTOR_TYPE_UNIFORM_BUFFER_DYNAMIC, List.filter]
  · simp [KVulkanDescriptorPool.descriptorsOfType, KScene.PrepareDescriptorLayouts,
      VK_DESCRIPTOR_TYPE_COMBINED_IMAGE_SAMPLER, VK_DESCRIPTOR_TYPE_UNIFORM_BUFFER,
      VK_DESCRIPTOR_TYPE_UNIFORM_BUFFER_DYNAMIC, List.filter]
  · simp [KVulkanDescriptorPool.descriptorsOfType, KScene.PrepareDescriptorLayouts,
      VK_DESCRIPTOR_TYPE_COMBINED_IMAGE_SAMPLER, VK_DESCRIPTOR_TYPE_UNIFORM_BUFFER,
      VK_DESCRIPTOR_TYPE_UNIFORM_BUFFER_DYNAMIC, List.filter]
  · simp
  · simp
  · rw [hsets]
    simp [KVulkanDescriptorPool.new]

/-! ### Swap chain recreation and the device wait -/

theorem WaitsBeforeDestroy_cons_wait (rest : List DeviceCall) :
    WaitsBeforeDestroy (.vkDeviceWaitIdle :: rest) := by
  intro pre o post h _
  cases pre with
  | nil =>
    simp only [List.nil_append, List.cons.injEq] at h
    cases h.1
  | cons c pre2 =>
    simp only [List.cons_append, List.cons.injEq] at h
    rw [← h.1]
    exact List.mem_cons_self _ _

theorem WaitsBeforeDestroy_cons (c : DeviceCall) (rest : List DeviceCall)
    (hwait : c ≠ .vkDeviceWaitIdle)
    (hdel : ∀ o, c = .delete o → o.swapChainDependent = false) :
    WaitsBeforeDestroy (c :: rest) ↔ WaitsBeforeDestroy rest := by
  constructor
  · intro h pre o post hsplit hdep
    have hmem := h (c :: pre) o post (by rw [hsplit, List.cons_append]) hdep
    rcases List.mem_cons.mp hmem with heq | hin
    · exact absurd heq.symm hwait
    · exact hin
  · intro h pre o post hsplit hdep
    cases pre with
    | nil =>
      simp only [List.nil_append, List.cons.injEq] at hsplit
      have := hdel o hsplit.1
      rw [this] at hdep
      cases hdep
    | cons c2 pre2 =>
      simp only [List.cons_append, List.cons.injEq] at hsplit
      exact List.mem_cons_of_mem _ (h pre2 o post hsplit.2 hdep)

theorem WaitsBeforeDestroy_cons_delete (o : ContextObject) (rest : List DeviceCall)
    (hdep : o.swapChainDependent = true) : ¬ WaitsBeforeDestroy (.delete o :: rest) := by
  intro h
  have := h [] o rest rfl hdep
  simp at this

theorem waitsBeforeDestroy_iff (calls : List DeviceCall) :
    waitsBeforeDestroy calls = true ↔ WaitsBeforeDestroy calls := by
  induction calls with
  | nil =>
    simp only [waitsBeforeDestroy, true_iff]
    intro pre o post h
    simp at h
  | cons c rest ih =>
    cases c with
    | vkDeviceWaitIdle =>
      simp only [waitsBeforeDestroy, true_iff]
      exact WaitsBeforeDestroy_cons_wait rest
    | delete o =>
      cases hdep : o.swapChainDependent with
      | true =>
        simp only [waitsBeforeDestroy, hdep, Bool.not_true, Bool.false_and]
        constructor
        · intro h
          cases h
        · intro h
          exact absurd h (WaitsBeforeDestroy_cons_delete o rest hdep)
      | false =>
        rw [WaitsBeforeDestroy_cons (.delete o) rest (by simp)
          (by intro o2 h; cases h; exact hdep), ← ih]
        simp [waitsBeforeDestroy, hdep]
    | vkQueueWaitIdle =>
      rw [WaitsBeforeDestroy_cons _ rest (by simp) (by intro o2 h; cases h), ← ih]
      simp [waitsBeforeDestroy]
    | vkAcquireNextImageKHR =>
      rw [WaitsBeforeDestroy_cons _ rest (by simp) (by intro o2 h; cases h), ← ih]
      simp [waitsBeforeDestroy]
    | vkQueueSubmit =>
      rw [WaitsBeforeDestroy_cons _ rest (by simp) (by intro o2 h; cases h), ← ih]
      simp [waitsBeforeDestroy]
    | vkQueuePresentKHR =>
      rw [WaitsBeforeDestroy_cons _ rest (by simp) (by intro o2 h; cases h), ← ih]
      simp [waitsBeforeDestroy]
    | outdatedSwapChainCallback =>
      rw [WaitsBeforeDestroy_cons _ rest (by simp) (by intro o2 h; cases h), ← ih]
      simp [waitsBeforeDestroy]
    | sceneRenderCallback =>
      rw [WaitsBeforeDestroy_cons _ rest (by simp) (by intro o2 h; cases h), ← ih]
      simp [waitsBeforeDestroy]
    | create o =>
      rw [WaitsBeforeDestroy_cons _ rest (by simp) (by intro o2 h; cases h), ← ih]
      simp [waitsBeforeDestroy]

theorem waitsBeforeDestroy_append (xs ys : List DeviceCall)
    (h : ∀ c, c ∈ xs → ∀ rest, waitsBeforeDestroy (c :: rest) = waitsBeforeDestroy rest) :
    waitsBeforeDestroy (xs ++ ys) = waitsBeforeDestroy ys := by
  induction xs with
  | nil => rfl
  | cons c rest ih =>
    rw [List.cons_append, h c (List.mem_cons_self _ _)]
    exact ih (fun c2 hc2 => h c2 (List.mem_cons_of_mem _ hc2))

theorem releaseCalls_skipped (buffer : Option KVulkanBuffer) (dummy : KVulkanBuffer)
    (o : ContextObject) (ho : o.swapChainDependent = false) (ys : List DeviceCall) :
    waitsBeforeDestroy (Actualize.releaseCalls buffer dummy o ++ ys) = waitsBeforeDestroy ys := by
  apply waitsBeforeDestroy_append
  intro c hc rest
  unfold Actualize.releaseCalls at hc
  cases buffer with
  | none => simp at hc
  | some b =>
    by_cases hb : b.id ≠ dummy.id
    · simp only [hb, ne_eq, not_false_eq_true, if_true, List.mem_singleton] at hc
      subst hc
      simp [waitsBeforeDestroy, ho]
    · simp [hb] at hc

theorem CreateObjectBuffer_calls_skipped (bufferSize : Nat) (o : ContextObject)
    (ys : List DeviceCall) :
    waitsBeforeDestroy (CreateObjectBuffer.calls bufferSize o ++ ys) = waitsBeforeDestroy ys := by
  apply waitsBeforeDestroy_append
  intro c hc rest
  unfold CreateObjectBuffer.calls at hc
  by_cases hz : bufferSize = 0
  · simp [hz] at hc
  · simp only [hz, if_false, List.mem_cons, List.mem_singleton, List.not_mem_nil, or_false] at hc
    rcases hc with hc | hc | hc | hc | hc <;> subst hc <;>
      simp [waitsBeforeDestroy, ContextObject.swapChainDependent]

theorem Actualize_calls_no_wait {V D : Type} (sz : PayloadSizes) (s : KScene V D) :
    waitsBeforeDestroy (Actualize.calls sz s) = false := by
  unfold Actualize.calls
  simp only [List.append_assoc]
  rw [releaseCalls_skipped _ _ .vertexBuffer rfl, releaseCalls_skipped _ _ .indexBuffer rfl,
    CreateObjectBuffer_calls_skipped, CreateObjectBuffer_calls_skipped,
    releaseCalls_skipped _ _ .instanceBuffer rfl, CreateObjectBuffer_calls_skipped]
  rfl

/-- Claim C20, evaluated on the three paths to `RecreateSwapChain`. In the calls
of `Actualize`, on every scene, and in the calls of `DrawFrame` when the
acquisition reports `VK_ERROR_OUT_OF_DATE_KHR` and the callback is the one
`KEngine::InitializeVulkan` registers, the command pools are deleted with no
`vkDeviceWaitIdle` before them (`waitsBeforeDestroy` decides
`WaitsBeforeDestroy`). Only `OnWindowResize` waits first, with any callback.
The claim expects the wait on every path. -/
theorem RecreateSwapChain_reached_without_device_wait {V D : Type} (sz : PayloadSizes)
    (s : KScene V D) (doCreateInstancingPipeline sceneRenderCallback : Bool)
    (callback : Option (List DeviceCall)) :
    waitsBeforeDestroy (Actualize.calls sz s) = false ∧
      waitsBeforeDestroy (KVulkan.DrawFrame
        (KEngine.InitializeVulkan none doCreateInstancingPipeline) sceneRenderCallback
        { vkAcquireNextImageKHR := VK_ERROR_OUT_OF_DATE_KHR
          vkQueueSubmit := VK_SUCCESS
          vkQueuePresentKHR := VK_SUCCESS }).calls = false ∧
      waitsBeforeDestroy (KEngine.OnWindowResize callback doCreateInstancingPipeline) = true := by
  refine ⟨Actualize_calls_no_wait sz s, rfl, rfl⟩

/-! ### Model loader -/

theorem meshCacheFind_append (meshCache : List (String × Nat)) (entry : String × Nat)
    (filename : String) :
    meshCacheFind (meshCache ++ [entry]) filename =
      match meshCacheFind meshCache filename with
      | some cache => some cache
      | none => if entry.1 = filename then some entry.2 else none := by
  induction meshCache with
  | nil => simp [meshCacheFind]
  | cons first rest ih =>
    simp only [List.cons_append, meshCacheFind]
    by_cases hf : first.1 = filename
    · simp [hf]
    · simp only [hf, if_false]
      exact ih

theorem meshCacheFind_erase (meshCache : List (String × Nat)) (filename : String)
    (cache mesh : Nat) (hfind : meshCacheFind meshCache filename = some cache)
    (hne : mesh ≠ cache) :
    meshCacheFind (RemoveFromCache.erase mesh meshCache) filename = some cache := by
  induction meshCache with
  | nil => simp [meshCacheFind] at hfind
  | cons first rest ih =>
    simp only [meshCacheFind] at hfind
    simp only [RemoveFromCache.erase]
    by_cases hf : first.1 = filename
    · rw [if_pos hf] at hfind
      have hc : first.2 = cache := Option.some.inj hfind
      have hm : ¬ first.2 = mesh := by
        rw [hc]
        exact fun e => hne e.symm
      rw [if_neg hm]
      simp only [meshCacheFind, if_pos hf, hc]
    · rw [if_neg hf] at hfind
      by_cases hm : first.2 = mesh
      · rw [if_pos hm]
        exact hfind
      · rw [if_neg hm]
        simp only [meshCacheFind, if_neg hf]
        exact ih hfind

theorem erase_split (mesh : Nat) (pre post : List (String × Nat)) (name : String)
    (hpre : ∀ entry, entry ∈ pre → entry.2 ≠ mesh) :
    RemoveFromCache.erase mesh (pre ++ (name, mesh) :: post) = pre ++ post := by
  induction pre with
  | nil => simp [RemoveFromCache.erase]
  | cons first rest ih =>
    have hf : ¬ first.2 = mesh := hpre first (List.mem_cons_self _ _)
    rw [List.cons_append]
    show (if first.2 = mesh then rest ++ (name, mesh) :: post
      else first :: RemoveFromCache.erase mesh (rest ++ (name, mesh) :: post)) = _
    rw [if_neg hf, ih (fun e he => hpre e (List.mem_cons_of_mem _ he))]
    rfl

theorem erase_absent (mesh : Nat) (meshCache : List (String × Nat))
    (h : ∀ entry, entry ∈ meshCache → entry.2 ≠ mesh) :
    RemoveFromCache.erase mesh meshCache = meshCache := by
  induction meshCache with
  | nil => rfl
  | cons first rest ih =>
    have hf : ¬ first.2 = mesh := h first (List.mem_cons_self _ _)
    simp only [RemoveFromCache.erase, if_neg hf]
    rw [ih (fun e he => h e (List.mem_cons_of_mem _ he))]

theorem LoadModel_keeps_entries {F : Type} (fl : FloatOps F)
    (files : String → Option (ObjFile F)) (loader loader2 : KModelLoaderTinyObj F)
    (other filename : String) (a cache : Nat) (cached : KMesh (Vertex F))
    (hload : loader.LoadModel fl files other = some (.ok (a, loader2)))
    (hfind : meshCacheFind loader.meshCache filename = some cache)
    (hmesh : loader.meshes[cache]? = some cached) :
    meshCacheFind loader2.meshCache filename = some cache ∧
      loader2.meshes[cache]? = some cached := by
  have hlt : cache < loader.meshes.length := (List.getElem?_eq_some.mp hmesh).1
  have hkeep : ∀ mesh : KMesh (Vertex F), (loader.meshes ++ [mesh])[cache]? = some cached := by
    intro mesh
    rw [List.getElem?_append_left hlt]
    exact hmesh
  unfold KModelLoaderTinyObj.LoadModel at hload
  by_cases hempty : other.isEmpty = true
  · rw [if_pos hempty] at hload
    cases hload
    exact ⟨hfind, hkeep _⟩
  · rw [if_neg hempty] at hload
    unfold KModelLoaderTinyObj.LoadMeshData at hload
    cases hc : meshCacheFind loader.meshCache other with
    | some c =>
      simp only [hc] at hload
      cases hm : loader.meshes[c]? with
      | none => simp [hm] at hload
      | some m =>
        simp only [hm] at hload
        cases hload
        exact ⟨hfind, hkeep _⟩
    | none =>
      simp only [hc] at hload
      cases hf : files other with
      | none => simp [hf] at hload
      | some obj =>
        simp only [hf] at hload
        cases hs : LoadMeshData.shapes fl obj.attrib obj.shapes (KMesh.new (Vertex F)) with
        | none => simp [hs] at hload
        | some mesh =>
          simp only [hs] at hload
          cases hload
          refine ⟨?_, hkeep _⟩
          simp only []
          rw [meshCacheFind_append, hfind]

/-- Claim C22: for a loader and a file name that is not empty, (1) a successful
load of a name that is not cached leaves a cache entry for the name that points
to the mesh just returned; (2) while the cache holds an entry for the name, a
load of the name returns, whatever the file system holds, a new mesh with the
vertex list and the index list of the mesh the entry points to, and leaves the
cache as it is; (3) `RemoveFromCache(mesh)` erases the first entry that points
to `mesh`, keeps all other entries in their order, and changes nothing when no
entry points to `mesh`. -/
theorem LoadModel_cache_and_RemoveFromCache {F : Type} (fl : FloatOps F)
    (loader : KModelLoaderTinyObj F) (filename : String) (hname : filename.isEmpty = false) :
    (∀ files a loader2, meshCacheFind loader.meshCache filename = none →
        loader.LoadModel fl files filename = some (.ok (a, loader2)) →
        meshCacheFind loader2.meshCache filename = some a ∧
          ∃ mesh, loader2.meshes[a]? = some mesh) ∧
      (∀ cache cached, meshCacheFind loader.meshCache filename = some cache →
        loader.meshes[cache]? = some cached →
        ∃ mesh, mesh.vertices = cached.vertices ∧ mesh.indices = cached.indices ∧
          ∀ files, loader.LoadModel fl files filename =
            some (.ok (loader.meshes.length,
              { meshes := loader.meshes ++ [mesh], meshCache := loader.meshCache }))) ∧
      (∀ mesh pre post name, loader.meshCache = pre ++ (name, mesh) :: post →
        (∀ entry, entry ∈ pre → entry.2 ≠ mesh) →
        loader.RemoveFromCache mesh = { loader with meshCache := pre ++ post }) ∧
      (∀ mesh, (∀ entry, entry ∈ loader.meshCache → entry.2 ≠ mesh) →
        loader.RemoveFromCache mesh = loader) := by
  refine ⟨?_, ?_, ?_, ?_⟩
  · intro files a loader2 hmiss hload
    unfold KModelLoaderTinyObj.LoadModel KModelLoaderTinyObj.LoadMeshData at hload
    simp only [hname, hmiss] at hload
    cases hf : files filename with
    | none => simp [hf] at hload
    | some obj =>
      simp only [hf] at hload
      cases hs : LoadMeshData.shapes fl obj.attrib obj.shapes (KMesh.new (Vertex F)) with
      | none => simp [hs] at hload
      | some mesh =>
        simp only [hs] at hload
        simp only [Bool.false_eq_true, if_false, Option.some.injEq, Except.ok.injEq,
          Prod.mk.injEq] at hload
        obtain ⟨ha, hl⟩ := hload
        subst hl
        subst ha
        refine ⟨?_, mesh, ?_⟩
        · simp only []
          rw [meshCacheFind_append, hmiss]
          simp
        · simp
  · intro cache cached hfind hmesh
    refine ⟨{ vertices := cached.vertices, indices := cached.indices, bufferOffset := 0 },
      rfl, rfl, ?_⟩
    intro files
    unfold KModelLoaderTinyObj.LoadModel KModelLoaderTinyObj.LoadMeshData
    simp only [hname, hfind, hmesh]
    rfl
  · intro mesh pre post name hsplit hpre
    unfold KModelLoaderTinyObj.RemoveFromCache
    rw [hsplit, erase_split mesh pre post name hpre]
  · intro mesh habsent
    unfold KModelLoaderTinyObj.RemoveFromCache
    rw [erase_absent mesh loader.meshCache habsent]

theorem LoadModel_cache_and_RemoveFromCache_witness :
    demoLoadedLoader.meshCache = [("quad.obj", 0)] ∧
      ∃ mesh, mesh.vertices = (demoLoadedLoader.meshes.getD 0 (KMesh.new (Vertex Int))).vertices ∧
        mesh.indices = [0, 1, 2, 3, 4, 5] ∧
        ∀ files, demoLoadedLoader.LoadModel demoFloats files "quad.obj" =
          some (.ok (1,
            { meshes := demoLoadedLoader.meshes ++ [mesh]
              meshCache := demoLoadedLoader.meshCache })) :=
  ⟨rfl, (LoadModel_cache_and_RemoveFromCache demoFloats demoLoadedLoader "quad.obj"
    (by decide)).2.1 0 (demoLoadedLoader.meshes.getD 0 (KMesh.new (Vertex Int))) rfl rfl⟩

/-! ### Lights -/

theorem CreateLight_length {L : Type} (lights : List L) (light : L)
    (h : lights.length ≤ KE_MAX_DYNAMIC_LIGHTS) :
    (KScene.CreateLight lights light).2.length ≤ KE_MAX_DYNAMIC_LIGHTS := by
  unfold KScene.CreateLight
  by_cases hfull : lights.length ≥ KE_MAX_DYNAMIC_LIGHTS
  · rw [if_pos hfull]
    exact h
  · rw [if_neg hfull]
    simp only [List.length_append, List.length_singleton]
    omega

theorem CreateLights_length {L : Type} (created lights : List L)
    (h : lights.length ≤ KE_MAX_DYNAMIC_LIGHTS) :
    (KScene.CreateLights lights created).length ≤ KE_MAX_DYNAMIC_LIGHTS := by
  induction created generalizing lights with
  | nil => exact h
  | cons light rest ih =>
    unfold KScene.CreateLights
    rw [List.foldl_cons]
    exact ih _ (CreateLight_length lights light h)

theorem Update_lights_spec {L R : Type} (record : L → R) (lights : List L) (i : Nat)
    (lightUBO : List R) (h : i + lights.length ≤ lightUBO.length) :
    ∃ out, Update.lights record lights i lightUBO = some out ∧
      out.length = lightUBO.length ∧
      ∀ j, out[j]? =
        if i ≤ j ∧ j < i + lights.length then (lights[j - i]?).map record else lightUBO[j]? := by
  induction lights generalizing i lightUBO with
  | nil =>
    refine ⟨lightUBO, rfl, rfl, ?_⟩
    intro j
    have : ¬ (i ≤ j ∧ j < i + ([] : List L).length) := by
      simp only [List.length_nil]
      omega
    rw [if_neg this]
  | cons light rest ih =>
    simp only [List.length_cons] at h
    have hi : i < lightUBO.length := by omega
    unfold Update.lights
    rw [if_pos hi]
    obtain ⟨out, hout, hlen, hget⟩ := ih (i + 1) (lightUBO.set i (record light))
      (by rw [List.length_set]; omega)
    refine ⟨out, hout, by rw [hlen, List.length_set], ?_⟩
    intro j
    rw [hget j]
    simp only [List.length_cons]
    by_cases hj : i + 1 ≤ j ∧ j < i + 1 + rest.length
    · rw [if_pos hj, if_pos (by omega)]
      have e : j - i = (j - (i + 1)) + 1 := by omega
      rw [e, List.getElem?_cons_succ]
    · rw [if_neg hj]
      by_cases hji : j = i
      · subst hji
        rw [if_pos (by omega), Nat.sub_self, List.getElem?_cons_zero]
        simp [List.getElem?_set, hi]
      · rw [if_neg (by omega), List.getElem?_set_ne (fun e => hji e.symm)]

/-- Claim C23: after every sequence of `CreateLight` calls on a fresh scene the
light list holds at most `KE_MAX_DYNAMIC_LIGHTS` = 128 lights. When it holds
128, a further `CreateLight` leaves it unchanged and returns the last light,
the one at position 127. The loop of `Update` then writes one record per light
into the array of 128 records without leaving it: it completes, entry `j` of
the array is the record of light `j` for every `j` below the number of
lights, and the remaining entries keep their zero value. -/
theorem CreateLight_never_exceeds_maximum {L R : Type} (record : L → R) (zero : R)
    (created : List L) (light : L) :
    (KScene.CreateLights [] created).length ≤ KE_MAX_DYNAMIC_LIGHTS ∧
      ((KScene.CreateLights [] created).length = KE_MAX_DYNAMIC_LIGHTS →
        KScene.CreateLight (KScene.CreateLights [] created) light =
          (KE_MAX_DYNAMIC_LIGHTS - 1, KScene.CreateLights [] created)) ∧
      ∃ lightUBO, KScene.Update.lightUBO record zero (KScene.CreateLights [] created) =
          some lightUBO ∧
        lightUBO.length = KE_MAX_DYNAMIC_LIGHTS ∧
        ∀ j, lightUBO[j]? =
          if j < (KScene.CreateLights [] created).length then
            ((KScene.CreateLights [] created)[j]?).map record
          else if j < KE_MAX_DYNAMIC_LIGHTS then some zero else none := by
  have hlen : (KScene.CreateLights ([] : List L) created).length ≤ KE_MAX_DYNAMIC_LIGHTS :=
    CreateLights_length created [] (Nat.zero_le _)
  refine ⟨hlen, ?_, ?_⟩
  · intro hfull
    unfold KScene.CreateLight
    rw [if_pos (by omega), hfull]
  · obtain ⟨out, hout, holen, hget⟩ := Update_lights_spec record
      (KScene.CreateLights [] created) 0 (List.replicate KE_MAX_DYNAMIC_LIGHTS zero)
      (by rw [List.length_replicate]; omega)
    refine ⟨out, hout, by rw [holen, List.length_replicate], ?_⟩
    intro j
    rw [hget j]
    by_cases hj : j < (KScene.CreateLights [] created).length
    · rw [if_pos (by omega), if_pos hj, Nat.sub_zero]
    · rw [if_neg (by omega), if_neg hj]
      by_cases hk : j < KE_MAX_DYNAMIC_LIGHTS
      · rw [if_pos hk]
        simp [List.getElem?_replicate, hk]
      · rw [if_neg hk]
        simp [List.getElem?_replicate, hk]

set_option maxRecDepth 20000 in
theorem CreateLight_at_the_limit :
    (KScene.CreateLights [] (List.range 130)).length = 128 ∧
      KScene.CreateLight (KScene.CreateLights [] (List.range 130)) 500 =
        (127, KScene.CreateLights [] (List.range 130)) ∧
      (KScene.CreateLights [] (List.range 130))[127]? = some 127 := by
  decide

/-! ### Queue family indices -/

theorem GetQueueFamilyIndices_head (features : KDeviceFeatures) :
    (KVulkanDevice.GetQueueFamilyIndices features).head? = some features.graphicsFamily := by
  unfold KVulkanDevice.GetQueueFamilyIndices
  by_cases hp : features.graphicsFamily ≠ features.presentFamily <;>
    by_cases ht : features.graphicsFamily ≠ features.transferFamily <;>
    simp [hp, ht]

theorem GetQueueFamilyIndices_nodup_iff (features : KDeviceFeatures) :
    (KVulkanDevice.GetQueueFamilyIndices features).Nodup ↔
      (features.presentFamily = features.transferFamily →
        features.graphicsFamily = features.presentFamily) := by
  obtain ⟨g, p, t⟩ := features
  unfold KVulkanDevice.GetQueueFamilyIndices
  simp only []
  by_cases hp : g = p
  · subst hp
    by_cases ht : g = t
    · subst ht
      simp
    · simp [ht]
  · by_cases ht : g = t
    · subst ht
      simp [hp]
      exact fun e => hp e.symm
    · have hpt : (p = t → g = p) ↔ ¬ p = t :=
        ⟨fun h e => hp (h e), fun h e => absurd e h⟩
      rw [hpt]
      simp [hp, ht]

/-- Claim C24, evaluated on a device whose queue family 0 does graphics, compute
and transfer and whose family 1 does compute and transfer, both able to
present: device selection chooses graphics family 0 and present and transfer
family 1, and `GetQueueFamilyIndices` returns `0, 1, 1`. The list starts with
the graphics family, as claimed, and holds index 1 twice, where the claim
expects no index twice. -/
theorem GetQueueFamilyIndices_repeats_an_index :
    KVulkanDevice.GetDeviceFeatures demoQueueFamilies =
        .ok { graphicsFamily := 0, presentFamily := 1, transferFamily := 1 } ∧
      KVulkanDevice.GetQueueFamilyIndices
        { graphicsFamily := 0, presentFamily := 1, transferFamily := 1 } = [0, 1, 1] :=
  ⟨rfl, rfl⟩

/-! ### Graphics pipeline creation -/

theorem CreatePipeline_pipeline_failure (driver : PipelineDriver)
    (hlayout : driver.vkCreatePipelineLayout = VK_SUCCESS)
    (hpipeline : driver.vkCreateGraphicsPipelines ≠ VK_SUCCESS) :
    KVulkanGraphicsPipeline.CreatePipeline driver = false ∧
      KVulkanGraphicsPipeline.Initialize true driver = .KE_VULKAN_GPIPELINE_FAIL := by
  have h : KVulkanGraphicsPipeline.CreatePipeline driver = false := by
    unfold KVulkanGraphicsPipeline.CreatePipeline
    simp [hlayout, hpipeline]
  refine ⟨h, ?_⟩
  unfold KVulkanGraphicsPipeline.Initialize
  simp [h]

theorem CreatePipeline_layout_failure (driver : PipelineDriver)
    (hlayout : driver.vkCreatePipelineLayout ≠ VK_SUCCESS) :
    KVulkanGraphicsPipeline.CreatePipeline driver = true ∧
      KVulkanGraphicsPipeline.Initialize true driver = .KE_OK := by
  have h : KVulkanGraphicsPipeline.CreatePipeline driver = true := by
    unfold KVulkanGraphicsPipeline.CreatePipeline
    rw [if_pos hlayout]
    rfl
  refine ⟨h, ?_⟩
  unfold KVulkanGraphicsPipeline.Initialize
  simp [h]

/-- Claim C25, evaluated on a driver whose `vkCreatePipelineLayout` fails with
`VK_ERROR_OUT_OF_DEVICE_MEMORY`: `CreatePipeline` returns true and `Initialize`
returns `KE_OK`. The statement `return KE_VULKAN_GPIPELINE_FAIL;` in a function
of result type `bool` converts the nonzero code 12 to true, where the claim
expects false and the graphics-pipeline failure code. -/
theorem CreatePipeline_layout_failure_reports_success :
    KVulkanGraphicsPipeline.CreatePipeline
        { vkCreatePipelineLayout := VK_ERROR_OUT_OF_DEVICE_MEMORY
          vkCreateGraphicsPipelines := VK_SUCCESS } = true ∧
      KVulkanGraphicsPipeline.Initialize true
        { vkCreatePipelineLayout := VK_ERROR_OUT_OF_DEVICE_MEMORY
          vkCreateGraphicsPipelines := VK_SUCCESS } = .KE_OK ∧
      KError.toInt .KE_VULKAN_GPIPELINE_FAIL = 12 :=
  ⟨rfl, rfl, rfl⟩

/-! ### Materials and loaders of a scene -/

/-- Claim C29, evaluated on a fresh scene after `Clear` and one `LoadModel`: the
constructor stores material 0 in `dummyMat`, `Clear` deletes it with the rest
of the material list and leaves `dummyMat` as it is, and `LoadModel` hands the
deleted material 0 to the new object. The material list is empty then, and the
next `Actualize` allocates no descriptor set for material 0. The claim expects
the default material to be an element of the material list. -/
theorem LoadModel_after_Clear_assigns_deleted_material :
    SceneMaterials.new.dummyMat = 0 ∧
      SceneMaterials.new.materials = [{ id := 0, descriptorSet := none }] ∧
      SceneMaterials.new.Clear.LoadModel.objectMaterials = [0] ∧
      SceneMaterials.new.Clear.LoadModel.materials = [] ∧
      SceneMaterials.new.Clear.LoadModel.Actualize.materials = [] ∧
      (Actualize.descriptors SceneMaterials.new.Clear.LoadModel.materials).descPool.sets.length =
        3 := by
  decide

theorem LoadModel_before_Clear_assigns_listed_material :
    SceneMaterials.new.LoadModel.objectMaterials = [0] ∧
      SceneMaterials.new.LoadModel.Actualize.materials =
        [{ id := 0, descriptorSet := some 0 }] := by
  decide

/-- Claim C30, evaluated on the two constructions the engine performs. With a
texture loader 7 supplied through `KEngine::CreateScene` and the model loader
101 created by the scene, the texture loader ends up marked as not user-set
and the model loader as user-set, and the destructor deletes the caller's
loader 7 and keeps its own loader 101. With both loaders created by the scene
(100 and 101) the destructor deletes 100 only. The branch for the model loader
clears `hasUserSetTextureLoader`, where the claim expects the scene to delete
exactly the loaders it created. -/
theorem KScene_deletes_the_wrong_loader :
    KEngine.CreateScene (some 7) 100 101 =
        { texLoader := 7
          hasUserSetTextureLoader := false
          objLoader := 101
          hasUserSetModelLoader := true } ∧
      (KEngine.CreateScene (some 7) 100 101).delete = [7] ∧
      (KEngine.CreateScene none 100 101).delete = [100] ∧
      (SceneLoaders.new (some 7) (some 8) 100 101).delete = [] := by
  decide

/-! ### Object draws and the static render pass -/

theorem DrawObjects_loop_draws {V : Type} (dynamicAlignment : Nat) (objects : List (KObject V))
    (i : Nat) :
    (DrawObjects.loop dynamicAlignment objects i).map (fun d => d.draw) =
      objects.map (fun object =>
        { indexCount := object.mesh.indices.length
          instanceCount := 1
          firstIndex := 0
          vertexOffset := object.mesh.bufferOffset
          firstInstance := 0 }) := by
  induction objects generalizing i with
  | nil => rfl
  | cons object rest ih =>
    simp only [DrawObjects.loop, List.map_cons, ih (i + 1)]
    rfl

theorem DrawObjects_loop_slots {V : Type} (dynamicAlignment : Nat) (objects : List (KObject V))
    (i : Nat) :
    (DrawObjects.loop dynamicAlignment objects i).map (fun d => d.vxUBOOffset) =
      (List.range' i objects.length).map (fun j => toSizeT (j * dynamicAlignment)) := by
  induction objects generalizing i with
  | nil => rfl
  | cons object rest ih =>
    simp only [DrawObjects.loop, List.map_cons, ih (i + 1), List.length_cons, List.range'_succ]

/-- Claim C26, evaluated after `Actualize` on two scenes. With built-in meshes of
3 and 5 vertices the combined index buffer is `0,1,2,0,1,2,3,4` and the draw of
object 1 has `firstIndex` 0 and `indexCount` 5: it reads `0,1,2,0,1`, not the
object's own list `0,1,2,3,4`. With a quad (4 vertices) followed by a two-sided
triangle (3 vertices, 6 indices) the draw of object 1 reads the quad's entries
`0,1,2,2,1,3` and with its base vertex 4 addresses position 7 of a combined
vertex buffer of 7 vertices. Every draw passes `firstIndex` 0, where the claim
expects each draw to read its own object's entries. -/
theorem DrawObjects_reads_the_first_index_entries :
    (demoInstancedScene 256 [demoMesh 0 3, demoMesh 3 5] []).map (fun t =>
        (t.indexBufferContents, t.DrawObjects.map (fun d => d.draw),
          t.objects.map (fun o => o.mesh.indices), t.objectIndexReads)) =
      some ([0, 1, 2, 0, 1, 2, 3, 4],
        [{ indexCount := 3, instanceCount := 1, firstIndex := 0, vertexOffset := 0,
           firstInstance := 0 },
         { indexCount := 5, instanceCount := 1, firstIndex := 0, vertexOffset := 3,
           firstInstance := 0 }],
        [[0, 1, 2], [0, 1, 2, 3, 4]],
        [[0, 1, 2], [0, 1, 2, 0, 1]]) ∧
      (demoInstancedScene 256 [demoQuadMesh, demoTwoSidedMesh] []).map (fun t =>
        (t.vertexBufferContents.length, t.objects.map (fun o => o.mesh.indices),
          t.objectIndexReads, t.objectVertexReads)) =
      some (7,
        [[0, 1, 2, 2, 1, 3], [0, 1, 2, 2, 1, 0]],
        [[0, 1, 2, 2, 1, 3], [0, 1, 2, 2, 1, 3]],
        [[0, 1, 2, 2, 1, 3], [4, 5, 6, 6, 5, 7]]) := by
  decide

theorem loop_stuck {V D : Type} (objects : List (KObject V))
    (instancedObjects : List (KInstancedObject D)) (i : Nat) (parent : KObject V)
    (hi : i < instancedObjects.length)
    (hparent : objects[(instancedObjects.get ⟨i, hi⟩).instanceParent]? = some parent)
    (hcount : parent.instanceCount = 0) (fuel : Nat) :
    DrawInstancedObjects.loop objects instancedObjects fuel i = none := by
  induction fuel with
  | zero => rfl
  | succ fuel ih =>
    unfold DrawInstancedObjects.loop
    rw [dif_pos hi]
    have hp : objects[(instancedObjects[i]).instanceParent]? = some parent := hparent
    simp only [hp, hcount, Nat.add_zero, ih]

/-- Claim C27, evaluated on the scene with one object and one instance added to
it through `KScene::AddObjectInstance`, then actualized: the scene is reachable
through the public interface, the parent of its only instance has
`instanceCount` 0, and the loop of `DrawInstancedObjects` does not complete
with any amount of fuel: every iteration adds 0 to the cursor. The claim
expects the loop to terminate. -/
theorem DrawInstancedObjects_spins_on_added_instance (fuel : Nat) :
    ∃ t, demoAddedInstanceScene = some t ∧ KScene.Reachable demoSizes t ∧
      t.instanceParents = [0] ∧ t.GetInstanceCount 0 = 0 ∧
      t.DrawInstancedObjects fuel = none :=
  ⟨_, rfl,
    KScene.Reachable.actualize _ _
      (KScene.Reachable.addObjectInstance _ 0 0
        (KScene.Reachable.loadModel _ (demoMesh 0 3)
          (KScene.Reachable.new (demoContext 256) _ rfl))) rfl,
    rfl, rfl,
    loop_stuck _ _ 0 _ (by decide) rfl rfl fuel⟩

/-- Claim C28, evaluated on two reachable scenes in which the static render pass
is recorded again by a swap chain recreation. In the first, `Actualize` ran on
the empty scene (one slot of 256 bytes) and two objects were loaded since: the
recording writes the block of object 1 at offset 256 of the host block, and
`(1 + 1) * 256` exceeds the buffer size 256. In the second, `Actualize` ran
without instances and one instance was created since: the recording calls
`DrawInstancedObjects` while `doCreateInstancingPipeline` is still false, so
`RecreateSwapChain` deletes the instance pipeline and does not create one. The
claim expects the slots to lie inside the buffer and the pipeline to exist. -/
theorem StaticRenderCallback_records_stale_scene :
    (∃ s, demoStaleScene = some s ∧ KScene.Reachable demoSizes s ∧
      s.StaticRenderCallback.map (fun r => (r.1.map (fun d => d.vxUBOOffset), r.2)) =
        some ([0, 256], false) ∧
      s.dynamicAlignment = 256 ∧
      s.vxDynamicBuffer.map (fun b => b.size) = some 256 ∧
      256 < (1 + 1) * s.dynamicAlignment) ∧
    (∃ s, demoStaleInstancedScene = some s ∧ KScene.Reachable demoSizes s ∧
      s.StaticRenderCallback.map (fun r => r.2) = some true ∧
      s.vulkan.doCreateInstancingPipeline = false ∧
      KVulkan.RecreateSwapChain s.vulkan.doCreateInstancingPipeline =
        KVulkan.DestroySwapChain ++ KVulkan.InitializeGraphics false ∧
      (KVulkan.InitializeGraphics false).contains (.create .instancePipeline) = false) :=
  ⟨⟨_, rfl,
      KScene.Reachable.loadModel _ (demoMesh 3 3)
        (KScene.Reachable.loadModel _ (demoMesh 0 3)
          (KScene.Reachable.actualize _ _ (KScene.Reachable.new (demoContext 256) _ rfl) rfl)),
      rfl, rfl, rfl, by decide⟩,
    ⟨_, rfl,
      KScene.Reachable.createInstance _ 0 0
        (KScene.Reachable.actualize _ _
          (KScene.Reachable.loadModel _ (demoMesh 0 3)
            (KScene.Reachable.new (demoContext 256) _ rfl)) rfl)
        (by decide),
      rfl, rfl, rfl, by decide⟩⟩

end Kitty
